import Mathlib

/-!
# Settings store of the Milight hub: patch, serialize, load and the derived accessors

A shallow embedding of `lib/Settings/Settings.cpp`.  Arduino `String` values are Lean
strings, handled through their character lists; machine integers are natural numbers
reduced modulo `2 ^ w` wherever the source converts to a `w`-bit unsigned type.
-/

namespace Milight

/-! ## Arduino `String` primitives used by the source -/

/-- The C function `tolower` in the "C" locale, on character codes: the codes of `A`..`Z`
are moved to `a`..`z`, every other code is returned unchanged. -/
def tolower (c : Nat) : Nat :=
  if 65 ≤ c ∧ c ≤ 90 then c + 32 else c

/-- Character loop of `String::equalsIgnoreCase`, run after the length test. -/
def equalsIgnoreCaseLoop : List Char → List Char → Bool
  | [], _ => true
  | _ :: _, [] => false
  | c1 :: p1, c2 :: p2 =>
    if tolower c1.toNat != tolower c2.toNat then false else equalsIgnoreCaseLoop p1 p2

/-- Arduino `String::equalsIgnoreCase`: different lengths are unequal, otherwise the
characters are compared through `tolower`. -/
def equalsIgnoreCase (s s2 : String) : Bool :=
  if s.data.length != s2.data.length then false
  else if s.data.length == 0 then true
  else equalsIgnoreCaseLoop s.data s2.data

/-- Search loop of `String::indexOf(char)`: the index of the first occurrence of `c`
at or after position `i`, or `-1`. -/
def indexOfFrom (c : Char) : List Char → Nat → Int
  | [], _ => -1
  | x :: xs, i => if x = c then (i : Int) else indexOfFrom c xs (i + 1)

/-- Arduino `String::indexOf(char)`. -/
def indexOf (s : String) (c : Char) : Int :=
  indexOfFrom c s.data 0

/-- Arduino `String::substring(0, right)` for `0 ≤ right`. -/
def substring0 (s : String) (right : Nat) : String :=
  String.mk (s.data.take right)

/-- The C predicate `isspace` in the "C" locale. -/
def isspace (c : Char) : Bool :=
  c = ' ' || c = '\t' || c = '\n' || c = '\x0b' || c = '\x0c' || c = '\r'

/-- The C predicate `isdigit`. -/
def isdigit (c : Char) : Bool :=
  48 ≤ c.toNat && c.toNat ≤ 57

/-- Digit loop of `atoi`: accumulate decimal digits until the first non-digit, as a
mathematical value. -/
def atoiDigits : Nat → List Char → Nat
  | acc, [] => acc
  | acc, c :: cs => if isdigit c then atoiDigits (acc * 10 + (c.toNat - 48)) cs else acc

/-- The constant `LONG_MIN` of the ESP8266 target, where `int` and `long` are both 32 bits
wide. -/
def LONG_MIN : Int := -2147483648

/-- The constant `LONG_MAX` of the ESP8266 target. -/
def LONG_MAX : Int := 2147483647

/-- What `strtol` returns for a value: the value itself inside the range of `long`,
`LONG_MAX` above it and `LONG_MIN` below it. -/
def strtolClamp (v : Int) : Int :=
  if v > LONG_MAX then LONG_MAX else if v < LONG_MIN then LONG_MIN else v

/-- Sign and digits of `strtol` in base 10, after the leading white space; a value
outside the range of `long` saturates. -/
def atoiSigned : List Char → Int
  | '-' :: cs => strtolClamp (- (atoiDigits 0 cs : Int))
  | '+' :: cs => strtolClamp (atoiDigits 0 cs : Int)
  | cs => strtolClamp (atoiDigits 0 cs : Int)

/-- The C function `atoi` on a NUL-terminated character sequence, which the C library of
the target computes as `(int) strtol(s, NULL, 10)`: leading white space is skipped, an
optional sign is read, then decimal digits up to the first other character, and a value
that does not fit a `long` saturates to `LONG_MAX` or `LONG_MIN`.  With `int` as wide as
`long` the cast to `int` keeps the value. -/
def atoi : List Char → Int
  | [] => 0
  | c :: cs => if isspace c then atoi cs else atoiSigned (c :: cs)

/-! ## Radio interface type -/

/-- The enumeration `RadioInterfaceType`. -/
inductive RadioInterfaceType
  | nRF24
  | LT8900
  deriving DecidableEq, Repr

/-- Translation of `Settings::typeFromString`. -/
def typeFromString (s : String) : RadioInterfaceType :=
  if equalsIgnoreCase s "lt8900" then RadioInterfaceType.LT8900
  else RadioInterfaceType.nRF24

/-- Translation of `Settings::typeToString`. -/
def typeToString (type : RadioInterfaceType) : String :=
  match type with
  | RadioInterfaceType.LT8900 => "LT8900"
  | RadioInterfaceType.nRF24 => "nRF24"

/-! ## The document tree (ArduinoJson 5) -/

/-- A document value: the tagged union the JSON library parses into and prints from.
Numbers are integers; fractional numbers are not represented. -/
inductive Json
  | null
  | bool (b : Bool)
  | num (n : Int)
  | str (s : String)
  | arr (elems : List Json)
  | obj (members : List (String × Json))

/-- A `JsonArray&`: `success()` and the elements.  `JsonArray::invalid()` is
`⟨false, []⟩`. -/
structure JsonArray where
  success : Bool
  elems : List Json

/-- A `JsonObject&`: `success()` and the members in insertion order. -/
structure JsonObject where
  success : Bool
  members : List (String × Json)

/-- The reference `JsonArray::invalid()`. -/
def JsonArray.invalid : JsonArray := ⟨false, []⟩

/-- The method `JsonArray::size`. -/
def JsonArray.size (arr : JsonArray) : Nat := arr.elems.length

/-- Conversion of a variant to `JsonArray&`: the array itself, or the invalid array
when the variant holds anything else. -/
def asArray : Json → JsonArray
  | Json.arr elems => ⟨true, elems⟩
  | _ => JsonArray.invalid

/-- The method `JsonObject::containsKey`. -/
def JsonObject.containsKey (o : JsonObject) (key : String) : Bool :=
  (o.members.lookup key).isSome

/-- The subscript `obj[key]` read as a variant; a missing key reads as null. -/
def JsonObject.get (o : JsonObject) (key : String) : Json :=
  (o.members.lookup key).getD Json.null

/-- Assignment `obj[key] = value` on a member list: the value of an existing key is
replaced, a new key is appended. -/
def setMember (key : String) (value : Json) : List (String × Json) → List (String × Json)
  | [] => [(key, value)]
  | (k, v) :: rest =>
    if k = key then (k, value) :: rest else (k, v) :: setMember key value rest

/-- Assignment `obj[key] = value`. -/
def JsonObject.set (o : JsonObject) (key : String) (value : Json) : JsonObject :=
  { o with members := setMember key value o.members }

/-- The library routine `parseInteger<T>` for a `w`-bit unsigned `T`: a text starting
with `t` is 1, otherwise an optional sign and decimal digits, computed in `T`. -/
def parseInteger (w : Nat) : List Char → Nat
  | 't' :: _ => 1
  | '-' :: cs => (2 ^ w - atoiDigits 0 cs % 2 ^ w) % 2 ^ w
  | '+' :: cs => atoiDigits 0 cs % 2 ^ w
  | cs => atoiDigits 0 cs % 2 ^ w

/-- Conversion of a variant to a `w`-bit unsigned integer (`as<uint8_t>`, `as<uint16_t>`,
`as<size_t>`): numbers are reduced modulo `2 ^ w`, booleans are 0 or 1, strings go
through `parseInteger`, everything else is 0. -/
def asUInt (w : Nat) : Json → Nat
  | Json.num n => (n % (2 : Int) ^ w).toNat
  | Json.bool b => if b then 1 % 2 ^ w else 0
  | Json.str s => parseInteger w s.data
  | _ => 0

/-- Conversion of a variant to `bool`: the variant read as an `int` is non-zero. -/
def asBool (v : Json) : Bool :=
  asUInt 32 v != 0

/-- Conversion of a variant to `String`: a string is itself, other values are printed
as compact JSON text; `printTo` is the library printer, used for the compound values. -/
def asString (printTo : Json → String) : Json → String
  | Json.str s => s
  | Json.num n => toString n
  | Json.bool b => if b then "true" else "false"
  | Json.null => "null"
  | v => printTo v

/-! ## The configuration structure -/

/-- The record `GatewayConfig`: `uint16_t deviceId`, `uint16_t port`,
`uint8_t protocolVersion`. -/
structure GatewayConfig where
  deviceId : Nat
  port : Nat
  protocolVersion : Nat
  deriving DecidableEq, Repr

/-- The constructor `GatewayConfig::GatewayConfig`; its arguments arrive converted to
the parameter types. -/
def GatewayConfig.new (deviceId port protocolVersion : Nat) : GatewayConfig :=
  ⟨deviceId % 2 ^ 16, port % 2 ^ 16, protocolVersion % 2 ^ 8⟩

/-- The class `Settings`, over the four enumerations declared outside
`Settings.cpp` (radio channel, radio power level, LED mode, group state field). -/
@[ext]
structure Settings (RF24Channel RF24PowerLevel LEDMode GroupStateField : Type) where
  adminUsername : String
  adminPassword : String
  cePin : Nat
  csnPin : Nat
  resetPin : Nat
  ledPin : Nat
  radioInterfaceType : RadioInterfaceType
  packetRepeats : Nat
  httpRepeatFactor : Nat
  _autoRestartPeriod : Nat
  _mqttServer : String
  mqttUsername : String
  mqttPassword : String
  mqttTopicPattern : String
  mqttUpdateTopicPattern : String
  mqttStateTopicPattern : String
  mqttClientStatusTopic : String
  discoveryPort : Nat
  listenRepeats : Nat
  stateFlushInterval : Nat
  mqttStateRateLimit : Nat
  packetRepeatThrottleSensitivity : Nat
  packetRepeatThrottleThreshold : Nat
  packetRepeatMinimum : Nat
  enableAutomaticModeSwitching : Bool
  ledModeWifiConfig : LEDMode
  ledModeWifiFailed : LEDMode
  ledModeOperating : LEDMode
  ledModePacket : LEDMode
  ledModePacketCount : Nat
  hostname : String
  rf24PowerLevel : RF24PowerLevel
  rf24ListenChannel : RF24Channel
  wifiStaticIP : String
  wifiStaticIPGateway : String
  wifiStaticIPNetmask : String
  rf24Channels : List RF24Channel
  deviceIds : List Nat
  gatewayConfigs : List GatewayConfig
  groupStateFields : List GroupStateField

/-- Bit widths of the unsigned integer members of `Settings` whose declarations are in
`Settings.h`; `sizeBits` is the width of `size_t`, the type of `_autoRestartPeriod`. -/
structure FieldWidths where
  sizeBits : Nat
  cePin : Nat
  csnPin : Nat
  resetPin : Nat
  ledPin : Nat
  packetRepeats : Nat
  httpRepeatFactor : Nat
  discoveryPort : Nat
  listenRepeats : Nat
  stateFlushInterval : Nat
  mqttStateRateLimit : Nat
  packetRepeatThrottleSensitivity : Nat
  packetRepeatThrottleThreshold : Nat
  packetRepeatMinimum : Nat
  ledModePacketCount : Nat

/-- What `Settings.cpp` takes from the rest of the firmware and from its libraries:
the constants and member types of `Settings.h`, the enumeration codecs, `parseInt` of
`IntParsing.h`, the default-constructed `Settings`, and the JSON printer and parser. -/
structure Env (RF24Channel RF24PowerLevel LEDMode GroupStateField : Type) where
  MINIMUM_RESTART_PERIOD : Nat
  DEFAULT_MQTT_PORT : Nat
  widths : FieldWidths
  channelValueFromName : String → RF24Channel
  channelNameFromValue : RF24Channel → String
  powerLevelValueFromName : String → RF24PowerLevel
  powerLevelNameFromValue : RF24PowerLevel → String
  stringToLEDMode : String → LEDMode
  LEDModeToString : LEDMode → String
  getFieldByName : String → GroupStateField
  getFieldName : GroupStateField → String
  parseInt : String → Nat
  defaults : Settings RF24Channel RF24PowerLevel LEDMode GroupStateField
  printTo : Json → String
  parseObject : String → JsonObject

section Operations

variable {RF24Channel RF24PowerLevel LEDMode GroupStateField : Type}

/-- Translation of `Settings::hasAuthSettings`. -/
def hasAuthSettings (S : Settings RF24Channel RF24PowerLevel LEDMode GroupStateField) : Bool :=
  decide (S.adminUsername.data.length > 0) && decide (S.adminPassword.data.length > 0)

/-- Translation of `Settings::isAutoRestartEnabled`. -/
def isAutoRestartEnabled (S : Settings RF24Channel RF24PowerLevel LEDMode GroupStateField) :
    Bool :=
  decide (S._autoRestartPeriod > 0)

/-- Translation of `Settings::getAutoRestartPeriod`; the constant is cast to `size_t`. -/
def getAutoRestartPeriod (E : Env RF24Channel RF24PowerLevel LEDMode GroupStateField)
    (S : Settings RF24Channel RF24PowerLevel LEDMode GroupStateField) : Nat :=
  if S._autoRestartPeriod = 0 then 0
  else max S._autoRestartPeriod (E.MINIMUM_RESTART_PERIOD % 2 ^ E.widths.sizeBits)

/-- The macro `PORT_POSITION`. -/
def PORT_POSITION (s : String) : Int :=
  indexOf s ':'

/-- Translation of `Settings::mqttServer`. -/
def mqttServer (S : Settings RF24Channel RF24PowerLevel LEDMode GroupStateField) : String :=
  let pos := PORT_POSITION S._mqttServer
  if pos = -1 then S._mqttServer
  else substring0 S._mqttServer pos.toNat

/-- Translation of `Settings::mqttPort`; the result is converted to `uint16_t`. -/
def mqttPort (E : Env RF24Channel RF24PowerLevel LEDMode GroupStateField)
    (S : Settings RF24Channel RF24PowerLevel LEDMode GroupStateField) : Nat :=
  let pos := PORT_POSITION S._mqttServer
  if pos = -1 then E.DEFAULT_MQTT_PORT % 2 ^ 16
  else (atoi (S._mqttServer.data.drop (pos + 1).toNat) % (2 : Int) ^ 16).toNat

/-! ## Helpers declared outside `Settings.cpp` -/

/-- Modelled from the spec: the template `Settings::setIfPresent` of `Settings.h`, the
typed field setter.  If the document contains a value at the key, it is converted and
assigned to the destination; otherwise the destination is left untouched. -/
def setIfPresent {α : Type} (obj : JsonObject) (key : String) (conv : Json → α) (var : α) : α :=
  if obj.containsKey key then conv (obj.get key) else var

/-- Modelled from the spec: `JsonHelpers::jsonArrToVector` of `JsonHelpers.h`, the
document-to-sequence converter.  Given a document array and a per-element decode
function it produces the ordered sequence of decoded elements; the invalid array has no
elements. -/
def jsonArrToVector {T : Type} (printTo : Json → String) (arr : JsonArray)
    (converter : String → T) : List T :=
  arr.elems.map (fun v => converter (asString printTo v))

/-- Modelled from the spec: `JsonHelpers::vectorToJsonArr` of `JsonHelpers.h`, the
sequence-to-document converter.  Given a sequence and a per-element encode function it
produces the elements of a document array, preserving order. -/
def vectorToJsonArr {T : Type} (vec : List T) (converter : T → String) : List Json :=
  vec.map (fun x => Json.str (converter x))

/-- The library method `JsonArray::copyFrom<uint16_t>`: every value is added as a
number. -/
def copyFrom (values : List Nat) : List Json :=
  values.map (fun (x : Nat) => Json.num (x : Int))

/-! ## Patch, serialize, load and save -/

/-- Translation of `Settings::updateDeviceIds`: on a valid array the list is cleared and
every element, converted to `uint16_t`, is pushed back in index order. -/
def updateDeviceIds (S : Settings RF24Channel RF24PowerLevel LEDMode GroupStateField)
    (arr : JsonArray) : Settings RF24Channel RF24PowerLevel LEDMode GroupStateField :=
  if arr.success then
    arr.elems.foldl (fun S v => { S with deviceIds := S.deviceIds ++ [asUInt 16 v] })
      { S with deviceIds := [] }
  else S

/-- Body of the loop of `Settings::updateGatewayConfigs` for one element. -/
def updateGatewayConfigsStep (E : Env RF24Channel RF24PowerLevel LEDMode GroupStateField)
    (S : Settings RF24Channel RF24PowerLevel LEDMode GroupStateField) (elem : Json) :
    Settings RF24Channel RF24PowerLevel LEDMode GroupStateField :=
  let params := asArray elem
  if params.success && params.size == 3 then
    let ptr := GatewayConfig.new
      (E.parseInt (asString E.printTo (params.elems.getD 0 Json.null)) % 2 ^ 16)
      (asUInt 16 (params.elems.getD 1 Json.null))
      (asUInt 8 (params.elems.getD 2 Json.null))
    { S with gatewayConfigs := S.gatewayConfigs ++ [ptr] }
  else S

/-- Translation of `Settings::updateGatewayConfigs`: on a valid array the list is
cleared and the loop body is run on every element in index order. -/
def updateGatewayConfigs (E : Env RF24Channel RF24PowerLevel LEDMode GroupStateField)
    (S : Settings RF24Channel RF24PowerLevel LEDMode GroupStateField) (arr : JsonArray) :
    Settings RF24Channel RF24PowerLevel LEDMode GroupStateField :=
  if arr.success then
    arr.elems.foldl (updateGatewayConfigsStep E) { S with gatewayConfigs := [] }
  else S

/-- The statements of `Settings::patch` inside `if (parsedSettings.success())`, in
source order. -/
def patchFields (E : Env RF24Channel RF24PowerLevel LEDMode GroupStateField)
    (S : Settings RF24Channel RF24PowerLevel LEDMode GroupStateField)
    (parsedSettings : JsonObject) :
    Settings RF24Channel RF24PowerLevel LEDMode GroupStateField :=
  S
  |> (fun S =>
    { S with
      adminUsername :=
        setIfPresent parsedSettings "admin_username" (asString E.printTo) S.adminUsername })
  |> (fun S =>
    { S with
      adminPassword :=
        setIfPresent parsedSettings "admin_password" (asString E.printTo) S.adminPassword })
  |> (fun S =>
    { S with
      cePin :=
        setIfPresent parsedSettings "ce_pin" (asUInt E.widths.cePin) S.cePin })
  |> (fun S =>
    { S with
      csnPin :=
        setIfPresent parsedSettings "csn_pin" (asUInt E.widths.csnPin) S.csnPin })
  |> (fun S =>
    { S with
      resetPin :=
        setIfPresent parsedSettings "reset_pin" (asUInt E.widths.resetPin) S.resetPin })
  |> (fun S =>
    { S with
      ledPin :=
        setIfPresent parsedSettings "led_pin" (asUInt E.widths.ledPin) S.ledPin })
  |> (fun S =>
    { S with
      packetRepeats :=
        setIfPresent parsedSettings "packet_repeats" (asUInt E.widths.packetRepeats)
          S.packetRepeats })
  |> (fun S =>
    { S with
      httpRepeatFactor :=
        setIfPresent parsedSettings "http_repeat_factor" (asUInt E.widths.httpRepeatFactor)
          S.httpRepeatFactor })
  |> (fun S =>
    { S with
      _autoRestartPeriod :=
        setIfPresent parsedSettings "auto_restart_period" (asUInt E.widths.sizeBits)
          S._autoRestartPeriod })
  |> (fun S =>
    { S with
      _mqttServer :=
        setIfPresent parsedSettings "mqtt_server" (asString E.printTo) S._mqttServer })
  |> (fun S =>
    { S with
      mqttUsername :=
        setIfPresent parsedSettings "mqtt_username" (asString E.printTo) S.mqttUsername })
  |> (fun S =>
    { S with
      mqttPassword :=
        setIfPresent parsedSettings "mqtt_password" (asString E.printTo) S.mqttPassword })
  |> (fun S =>
    { S with
      mqttTopicPattern :=
        setIfPresent parsedSettings "mqtt_topic_pattern" (asString E.printTo) S.mqttTopicPattern })
  |> (fun S =>
    { S with
      mqttUpdateTopicPattern :=
        setIfPresent parsedSettings "mqtt_update_topic_pattern" (asString E.printTo)
          S.mqttUpdateTopicPattern })
  |> (fun S =>
    { S with
      mqttStateTopicPattern :=
        setIfPresent parsedSettings "mqtt_state_topic_pattern" (asString E.printTo)
          S.mqttStateTopicPattern })
  |> (fun S =>
    { S with
      mqttClientStatusTopic :=
        setIfPresent parsedSettings "mqtt_client_status_topic" (asString E.printTo)
          S.mqttClientStatusTopic })
  |> (fun S =>
    { S with
      discoveryPort :=
        setIfPresent parsedSettings "discovery_port" (asUInt E.widths.discoveryPort)
          S.discoveryPort })
  |> (fun S =>
    { S with
      listenRepeats :=
        setIfPresent parsedSettings "listen_repeats" (asUInt E.widths.listenRepeats)
          S.listenRepeats })
  |> (fun S =>
    { S with
      stateFlushInterval :=
        setIfPresent parsedSettings "state_flush_interval" (asUInt E.widths.stateFlushInterval)
          S.stateFlushInterval })
  |> (fun S =>
    { S with
      mqttStateRateLimit :=
        setIfPresent parsedSettings "mqtt_state_rate_limit" (asUInt E.widths.mqttStateRateLimit)
          S.mqttStateRateLimit })
  |> (fun S =>
    { S with
      packetRepeatThrottleThreshold :=
        setIfPresent parsedSettings "packet_repeat_throttle_threshold"
          (asUInt E.widths.packetRepeatThrottleThreshold)
          S.packetRepeatThrottleThreshold })
  |> (fun S =>
    { S with
      packetRepeatThrottleSensitivity :=
        setIfPresent parsedSettings "packet_repeat_throttle_sensitivity"
          (asUInt E.widths.packetRepeatThrottleSensitivity)
          S.packetRepeatThrottleSensitivity })
  |> (fun S =>
    { S with
      packetRepeatMinimum :=
        setIfPresent parsedSettings "packet_repeat_minimum" (asUInt E.widths.packetRepeatMinimum)
          S.packetRepeatMinimum })
  |> (fun S =>
    { S with
      enableAutomaticModeSwitching :=
        setIfPresent parsedSettings "enable_automatic_mode_switching" asBool
          S.enableAutomaticModeSwitching })
  |> (fun S =>
    { S with
      ledModePacketCount :=
        setIfPresent parsedSettings "led_mode_packet_count" (asUInt E.widths.ledModePacketCount)
          S.ledModePacketCount })
  |> (fun S =>
    { S with
      hostname :=
        setIfPresent parsedSettings "hostname" (asString E.printTo) S.hostname })
  |> (fun S =>
    { S with
      wifiStaticIP :=
        setIfPresent parsedSettings "wifi_static_ip" (asString E.printTo) S.wifiStaticIP })
  |> (fun S =>
    { S with
      wifiStaticIPGateway :=
        setIfPresent parsedSettings "wifi_static_ip_gateway" (asString E.printTo)
          S.wifiStaticIPGateway })
  |> (fun S =>
    { S with
      wifiStaticIPNetmask :=
        setIfPresent parsedSettings "wifi_static_ip_netmask" (asString E.printTo)
          S.wifiStaticIPNetmask })
  |> (fun S =>
    if parsedSettings.containsKey "rf24_channels" then
      let arr := asArray (parsedSettings.get "rf24_channels")
      { S with rf24Channels := jsonArrToVector E.printTo arr E.channelValueFromName }
    else S)
  |> (fun S =>
    if parsedSettings.containsKey "rf24_listen_channel" then
      { S with
        rf24ListenChannel :=
          E.channelValueFromName (asString E.printTo (parsedSettings.get "rf24_listen_channel")) }
    else S)
  |> (fun S =>
    if parsedSettings.containsKey "rf24_power_level" then
      { S with
        rf24PowerLevel :=
          E.powerLevelValueFromName (asString E.printTo (parsedSettings.get "rf24_power_level")) }
    else S)
  |> (fun S =>
    if parsedSettings.containsKey "led_mode_wifi_config" then
      { S with
        ledModeWifiConfig :=
          E.stringToLEDMode (asString E.printTo (parsedSettings.get "led_mode_wifi_config")) }
    else S)
  |> (fun S =>
    if parsedSettings.containsKey "led_mode_wifi_failed" then
      { S with
        ledModeWifiFailed :=
          E.stringToLEDMode (asString E.printTo (parsedSettings.get "led_mode_wifi_failed")) }
    else S)
  |> (fun S =>
    if parsedSettings.containsKey "led_mode_operating" then
      { S with
        ledModeOperating :=
          E.stringToLEDMode (asString E.printTo (parsedSettings.get "led_mode_operating")) }
    else S)
  |> (fun S =>
    if parsedSettings.containsKey "led_mode_packet" then
      { S with
        ledModePacket :=
          E.stringToLEDMode (asString E.printTo (parsedSettings.get "led_mode_packet")) }
    else S)
  |> (fun S =>
    if parsedSettings.containsKey "radio_interface_type" then
      { S with
        radioInterfaceType :=
          typeFromString (asString E.printTo (parsedSettings.get "radio_interface_type")) }
    else S)
  |> (fun S =>
    if parsedSettings.containsKey "device_ids" then
      let arr := asArray (parsedSettings.get "device_ids")
      updateDeviceIds S arr
    else S)
  |> (fun S =>
    if parsedSettings.containsKey "gateway_configs" then
      let arr := asArray (parsedSettings.get "gateway_configs")
      updateGatewayConfigs E S arr
    else S)
  |> (fun S =>
    if parsedSettings.containsKey "group_state_fields" then
      let arr := asArray (parsedSettings.get "group_state_fields")
      { S with groupStateFields := jsonArrToVector E.printTo arr E.getFieldByName }
    else S)

/-- Translation of `Settings::patch`. -/
def patch (E : Env RF24Channel RF24PowerLevel LEDMode GroupStateField)
    (S : Settings RF24Channel RF24PowerLevel LEDMode GroupStateField)
    (parsedSettings : JsonObject) :
    Settings RF24Channel RF24PowerLevel LEDMode GroupStateField :=
  if parsedSettings.success then patchFields E S parsedSettings else S

/-- The loop of `Settings::serialize` that fills `gateway_configs`: one three-element
array per entry. -/
def gatewayConfigsArr (gatewayConfigs : List GatewayConfig) : List Json :=
  gatewayConfigs.map
    (fun g => Json.arr [Json.num g.deviceId, Json.num g.port, Json.num g.protocolVersion])

/-- The document `root` that `Settings::serialize` builds before printing it. -/
def serializeRoot (E : Env RF24Channel RF24PowerLevel LEDMode GroupStateField)
    (S : Settings RF24Channel RF24PowerLevel LEDMode GroupStateField) : JsonObject :=
  (⟨true, []⟩ : JsonObject)
    |>.set "admin_username" (Json.str S.adminUsername)
    |>.set "admin_password" (Json.str S.adminPassword)
    |>.set "ce_pin" (Json.num S.cePin)
    |>.set "csn_pin" (Json.num S.csnPin)
    |>.set "reset_pin" (Json.num S.resetPin)
    |>.set "led_pin" (Json.num S.ledPin)
    |>.set "radio_interface_type" (Json.str (typeToString S.radioInterfaceType))
    |>.set "packet_repeats" (Json.num S.packetRepeats)
    |>.set "http_repeat_factor" (Json.num S.httpRepeatFactor)
    |>.set "auto_restart_period" (Json.num S._autoRestartPeriod)
    |>.set "mqtt_server" (Json.str S._mqttServer)
    |>.set "mqtt_username" (Json.str S.mqttUsername)
    |>.set "mqtt_password" (Json.str S.mqttPassword)
    |>.set "mqtt_topic_pattern" (Json.str S.mqttTopicPattern)
    |>.set "mqtt_update_topic_pattern" (Json.str S.mqttUpdateTopicPattern)
    |>.set "mqtt_state_topic_pattern" (Json.str S.mqttStateTopicPattern)
    |>.set "mqtt_client_status_topic" (Json.str S.mqttClientStatusTopic)
    |>.set "discovery_port" (Json.num S.discoveryPort)
    |>.set "listen_repeats" (Json.num S.listenRepeats)
    |>.set "state_flush_interval" (Json.num S.stateFlushInterval)
    |>.set "mqtt_state_rate_limit" (Json.num S.mqttStateRateLimit)
    |>.set "packet_repeat_throttle_sensitivity" (Json.num S.packetRepeatThrottleSensitivity)
    |>.set "packet_repeat_throttle_threshold" (Json.num S.packetRepeatThrottleThreshold)
    |>.set "packet_repeat_minimum" (Json.num S.packetRepeatMinimum)
    |>.set "enable_automatic_mode_switching" (Json.bool S.enableAutomaticModeSwitching)
    |>.set "led_mode_wifi_config" (Json.str (E.LEDModeToString S.ledModeWifiConfig))
    |>.set "led_mode_wifi_failed" (Json.str (E.LEDModeToString S.ledModeWifiFailed))
    |>.set "led_mode_operating" (Json.str (E.LEDModeToString S.ledModeOperating))
    |>.set "led_mode_packet" (Json.str (E.LEDModeToString S.ledModePacket))
    |>.set "led_mode_packet_count" (Json.num S.ledModePacketCount)
    |>.set "hostname" (Json.str S.hostname)
    |>.set "rf24_power_level" (Json.str (E.powerLevelNameFromValue S.rf24PowerLevel))
    |>.set "rf24_listen_channel" (Json.str (E.channelNameFromValue S.rf24ListenChannel))
    |>.set "wifi_static_ip" (Json.str S.wifiStaticIP)
    |>.set "wifi_static_ip_gateway" (Json.str S.wifiStaticIPGateway)
    |>.set "wifi_static_ip_netmask" (Json.str S.wifiStaticIPNetmask)
    |>.set "rf24_channels" (Json.arr (vectorToJsonArr S.rf24Channels E.channelNameFromValue))
    |>.set "device_ids" (Json.arr (copyFrom S.deviceIds))
    |>.set "gateway_configs" (Json.arr (gatewayConfigsArr S.gatewayConfigs))
    |>.set "group_state_fields" (Json.arr (vectorToJsonArr S.groupStateFields E.getFieldName))

/-- Translation of `Settings::serialize` with `prettyPrint = false`: the text written to
the stream. -/
def serialize (E : Env RF24Channel RF24PowerLevel LEDMode GroupStateField)
    (S : Settings RF24Channel RF24PowerLevel LEDMode GroupStateField) : String :=
  E.printTo (Json.obj (serializeRoot E S).members)

/-- The flash file system as `Settings.cpp` sees it: the contents of `SETTINGS_FILE`
when the file exists, and whether opening it for writing succeeds. -/
structure SPIFFS where
  file : Option String
  writable : Bool

/-- The call `SPIFFS.exists(SETTINGS_FILE)`. -/
def SPIFFS.exists (fs : SPIFFS) : Bool := fs.file.isSome

/-- Translation of `Settings::save`. -/
def save (E : Env RF24Channel RF24PowerLevel LEDMode GroupStateField)
    (S : Settings RF24Channel RF24PowerLevel LEDMode GroupStateField) (fs : SPIFFS) : SPIFFS :=
  if !fs.writable then fs
  else { fs with file := some (serialize E S) }

/-- Translation of `Settings::load`: the new value of `settings` and the new state of the
file system. -/
def load (E : Env RF24Channel RF24PowerLevel LEDMode GroupStateField)
    (settings : Settings RF24Channel RF24PowerLevel LEDMode GroupStateField) (fs : SPIFFS) :
    Settings RF24Channel RF24PowerLevel LEDMode GroupStateField × SPIFFS :=
  if fs.exists then
    let settings := E.defaults
    let parsedSettings := E.parseObject (fs.file.getD "")
    (patch E settings parsedSettings, fs)
  else
    (settings, save E settings fs)

end Operations

/-! ## Vocabulary of the statements -/

/-- The members of `Settings`, one per document key. -/
inductive Field
  | adminUsername
  | adminPassword
  | cePin
  | csnPin
  | resetPin
  | ledPin
  | radioInterfaceType
  | packetRepeats
  | httpRepeatFactor
  | _autoRestartPeriod
  | _mqttServer
  | mqttUsername
  | mqttPassword
  | mqttTopicPattern
  | mqttUpdateTopicPattern
  | mqttStateTopicPattern
  | mqttClientStatusTopic
  | discoveryPort
  | listenRepeats
  | stateFlushInterval
  | mqttStateRateLimit
  | packetRepeatThrottleSensitivity
  | packetRepeatThrottleThreshold
  | packetRepeatMinimum
  | enableAutomaticModeSwitching
  | ledModeWifiConfig
  | ledModeWifiFailed
  | ledModeOperating
  | ledModePacket
  | ledModePacketCount
  | hostname
  | rf24PowerLevel
  | rf24ListenChannel
  | wifiStaticIP
  | wifiStaticIPGateway
  | wifiStaticIPNetmask
  | rf24Channels
  | deviceIds
  | gatewayConfigs
  | groupStateFields
  deriving DecidableEq, Repr

/-- The document key under which `Settings::patch` reads a member and
`Settings::serialize` writes it. -/
def Field.key : Field → String
  | Field.adminUsername => "admin_username"
  | Field.adminPassword => "admin_password"
  | Field.cePin => "ce_pin"
  | Field.csnPin => "csn_pin"
  | Field.resetPin => "reset_pin"
  | Field.ledPin => "led_pin"
  | Field.radioInterfaceType => "radio_interface_type"
  | Field.packetRepeats => "packet_repeats"
  | Field.httpRepeatFactor => "http_repeat_factor"
  | Field._autoRestartPeriod => "auto_restart_period"
  | Field._mqttServer => "mqtt_server"
  | Field.mqttUsername => "mqtt_username"
  | Field.mqttPassword => "mqtt_password"
  | Field.mqttTopicPattern => "mqtt_topic_pattern"
  | Field.mqttUpdateTopicPattern => "mqtt_update_topic_pattern"
  | Field.mqttStateTopicPattern => "mqtt_state_topic_pattern"
  | Field.mqttClientStatusTopic => "mqtt_client_status_topic"
  | Field.discoveryPort => "discovery_port"
  | Field.listenRepeats => "listen_repeats"
  | Field.stateFlushInterval => "state_flush_interval"
  | Field.mqttStateRateLimit => "mqtt_state_rate_limit"
  | Field.packetRepeatThrottleSensitivity => "packet_repeat_throttle_sensitivity"
  | Field.packetRepeatThrottleThreshold => "packet_repeat_throttle_threshold"
  | Field.packetRepeatMinimum => "packet_repeat_minimum"
  | Field.enableAutomaticModeSwitching => "enable_automatic_mode_switching"
  | Field.ledModeWifiConfig => "led_mode_wifi_config"
  | Field.ledModeWifiFailed => "led_mode_wifi_failed"
  | Field.ledModeOperating => "led_mode_operating"
  | Field.ledModePacket => "led_mode_packet"
  | Field.ledModePacketCount => "led_mode_packet_count"
  | Field.hostname => "hostname"
  | Field.rf24PowerLevel => "rf24_power_level"
  | Field.rf24ListenChannel => "rf24_listen_channel"
  | Field.wifiStaticIP => "wifi_static_ip"
  | Field.wifiStaticIPGateway => "wifi_static_ip_gateway"
  | Field.wifiStaticIPNetmask => "wifi_static_ip_netmask"
  | Field.rf24Channels => "rf24_channels"
  | Field.deviceIds => "device_ids"
  | Field.gatewayConfigs => "gateway_configs"
  | Field.groupStateFields => "group_state_fields"

section Vocabulary

variable {RF24Channel RF24PowerLevel LEDMode GroupStateField : Type}

/-- Two settings hold the same value in the given member. -/
def Field.agree (f : Field)
    (S T : Settings RF24Channel RF24PowerLevel LEDMode GroupStateField) : Prop :=
  match f with
  | Field.adminUsername => S.adminUsername = T.adminUsername
  | Field.adminPassword => S.adminPassword = T.adminPassword
  | Field.cePin => S.cePin = T.cePin
  | Field.csnPin => S.csnPin = T.csnPin
  | Field.resetPin => S.resetPin = T.resetPin
  | Field.ledPin => S.ledPin = T.ledPin
  | Field.radioInterfaceType => S.radioInterfaceType = T.radioInterfaceType
  | Field.packetRepeats => S.packetRepeats = T.packetRepeats
  | Field.httpRepeatFactor => S.httpRepeatFactor = T.httpRepeatFactor
  | Field._autoRestartPeriod => S._autoRestartPeriod = T._autoRestartPeriod
  | Field._mqttServer => S._mqttServer = T._mqttServer
  | Field.mqttUsername => S.mqttUsername = T.mqttUsername
  | Field.mqttPassword => S.mqttPassword = T.mqttPassword
  | Field.mqttTopicPattern => S.mqttTopicPattern = T.mqttTopicPattern
  | Field.mqttUpdateTopicPattern => S.mqttUpdateTopicPattern = T.mqttUpdateTopicPattern
  | Field.mqttStateTopicPattern => S.mqttStateTopicPattern = T.mqttStateTopicPattern
  | Field.mqttClientStatusTopic => S.mqttClientStatusTopic = T.mqttClientStatusTopic
  | Field.discoveryPort => S.discoveryPort = T.discoveryPort
  | Field.listenRepeats => S.listenRepeats = T.listenRepeats
  | Field.stateFlushInterval => S.stateFlushInterval = T.stateFlushInterval
  | Field.mqttStateRateLimit => S.mqttStateRateLimit = T.mqttStateRateLimit
  | Field.packetRepeatThrottleSensitivity =>
    S.packetRepeatThrottleSensitivity = T.packetRepeatThrottleSensitivity
  | Field.packetRepeatThrottleThreshold =>
    S.packetRepeatThrottleThreshold = T.packetRepeatThrottleThreshold
  | Field.packetRepeatMinimum => S.packetRepeatMinimum = T.packetRepeatMinimum
  | Field.enableAutomaticModeSwitching =>
    S.enableAutomaticModeSwitching = T.enableAutomaticModeSwitching
  | Field.ledModeWifiConfig => S.ledModeWifiConfig = T.ledModeWifiConfig
  | Field.ledModeWifiFailed => S.ledModeWifiFailed = T.ledModeWifiFailed
  | Field.ledModeOperating => S.ledModeOperating = T.ledModeOperating
  | Field.ledModePacket => S.ledModePacket = T.ledModePacket
  | Field.ledModePacketCount => S.ledModePacketCount = T.ledModePacketCount
  | Field.hostname => S.hostname = T.hostname
  | Field.rf24PowerLevel => S.rf24PowerLevel = T.rf24PowerLevel
  | Field.rf24ListenChannel => S.rf24ListenChannel = T.rf24ListenChannel
  | Field.wifiStaticIP => S.wifiStaticIP = T.wifiStaticIP
  | Field.wifiStaticIPGateway => S.wifiStaticIPGateway = T.wifiStaticIPGateway
  | Field.wifiStaticIPNetmask => S.wifiStaticIPNetmask = T.wifiStaticIPNetmask
  | Field.rf24Channels => S.rf24Channels = T.rf24Channels
  | Field.deviceIds => S.deviceIds = T.deviceIds
  | Field.gatewayConfigs => S.gatewayConfigs = T.gatewayConfigs
  | Field.groupStateFields => S.groupStateFields = T.groupStateFields

/-- Every unsigned member holds a value of its declared width: the invariant of the
C++ member types. -/
def Settings.inRange (W : FieldWidths)
    (S : Settings RF24Channel RF24PowerLevel LEDMode GroupStateField) : Prop :=
  S._autoRestartPeriod < 2 ^ W.sizeBits
  ∧ S.cePin < 2 ^ W.cePin
  ∧ S.csnPin < 2 ^ W.csnPin
  ∧ S.resetPin < 2 ^ W.resetPin
  ∧ S.ledPin < 2 ^ W.ledPin
  ∧ S.packetRepeats < 2 ^ W.packetRepeats
  ∧ S.httpRepeatFactor < 2 ^ W.httpRepeatFactor
  ∧ S.discoveryPort < 2 ^ W.discoveryPort
  ∧ S.listenRepeats < 2 ^ W.listenRepeats
  ∧ S.stateFlushInterval < 2 ^ W.stateFlushInterval
  ∧ S.mqttStateRateLimit < 2 ^ W.mqttStateRateLimit
  ∧ S.packetRepeatThrottleSensitivity < 2 ^ W.packetRepeatThrottleSensitivity
  ∧ S.packetRepeatThrottleThreshold < 2 ^ W.packetRepeatThrottleThreshold
  ∧ S.packetRepeatMinimum < 2 ^ W.packetRepeatMinimum
  ∧ S.ledModePacketCount < 2 ^ W.ledModePacketCount
  ∧ (∀ id ∈ S.deviceIds, id < 2 ^ 16)
  ∧ (∀ g ∈ S.gatewayConfigs, g.deviceId < 2 ^ 16 ∧ g.port < 2 ^ 16 ∧ g.protocolVersion < 2 ^ 8)

/-- The round-trip law of the enumeration codecs: decoding the name of a variant gives
the variant back. -/
def Env.codecsInverse (E : Env RF24Channel RF24PowerLevel LEDMode GroupStateField) : Prop :=
  (∀ c, E.channelValueFromName (E.channelNameFromValue c) = c)
  ∧ (∀ p, E.powerLevelValueFromName (E.powerLevelNameFromValue p) = p)
  ∧ (∀ m, E.stringToLEDMode (E.LEDModeToString m) = m)
  ∧ (∀ f, E.getFieldByName (E.getFieldName f) = f)

/-- The entry that the loop of `updateGatewayConfigs` builds from an element that is an
array of three values; no entry for any other element. -/
def decodeGatewayConfig (E : Env RF24Channel RF24PowerLevel LEDMode GroupStateField) :
    Json → Option GatewayConfig
  | Json.arr [a, b, c] =>
    some (GatewayConfig.new (E.parseInt (asString E.printTo a) % 2 ^ 16) (asUInt 16 b)
      (asUInt 8 c))
  | _ => none

/-- An element that is an array of exactly three values. -/
def isTriple : Json → Bool
  | Json.arr [_, _, _] => true
  | _ => false

end Vocabulary

/-! ## A concrete environment, for evaluating the definitions -/

namespace Demo

/-- Sample radio channels. -/
inductive Channel
  | LOW
  | MID
  | HIGH
  deriving DecidableEq, Repr

/-- Sample radio power levels. -/
inductive PowerLevel
  | MIN
  | MAX
  deriving DecidableEq, Repr

/-- Sample LED modes. -/
inductive Mode
  | Off
  | On
  | Flicker
  deriving DecidableEq, Repr

/-- Sample group state fields. -/
inductive StateField
  | UNKNOWN
  | STATE
  | LEVEL
  deriving DecidableEq, Repr

/-- Sample channel decoder; an unknown name is `LOW`. -/
def channelValueFromName (s : String) : Channel :=
  if s = "MID" then Channel.MID else if s = "HIGH" then Channel.HIGH else Channel.LOW

/-- Sample channel encoder. -/
def channelNameFromValue : Channel → String
  | Channel.LOW => "LOW"
  | Channel.MID => "MID"
  | Channel.HIGH => "HIGH"

/-- Sample power level decoder; an unknown name is `MAX`. -/
def powerLevelValueFromName (s : String) : PowerLevel :=
  if s = "MIN" then PowerLevel.MIN else PowerLevel.MAX

/-- Sample power level encoder. -/
def powerLevelNameFromValue : PowerLevel → String
  | PowerLevel.MIN => "MIN"
  | PowerLevel.MAX => "MAX"

/-- Sample LED mode decoder; an unknown name is `Off`. -/
def stringToLEDMode (s : String) : Mode :=
  if s = "On" then Mode.On else if s = "Flicker" then Mode.Flicker else Mode.Off

/-- Sample LED mode encoder. -/
def LEDModeToString : Mode → String
  | Mode.Off => "Off"
  | Mode.On => "On"
  | Mode.Flicker => "Flicker"

/-- Sample state field decoder; an unknown name is `UNKNOWN`. -/
def getFieldByName (s : String) : StateField :=
  if s = "state" then StateField.STATE else if s = "level" then StateField.LEVEL
  else StateField.UNKNOWN

/-- Sample state field encoder. -/
def getFieldName : StateField → String
  | StateField.UNKNOWN => "unknown"
  | StateField.STATE => "state"
  | StateField.LEVEL => "level"

/-- Sample member widths: 8-bit pins and listen repeats, a 16-bit discovery port,
32-bit `size_t` everywhere else. -/
def widths : FieldWidths :=
  { sizeBits := 32, cePin := 8, csnPin := 8, resetPin := 8, ledPin := 8,
    packetRepeats := 32, httpRepeatFactor := 32, discoveryPort := 16, listenRepeats := 8,
    stateFlushInterval := 32, mqttStateRateLimit := 32,
    packetRepeatThrottleSensitivity := 32, packetRepeatThrottleThreshold := 32,
    packetRepeatMinimum := 32, ledModePacketCount := 32 }

/-- Sample default-constructed settings. -/
def defaults : Settings Channel PowerLevel Mode StateField :=
  { adminUsername := "", adminPassword := "", cePin := 16, csnPin := 15, resetPin := 0,
    ledPin := 2, radioInterfaceType := RadioInterfaceType.nRF24, packetRepeats := 50,
    httpRepeatFactor := 1, _autoRestartPeriod := 0, _mqttServer := "", mqttUsername := "",
    mqttPassword := "", mqttTopicPattern := "", mqttUpdateTopicPattern := "",
    mqttStateTopicPattern := "", mqttClientStatusTopic := "", discoveryPort := 48899,
    listenRepeats := 3, stateFlushInterval := 10000, mqttStateRateLimit := 500,
    packetRepeatThrottleSensitivity := 0, packetRepeatThrottleThreshold := 200,
    packetRepeatMinimum := 3, enableAutomaticModeSwitching := false,
    ledModeWifiConfig := Mode.Flicker, ledModeWifiFailed := Mode.On,
    ledModeOperating := Mode.On, ledModePacket := Mode.Flicker, ledModePacketCount := 3,
    hostname := "milight-hub", rf24PowerLevel := PowerLevel.MAX,
    rf24ListenChannel := Channel.LOW, wifiStaticIP := "", wifiStaticIPGateway := "",
    wifiStaticIPNetmask := "", rf24Channels := [Channel.LOW, Channel.MID, Channel.HIGH],
    deviceIds := [], gatewayConfigs := [], groupStateFields := [StateField.STATE] }

/-- Sample parser: it knows one text, an object with the single member `ce_pin`, and
fails on every other text. -/
def parseObject (text : String) : JsonObject :=
  if text = "ce_pin=4" then ⟨true, [("ce_pin", Json.num 4)]⟩ else ⟨false, []⟩

mutual
/-- Sample printer: compact JSON text, strings written without escapes. -/
def printTo : Json → String
  | Json.null => "null"
  | Json.bool b => if b then "true" else "false"
  | Json.num n => toString n
  | Json.str s => "\"" ++ s ++ "\""
  | Json.arr elems => "[" ++ printElems elems ++ "]"
  | Json.obj members => "\x7b" ++ printMembers members ++ "\x7d"
/-- Sample printer, the elements of an array. -/
def printElems : List Json → String
  | [] => ""
  | [v] => printTo v
  | v :: vs => printTo v ++ "," ++ printElems vs
/-- Sample printer, the members of an object. -/
def printMembers : List (String × Json) → String
  | [] => ""
  | [(k, v)] => "\"" ++ k ++ "\":" ++ printTo v
  | (k, v) :: kvs => "\"" ++ k ++ "\":" ++ printTo v ++ "," ++ printMembers kvs
end

/-- Sample environment: a minimum restart period of 300, MQTT port 1883, decimal
`parseInt`, the compact printer and the one-text parser. -/
def env : Env Channel PowerLevel Mode StateField :=
  { MINIMUM_RESTART_PERIOD := 300
    DEFAULT_MQTT_PORT := 1883
    widths := widths
    channelValueFromName := channelValueFromName
    channelNameFromValue := channelNameFromValue
    powerLevelValueFromName := powerLevelValueFromName
    powerLevelNameFromValue := powerLevelNameFromValue
    stringToLEDMode := stringToLEDMode
    LEDModeToString := LEDModeToString
    getFieldByName := getFieldByName
    getFieldName := getFieldName
    parseInt := fun s => (atoi s.data).toNat
    defaults := defaults
    printTo := printTo
    parseObject := parseObject }

/-- Sample settings that differ from the defaults. -/
def custom : Settings Channel PowerLevel Mode StateField :=
  { defaults with
    adminUsername := "admin", adminPassword := "secret", cePin := 4,
    radioInterfaceType := RadioInterfaceType.LT8900, _autoRestartPeriod := 1,
    _mqttServer := "broker.local:8883", enableAutomaticModeSwitching := true,
    ledModeOperating := Mode.Off, rf24PowerLevel := PowerLevel.MIN,
    rf24ListenChannel := Channel.HIGH, rf24Channels := [Channel.MID, Channel.HIGH],
    deviceIds := [1, 65535], gatewayConfigs := [⟨1, 5987, 6⟩, ⟨3, 5989, 5⟩],
    groupStateFields := [StateField.LEVEL, StateField.UNKNOWN] }

end Demo

/-! ## Vocabulary of the key-set statements -/

/-- The keys of the canonical document schema, in the order `Settings::serialize` writes
them. -/
def recognizedKeys : List String :=
  ["admin_username", "admin_password", "ce_pin", "csn_pin", "reset_pin", "led_pin",
   "radio_interface_type", "packet_repeats", "http_repeat_factor", "auto_restart_period",
   "mqtt_server", "mqtt_username", "mqtt_password", "mqtt_topic_pattern",
   "mqtt_update_topic_pattern", "mqtt_state_topic_pattern", "mqtt_client_status_topic",
   "discovery_port", "listen_repeats", "state_flush_interval", "mqtt_state_rate_limit",
   "packet_repeat_throttle_sensitivity", "packet_repeat_throttle_threshold",
   "packet_repeat_minimum", "enable_automatic_mode_switching", "led_mode_wifi_config",
   "led_mode_wifi_failed", "led_mode_operating", "led_mode_packet", "led_mode_packet_count",
   "hostname", "rf24_power_level", "rf24_listen_channel", "wifi_static_ip",
   "wifi_static_ip_gateway", "wifi_static_ip_netmask", "rf24_channels", "device_ids",
   "gateway_configs", "group_state_fields"]

/-- The four members that hold sequences; the other members are scalars or enumerated
scalars. -/
def Field.isSequence : Field → Bool
  | Field.rf24Channels => true
  | Field.deviceIds => true
  | Field.gatewayConfigs => true
  | Field.groupStateFields => true
  | _ => false

/-- The text of a string after its first `:` (empty when there is none). -/
def textAfterColon (s : String) : List Char :=
  (s.data.dropWhile (fun c => c != ':')).tail

section KeyVocabulary

variable {RF24Channel RF24PowerLevel LEDMode GroupStateField : Type}

/-- The function `Settings::patch` reads a key: for some settings, some valid object
document and some value, assigning the value at that key in the document changes what
`patch` produces. -/
def patchReads (E : Env RF24Channel RF24PowerLevel LEDMode GroupStateField) (key : String) :
    Prop :=
  ∃ (S : Settings RF24Channel RF24PowerLevel LEDMode GroupStateField) (d : JsonObject)
    (v : Json), d.success = true ∧ patch E S (d.set key v) ≠ patch E S d

/-- The function `Settings::serialize` writes a key: the document it builds contains
it. -/
def serializeWrites (E : Env RF24Channel RF24PowerLevel LEDMode GroupStateField)
    (S : Settings RF24Channel RF24PowerLevel LEDMode GroupStateField) (key : String) : Bool :=
  (serializeRoot E S).containsKey key

end KeyVocabulary

/-! ## Theorems -/

section Proofs

variable {RF24Channel RF24PowerLevel LEDMode GroupStateField : Type}

/-! ### Characters and case folding -/

theorem char_eq_of_toNat_eq {c d : Char} (h : c.toNat = d.toNat) : c = d := by
  rw [← Char.ofNat_toNat c, ← Char.ofNat_toNat d, h]

theorem toNat_ofNat_of_upper (n : Nat) (h1 : 65 ≤ n) (h2 : n ≤ 90) :
    (Char.ofNat (n + 32)).toNat = n + 32 := by
  interval_cases n <;> rfl

theorem toLower_toNat (c : Char) : (Char.toLower c).toNat = tolower c.toNat := by
  unfold Char.toLower tolower
  by_cases h : 65 ≤ c.toNat ∧ c.toNat ≤ 90
  · have h' : c.toNat ≥ 65 ∧ c.toNat ≤ 90 := h
    simp only [h', and_self, if_true, h]
    exact toNat_ofNat_of_upper c.toNat h.1 h.2
  · have h' : ¬ (c.toNat ≥ 65 ∧ c.toNat ≤ 90) := h
    simp only [h', if_false, h]

/-- The loop of `equalsIgnoreCase` against a text without upper-case letters accepts
exactly the texts of the same length whose lower-casing is that text. -/
theorem equalsIgnoreCaseLoop_iff (a b : List Char)
    (hb : ∀ c ∈ b, tolower c.toNat = c.toNat) :
    (a.length = b.length ∧ equalsIgnoreCaseLoop a b = true) ↔ a.map Char.toLower = b := by
  induction a generalizing b with
  | nil =>
    cases b with
    | nil => simp [equalsIgnoreCaseLoop]
    | cons d ds => simp
  | cons c cs ih =>
    cases b with
    | nil => simp
    | cons d ds =>
      have hd : tolower d.toNat = d.toNat := hb d (List.mem_cons_self _ _)
      have hds : ∀ x ∈ ds, tolower x.toNat = x.toNat :=
        fun x hx => hb x (List.mem_cons_of_mem _ hx)
      have ih' := ih ds hds
      simp only [List.length_cons, Nat.add_right_cancel_iff, equalsIgnoreCaseLoop, hd,
        List.map_cons, List.cons.injEq]
      by_cases hcd : tolower c.toNat = d.toNat
      · have e : Char.toLower c = d := char_eq_of_toNat_eq (by rw [toLower_toNat, hcd])
        simp only [hcd, bne_self_eq_false, Bool.false_eq_true, if_false, e, true_and]
        exact ih'
      · have e : ¬ Char.toLower c = d := by
          intro h
          apply hcd
          rw [← toLower_toNat, h]
        have hb' : (tolower c.toNat != d.toNat) = true := by simpa using hcd
        simp [hb', e]

theorem equalsIgnoreCase_iff (s t : String)
    (ht : ∀ c ∈ t.data, tolower c.toNat = c.toNat) :
    equalsIgnoreCase s t = true ↔ s.data.map Char.toLower = t.data := by
  rw [← equalsIgnoreCaseLoop_iff s.data t.data ht]
  unfold equalsIgnoreCase
  by_cases hl : s.data.length = t.data.length
  · have e1 : (s.data.length != t.data.length) = false := by
      rw [hl]; exact bne_self_eq_false _
    by_cases h0 : s.data.length = 0
    · have hs : s.data = [] := List.length_eq_zero.mp h0
      have e2 : (s.data.length == 0) = true := by rw [h0]; rfl
      simp only [e1, e2, Bool.false_eq_true, if_false, if_true, true_iff]
      exact ⟨hl, by rw [hs]; rfl⟩
    · have e2 : (s.data.length == 0) = false := beq_false_of_ne h0
      rw [e1, e2]
      simp only [Bool.false_eq_true, if_false, hl, true_and]
  · have e1 : (s.data.length != t.data.length) = true := bne_iff_ne.mpr hl
    simp only [e1, if_true, hl, false_and, Bool.false_eq_true]

/-- C9. Radio interface type decoding is total with a fallback and case-insensitive:
`typeFromString s` is `LT8900` when `s` lower-cased (ASCII) is `lt8900`, and `nRF24` for
every other string; in particular `lt8900`, `LT8900` and `Lt8900` give `LT8900`, and
`bogus` and the empty string give `nRF24`. -/
theorem typeFromString_caseInsensitive_fallback :
    (∀ s : String, typeFromString s =
      if s.data.map Char.toLower = "lt8900".data then RadioInterfaceType.LT8900
      else RadioInterfaceType.nRF24)
    ∧ typeFromString "lt8900" = RadioInterfaceType.LT8900
    ∧ typeFromString "LT8900" = RadioInterfaceType.LT8900
    ∧ typeFromString "Lt8900" = RadioInterfaceType.LT8900
    ∧ typeFromString "bogus" = RadioInterfaceType.nRF24
    ∧ typeFromString "" = RadioInterfaceType.nRF24 := by
  refine ⟨?_, by decide, by decide, by decide, by decide, by decide⟩
  intro s
  have ht : ∀ c ∈ "lt8900".data, tolower c.toNat = c.toNat := by decide
  have h := equalsIgnoreCase_iff s "lt8900" ht
  unfold typeFromString
  by_cases he : equalsIgnoreCase s "lt8900" = true
  · rw [if_pos he, if_pos (h.mp he)]
  · rw [if_neg he, if_neg (fun x => he (h.mpr x))]

theorem typeToString_decodes (t : RadioInterfaceType) :
    typeFromString (typeToString t) = t := by
  cases t <;> decide

/-- C10. Radio interface type codec round trip: decoding the name of a variant gives
the variant back, and the two variants have the distinct names `LT8900` and `nRF24`. -/
theorem typeFromString_typeToString :
    (∀ t : RadioInterfaceType, typeFromString (typeToString t) = t)
    ∧ typeToString RadioInterfaceType.LT8900 = "LT8900"
    ∧ typeToString RadioInterfaceType.nRF24 = "nRF24"
    ∧ typeToString RadioInterfaceType.LT8900 ≠ typeToString RadioInterfaceType.nRF24 := by
  refine ⟨?_, rfl, rfl, by decide⟩
  exact typeToString_decodes

/-- C8. Auto-restart clamp: the period read back is 0 for a stored 0, the minimum for a
stored value strictly between 0 and the minimum, and the stored value from the minimum
upwards; auto-restart is disabled exactly for a stored 0, so the period read back is
non-zero exactly when auto-restart is enabled. -/
theorem getAutoRestartPeriod_clamp
    (E : Env RF24Channel RF24PowerLevel LEDMode GroupStateField)
    (S : Settings RF24Channel RF24PowerLevel LEDMode GroupStateField)
    (hmin : E.MINIMUM_RESTART_PERIOD < 2 ^ E.widths.sizeBits) :
    (S._autoRestartPeriod = 0 → getAutoRestartPeriod E S = 0)
    ∧ (0 < S._autoRestartPeriod → S._autoRestartPeriod < E.MINIMUM_RESTART_PERIOD →
        getAutoRestartPeriod E S = E.MINIMUM_RESTART_PERIOD)
    ∧ (0 < S._autoRestartPeriod → E.MINIMUM_RESTART_PERIOD ≤ S._autoRestartPeriod →
        getAutoRestartPeriod E S = S._autoRestartPeriod)
    ∧ (isAutoRestartEnabled S = false ↔ S._autoRestartPeriod = 0)
    ∧ (getAutoRestartPeriod E S ≠ 0 ↔ isAutoRestartEnabled S = true) := by
  have hm : E.MINIMUM_RESTART_PERIOD % 2 ^ E.widths.sizeBits = E.MINIMUM_RESTART_PERIOD :=
    Nat.mod_eq_of_lt hmin
  unfold getAutoRestartPeriod isAutoRestartEnabled
  rw [hm]
  refine ⟨?_, ?_, ?_, ?_, ?_⟩
  · intro h; simp [h]
  · intro h1 h2
    rw [if_neg (by omega)]
    exact max_eq_right (by omega)
  · intro h1 h2
    rw [if_neg (by omega)]
    exact max_eq_left h2
  · simp
  · by_cases h : S._autoRestartPeriod = 0
    · simp [h]
    · have hpos : 0 < S._autoRestartPeriod := by omega
      have : max S._autoRestartPeriod E.MINIMUM_RESTART_PERIOD ≠ 0 := by
        have := le_max_left S._autoRestartPeriod E.MINIMUM_RESTART_PERIOD
        omega
      simp [h, hpos, this]

theorem getAutoRestartPeriod_clamp_witness :
    Demo.env.MINIMUM_RESTART_PERIOD < 2 ^ Demo.env.widths.sizeBits
    ∧ getAutoRestartPeriod Demo.env Demo.custom = 300
    ∧ isAutoRestartEnabled Demo.custom = true :=
  ⟨by decide,
   ((getAutoRestartPeriod_clamp Demo.env Demo.custom (by decide)).2.1 (by decide) (by decide)),
   by decide⟩

/-! ### Searching and splitting -/

theorem indexOfFrom_of_not_mem (c : Char) (l : List Char) (i : Nat) (h : c ∉ l) :
    indexOfFrom c l i = -1 := by
  induction l generalizing i with
  | nil => rfl
  | cons x xs ih =>
    have hx : ¬ x = c := fun e => h (by rw [e]; exact List.mem_cons_self _ _)
    have hxs : c ∉ xs := fun m => h (List.mem_cons_of_mem _ m)
    simp only [indexOfFrom, hx, if_false]
    exact ih (i + 1) hxs

theorem indexOfFrom_append (c : Char) (l r : List Char) (i : Nat) (h : c ∉ l) :
    indexOfFrom c (l ++ c :: r) i = ((i + l.length : Nat) : Int) := by
  induction l generalizing i with
  | nil => simp [indexOfFrom]
  | cons x xs ih =>
    have hx : ¬ x = c := fun e => h (by rw [e]; exact List.mem_cons_self _ _)
    have hxs : c ∉ xs := fun m => h (List.mem_cons_of_mem _ m)
    have e : indexOfFrom c ((x :: xs) ++ c :: r) i = indexOfFrom c (xs ++ c :: r) (i + 1) := by
      show indexOfFrom c (x :: (xs ++ c :: r)) i = _
      simp only [indexOfFrom, hx, if_false]
    rw [e, ih (i + 1) hxs, List.length_cons]
    congr 1
    omega

theorem drop_length_succ_append (l r : List Char) (c : Char) :
    (l ++ c :: r).drop (l.length + 1) = r := by
  induction l with
  | nil => rfl
  | cons x xs ih => simp [ih]

/-! ### Decimal texts -/

theorem digitChar_isdigit (m : Nat) (h : m < 10) :
    isdigit (Nat.digitChar m) = true ∧ (Nat.digitChar m).toNat - 48 = m := by
  interval_cases m <;> exact ⟨rfl, rfl⟩

theorem atoiDigits_toDigitsCore (fuel n : Nat) (h : n < fuel) (ds : List Char) (a : Nat) :
    ∃ k, atoiDigits a (Nat.toDigitsCore 10 fuel n ds) = atoiDigits (a * 10 ^ k + n) ds := by
  induction fuel generalizing n ds a with
  | zero => omega
  | succ fuel ih =>
    have hd := digitChar_isdigit (n % 10) (Nat.mod_lt _ (by decide))
    unfold Nat.toDigitsCore
    by_cases h0 : n / 10 = 0
    · refine ⟨1, ?_⟩
      have hn : n % 10 = n := Nat.mod_eq_of_lt (by omega)
      simp only [h0, if_true, atoiDigits, hd.1, hd.2, pow_one]
      rw [hn]
    · have hlt : n / 10 < fuel := by omega
      obtain ⟨k, hk⟩ := ih (n / 10) hlt (Nat.digitChar (n % 10) :: ds) a
      refine ⟨k + 1, ?_⟩
      simp only [h0, if_false]
      rw [hk]
      simp only [atoiDigits, hd.1, hd.2, if_true]
      congr 1
      have := Nat.div_add_mod n 10
      rw [pow_succ]
      nlinarith [Nat.div_add_mod n 10]

theorem atoiDigits_repr (n : Nat) : atoiDigits 0 (toString n).data = n := by
  obtain ⟨k, hk⟩ := atoiDigits_toDigitsCore (n + 1) n (Nat.lt_succ_self n) [] 0
  have e : (toString n).data = Nat.toDigitsCore 10 (n + 1) n [] := rfl
  rw [e, hk]
  simp [atoiDigits]

theorem headDigit_toDigitsCore (fuel n : Nat) (ds : List Char)
    (h : 0 < fuel ∨ ∃ c cs, ds = c :: cs ∧ isdigit c = true) :
    ∃ c cs, Nat.toDigitsCore 10 fuel n ds = c :: cs ∧ isdigit c = true := by
  induction fuel generalizing n ds with
  | zero =>
    rcases h with h | h
    · omega
    · exact h
  | succ fuel ih =>
    have hd := digitChar_isdigit (n % 10) (Nat.mod_lt _ (by decide))
    unfold Nat.toDigitsCore
    by_cases h0 : n / 10 = 0
    · simp only [h0, if_true]
      exact ⟨_, _, rfl, hd.1⟩
    · simp only [h0, if_false]
      exact ih (n / 10) _ (Or.inr ⟨_, _, rfl, hd.1⟩)

theorem atoi_of_headDigit (c : Char) (cs : List Char) (h : isdigit c = true) :
    atoi (c :: cs) = strtolClamp (atoiDigits 0 (c :: cs) : Int) := by
  have hc : 48 ≤ c.toNat ∧ c.toNat ≤ 57 := by simpa [isdigit] using h
  have ne : ∀ d : Char, (d.toNat < 48 ∨ 57 < d.toNat) → ¬ c = d := by
    intro d hd e
    rw [e] at hc
    omega
  have hsp : isspace c = false := by
    simp only [isspace, Bool.or_eq_false_iff, decide_eq_false_iff_not]
    exact ⟨⟨⟨⟨⟨ne _ (by decide), ne _ (by decide)⟩, ne _ (by decide)⟩, ne _ (by decide)⟩,
      ne _ (by decide)⟩, ne _ (by decide)⟩
  have hm : ¬ c = '-' := ne _ (by decide)
  have hp : ¬ c = '+' := ne _ (by decide)
  unfold atoi
  simp only [hsp, Bool.false_eq_true, if_false]
  unfold atoiSigned
  split
  · rename_i e; exact absurd (List.cons.inj e).1 hm
  · rename_i e; exact absurd (List.cons.inj e).1 hp
  · rfl

theorem atoi_repr_clamp (n : Nat) : atoi (toString n).data = strtolClamp (n : Int) := by
  obtain ⟨c, cs, e, hc⟩ := headDigit_toDigitsCore (n + 1) n [] (Or.inl (Nat.succ_pos n))
  have e' : (toString n).data = c :: cs := e
  rw [e', atoi_of_headDigit c cs hc, ← e', atoiDigits_repr]

theorem strtolClamp_of_le (n : Nat) (h : n ≤ 2147483647) : strtolClamp (n : Int) = n := by
  unfold strtolClamp LONG_MAX LONG_MIN
  rw [if_neg (by omega), if_neg (by omega)]

theorem strtolClamp_of_gt (n : Nat) (h : 2147483647 < n) :
    strtolClamp (n : Int) = 2147483647 := by
  unfold strtolClamp LONG_MAX
  rw [if_pos (by omega)]

theorem atoi_repr (n : Nat) (h : n ≤ 2147483647) : atoi (toString n).data = (n : Int) := by
  rw [atoi_repr_clamp, strtolClamp_of_le n h]

/-- C7. MQTT server split: without a `:` the whole string is the host and the port is
`DEFAULT_MQTT_PORT`; with a `:` the host is the text strictly before the first `:`, and
when the text after that `:` is the decimal text of a number below 65536 the port is
that number; `broker.local:8883` gives `broker.local` and 8883. -/
theorem mqttServer_mqttPort_split
    (E : Env RF24Channel RF24PowerLevel LEDMode GroupStateField)
    (S : Settings RF24Channel RF24PowerLevel LEDMode GroupStateField)
    (hport : E.DEFAULT_MQTT_PORT < 2 ^ 16) :
    (':' ∉ S._mqttServer.data →
      mqttServer S = S._mqttServer ∧ mqttPort E S = E.DEFAULT_MQTT_PORT)
    ∧ (∀ (host rest : String), S._mqttServer = host ++ ":" ++ rest → ':' ∉ host.data →
      mqttServer S = host
      ∧ ∀ n : Nat, n < 65536 → rest = toString n → mqttPort E S = n)
    ∧ (S._mqttServer = "broker.local:8883" →
      mqttServer S = "broker.local" ∧ mqttPort E S = 8883) := by
  have split : ∀ (host rest : String), S._mqttServer = host ++ ":" ++ rest →
      ':' ∉ host.data → mqttServer S = host
        ∧ ∀ n : Nat, n < 65536 → rest = toString n → mqttPort E S = n := by
    intro host rest hs hh
    have hdata : S._mqttServer.data = host.data ++ ':' :: rest.data := by
      rw [hs]; simp [String.data_append]
    have hpos : PORT_POSITION S._mqttServer = ((host.data.length : Nat) : Int) := by
      unfold PORT_POSITION indexOf
      rw [hdata, indexOfFrom_append ':' host.data rest.data 0 hh]
      simp
    have hne : ¬ ((host.data.length : Nat) : Int) = -1 := by omega
    constructor
    · unfold mqttServer
      simp only [hpos, hne, if_false, Int.toNat_ofNat, substring0, hdata]
      simp
    · intro n hn hrest
      unfold mqttPort
      simp only [hpos, hne, if_false]
      have hdrop : (S._mqttServer.data).drop (((host.data.length : Nat) : Int) + 1).toNat
          = rest.data := by
        have : (((host.data.length : Nat) : Int) + 1).toNat = host.data.length + 1 := by omega
        rw [this, hdata]
        exact drop_length_succ_append host.data rest.data ':'
      rw [hdrop, hrest, atoi_repr n (by omega)]
      have : ((n : Int) % (2 : Int) ^ 16) = (n : Int) := by
        apply Int.emod_eq_of_lt <;> omega
      rw [this]
      simp
  refine ⟨?_, split, ?_⟩
  · intro h
    have hpos : PORT_POSITION S._mqttServer = -1 :=
      indexOfFrom_of_not_mem ':' S._mqttServer.data 0 h
    unfold mqttServer mqttPort
    simp only [hpos, if_true]
    exact ⟨trivial, Nat.mod_eq_of_lt hport⟩
  · intro h
    have := split "broker.local" "8883" (by rw [h]; decide) (by decide)
    exact ⟨this.1, this.2 8883 (by decide) (by decide)⟩

theorem mqttServer_mqttPort_split_witness :
    Demo.env.DEFAULT_MQTT_PORT < 2 ^ 16
    ∧ mqttServer Demo.custom = "broker.local" ∧ mqttPort Demo.env Demo.custom = 8883 :=
  ⟨by decide, (mqttServer_mqttPort_split Demo.env Demo.custom (by decide)).2.2 (by decide)⟩

/-! ### The two list updaters in closed form -/

theorem foldl_deviceIds (elems : List Json)
    (S : Settings RF24Channel RF24PowerLevel LEDMode GroupStateField) :
    elems.foldl (fun S v => { S with deviceIds := S.deviceIds ++ [asUInt 16 v] }) S
      = { S with deviceIds := S.deviceIds ++ elems.map (asUInt 16) } := by
  induction elems generalizing S with
  | nil => simp
  | cons v vs ih => simp [ih]

theorem updateDeviceIds_eq (S : Settings RF24Channel RF24PowerLevel LEDMode GroupStateField)
    (arr : JsonArray) :
    updateDeviceIds S arr
      = if arr.success then { S with deviceIds := arr.elems.map (asUInt 16) } else S := by
  unfold updateDeviceIds
  split
  · rw [foldl_deviceIds]; simp
  · rfl

theorem updateGatewayConfigsStep_eq
    (E : Env RF24Channel RF24PowerLevel LEDMode GroupStateField)
    (S : Settings RF24Channel RF24PowerLevel LEDMode GroupStateField) (elem : Json) :
    updateGatewayConfigsStep E S elem
      = { S with gatewayConfigs := S.gatewayConfigs ++ (decodeGatewayConfig E elem).toList } := by
  unfold updateGatewayConfigsStep decodeGatewayConfig
  match elem with
  | Json.arr [a, b, c] => simp [asArray, JsonArray.size]
  | Json.arr [] => simp [asArray, JsonArray.size]
  | Json.arr [_] => simp [asArray, JsonArray.size]
  | Json.arr [_, _] => simp [asArray, JsonArray.size]
  | Json.arr (_ :: _ :: _ :: _ :: _) => simp [asArray, JsonArray.size]
  | Json.null | Json.bool _ | Json.num _ | Json.str _ | Json.obj _ =>
    simp [asArray, JsonArray.invalid]

theorem foldl_updateGatewayConfigsStep
    (E : Env RF24Channel RF24PowerLevel LEDMode GroupStateField) (elems : List Json)
    (S : Settings RF24Channel RF24PowerLevel LEDMode GroupStateField) :
    elems.foldl (updateGatewayConfigsStep E) S
      = { S with
          gatewayConfigs := S.gatewayConfigs ++ elems.filterMap (decodeGatewayConfig E) } := by
  induction elems generalizing S with
  | nil => simp
  | cons v vs ih =>
    rw [List.foldl_cons, ih, updateGatewayConfigsStep_eq]
    cases h : decodeGatewayConfig E v <;> simp [List.filterMap_cons, h]

theorem updateGatewayConfigs_eq (E : Env RF24Channel RF24PowerLevel LEDMode GroupStateField)
    (S : Settings RF24Channel RF24PowerLevel LEDMode GroupStateField) (arr : JsonArray) :
    updateGatewayConfigs E S arr
      = if arr.success then
          { S with gatewayConfigs := arr.elems.filterMap (decodeGatewayConfig E) }
        else S := by
  unfold updateGatewayConfigs
  split
  · rw [foldl_updateGatewayConfigsStep]; simp
  · rfl

/-! ### Each member after `patch`, as a function of the document and the member before -/

theorem patchFields_adminUsername (E : Env RF24Channel RF24PowerLevel LEDMode GroupStateField)
    (S : Settings RF24Channel RF24PowerLevel LEDMode GroupStateField) (d : JsonObject) :
    (patchFields E S d).adminUsername =
      setIfPresent d "admin_username" (asString E.printTo) S.adminUsername := by
  simp only [patchFields, apply_ite Settings.adminUsername, updateDeviceIds_eq,
    updateGatewayConfigs_eq, ite_self]

theorem patchFields_adminPassword (E : Env RF24Channel RF24PowerLevel LEDMode GroupStateField)
    (S : Settings RF24Channel RF24PowerLevel LEDMode GroupStateField) (d : JsonObject) :
    (patchFields E S d).adminPassword =
      setIfPresent d "admin_password" (asString E.printTo) S.adminPassword := by
  simp only [patchFields, apply_ite Settings.adminPassword, updateDeviceIds_eq,
    updateGatewayConfigs_eq, ite_self]

theorem patchFields_cePin (E : Env RF24Channel RF24PowerLevel LEDMode GroupStateField)
    (S : Settings RF24Channel RF24PowerLevel LEDMode GroupStateField) (d : JsonObject) :
    (patchFields E S d).cePin =
      setIfPresent d "ce_pin" (asUInt E.widths.cePin) S.cePin := by
  simp only [patchFields, apply_ite Settings.cePin, updateDeviceIds_eq,
    updateGatewayConfigs_eq, ite_self]

theorem patchFields_csnPin (E : Env RF24Channel RF24PowerLevel LEDMode GroupStateField)
    (S : Settings RF24Channel RF24PowerLevel LEDMode GroupStateField) (d : JsonObject) :
    (patchFields E S d).csnPin =
      setIfPresent d "csn_pin" (asUInt E.widths.csnPin) S.csnPin := by
  simp only [patchFields, apply_ite Settings.csnPin, updateDeviceIds_eq,
    updateGatewayConfigs_eq, ite_self]

theorem patchFields_resetPin (E : Env RF24Channel RF24PowerLevel LEDMode GroupStateField)
    (S : Settings RF24Channel RF24PowerLevel LEDMode GroupStateField) (d : JsonObject) :
    (patchFields E S d).resetPin =
      setIfPresent d "reset_pin" (asUInt E.widths.resetPin) S.resetPin := by
  simp only [patchFields, apply_ite Settings.resetPin, updateDeviceIds_eq,
    updateGatewayConfigs_eq, ite_self]

theorem patchFields_ledPin (E : Env RF24Channel RF24PowerLevel LEDMode GroupStateField)
    (S : Settings RF24Channel RF24PowerLevel LEDMode GroupStateField) (d : JsonObject) :
    (patchFields E S d).ledPin =
      setIfPresent d "led_pin" (asUInt E.widths.ledPin) S.ledPin := by
  simp only [patchFields, apply_ite Settings.ledPin, updateDeviceIds_eq,
    updateGatewayConfigs_eq, ite_self]

theorem patchFields_radioInterfaceType (E : Env RF24Channel RF24PowerLevel LEDMode GroupStateField)
    (S : Settings RF24Channel RF24PowerLevel LEDMode GroupStateField) (d : JsonObject) :
    (patchFields E S d).radioInterfaceType =
      if d.containsKey "radio_interface_type" then
        typeFromString (asString E.printTo (d.get "radio_interface_type"))
      else S.radioInterfaceType := by
  simp only [patchFields, apply_ite Settings.radioInterfaceType, updateDeviceIds_eq,
    updateGatewayConfigs_eq, ite_self]

theorem patchFields_packetRepeats (E : Env RF24Channel RF24PowerLevel LEDMode GroupStateField)
    (S : Settings RF24Channel RF24PowerLevel LEDMode GroupStateField) (d : JsonObject) :
    (patchFields E S d).packetRepeats =
      setIfPresent d "packet_repeats" (asUInt E.widths.packetRepeats) S.packetRepeats := by
  simp only [patchFields, apply_ite Settings.packetRepeats, updateDeviceIds_eq,
    updateGatewayConfigs_eq, ite_self]

theorem patchFields_httpRepeatFactor (E : Env RF24Channel RF24PowerLevel LEDMode GroupStateField)
    (S : Settings RF24Channel RF24PowerLevel LEDMode GroupStateField) (d : JsonObject) :
    (patchFields E S d).httpRepeatFactor =
      setIfPresent d "http_repeat_factor"
        (asUInt E.widths.httpRepeatFactor) S.httpRepeatFactor := by
  simp only [patchFields, apply_ite Settings.httpRepeatFactor, updateDeviceIds_eq,
    updateGatewayConfigs_eq, ite_self]

theorem patchFields__autoRestartPeriod (E : Env RF24Channel RF24PowerLevel LEDMode GroupStateField)
    (S : Settings RF24Channel RF24PowerLevel LEDMode GroupStateField) (d : JsonObject) :
    (patchFields E S d)._autoRestartPeriod =
      setIfPresent d "auto_restart_period" (asUInt E.widths.sizeBits) S._autoRestartPeriod := by
  simp only [patchFields, apply_ite Settings._autoRestartPeriod, updateDeviceIds_eq,
    updateGatewayConfigs_eq, ite_self]

theorem patchFields__mqttServer (E : Env RF24Channel RF24PowerLevel LEDMode GroupStateField)
    (S : Settings RF24Channel RF24PowerLevel LEDMode GroupStateField) (d : JsonObject) :
    (patchFields E S d)._mqttServer =
      setIfPresent d "mqtt_server" (asString E.printTo) S._mqttServer := by
  simp only [patchFields, apply_ite Settings._mqttServer, updateDeviceIds_eq,
    updateGatewayConfigs_eq, ite_self]

theorem patchFields_mqttUsername (E : Env RF24Channel RF24PowerLevel LEDMode GroupStateField)
    (S : Settings RF24Channel RF24PowerLevel LEDMode GroupStateField) (d : JsonObject) :
    (patchFields E S d).mqttUsername =
      setIfPresent d "mqtt_username" (asString E.printTo) S.mqttUsername := by
  simp only [patchFields, apply_ite Settings.mqttUsername, updateDeviceIds_eq,
    updateGatewayConfigs_eq, ite_self]

theorem patchFields_mqttPassword (E : Env RF24Channel RF24PowerLevel LEDMode GroupStateField)
    (S : Settings RF24Channel RF24PowerLevel LEDMode GroupStateField) (d : JsonObject) :
    (patchFields E S d).mqttPassword =
      setIfPresent d "mqtt_password" (asString E.printTo) S.mqttPassword := by
  simp only [patchFields, apply_ite Settings.mqttPassword, updateDeviceIds_eq,
    updateGatewayConfigs_eq, ite_self]

theorem patchFields_mqttTopicPattern (E : Env RF24Channel RF24PowerLevel LEDMode GroupStateField)
    (S : Settings RF24Channel RF24PowerLevel LEDMode GroupStateField) (d : JsonObject) :
    (patchFields E S d).mqttTopicPattern =
      setIfPresent d "mqtt_topic_pattern" (asString E.printTo) S.mqttTopicPattern := by
  simp only [patchFields, apply_ite Settings.mqttTopicPattern, updateDeviceIds_eq,
    updateGatewayConfigs_eq, ite_self]

theorem patchFields_mqttUpdateTopicPattern
    (E : Env RF24Channel RF24PowerLevel LEDMode GroupStateField)
    (S : Settings RF24Channel RF24PowerLevel LEDMode GroupStateField) (d : JsonObject) :
    (patchFields E S d).mqttUpdateTopicPattern =
      setIfPresent d "mqtt_update_topic_pattern" (asString E.printTo) S.mqttUpdateTopicPattern := by
  simp only [patchFields, apply_ite Settings.mqttUpdateTopicPattern, updateDeviceIds_eq,
    updateGatewayConfigs_eq, ite_self]

theorem patchFields_mqttStateTopicPattern
    (E : Env RF24Channel RF24PowerLevel LEDMode GroupStateField)
    (S : Settings RF24Channel RF24PowerLevel LEDMode GroupStateField) (d : JsonObject) :
    (patchFields E S d).mqttStateTopicPattern =
      setIfPresent d "mqtt_state_topic_pattern" (asString E.printTo) S.mqttStateTopicPattern := by
  simp only [patchFields, apply_ite Settings.mqttStateTopicPattern, updateDeviceIds_eq,
    updateGatewayConfigs_eq, ite_self]

theorem patchFields_mqttClientStatusTopic
    (E : Env RF24Channel RF24PowerLevel LEDMode GroupStateField)
    (S : Settings RF24Channel RF24PowerLevel LEDMode GroupStateField) (d : JsonObject) :
    (patchFields E S d).mqttClientStatusTopic =
      setIfPresent d "mqtt_client_status_topic" (asString E.printTo) S.mqttClientStatusTopic := by
  simp only [patchFields, apply_ite Settings.mqttClientStatusTopic, updateDeviceIds_eq,
    updateGatewayConfigs_eq, ite_self]

theorem patchFields_discoveryPort (E : Env RF24Channel RF24PowerLevel LEDMode GroupStateField)
    (S : Settings RF24Channel RF24PowerLevel LEDMode GroupStateField) (d : JsonObject) :
    (patchFields E S d).discoveryPort =
      setIfPresent d "discovery_port" (asUInt E.widths.discoveryPort) S.discoveryPort := by
  simp only [patchFields, apply_ite Settings.discoveryPort, updateDeviceIds_eq,
    updateGatewayConfigs_eq, ite_self]

theorem patchFields_listenRepeats (E : Env RF24Channel RF24PowerLevel LEDMode GroupStateField)
    (S : Settings RF24Channel RF24PowerLevel LEDMode GroupStateField) (d : JsonObject) :
    (patchFields E S d).listenRepeats =
      setIfPresent d "listen_repeats" (asUInt E.widths.listenRepeats) S.listenRepeats := by
  simp only [patchFields, apply_ite Settings.listenRepeats, updateDeviceIds_eq,
    updateGatewayConfigs_eq, ite_self]

theorem patchFields_stateFlushInterval (E : Env RF24Channel RF24PowerLevel LEDMode GroupStateField)
    (S : Settings RF24Channel RF24PowerLevel LEDMode GroupStateField) (d : JsonObject) :
    (patchFields E S d).stateFlushInterval =
      setIfPresent d "state_flush_interval"
        (asUInt E.widths.stateFlushInterval) S.stateFlushInterval := by
  simp only [patchFields, apply_ite Settings.stateFlushInterval, updateDeviceIds_eq,
    updateGatewayConfigs_eq, ite_self]

theorem patchFields_mqttStateRateLimit (E : Env RF24Channel RF24PowerLevel LEDMode GroupStateField)
    (S : Settings RF24Channel RF24PowerLevel LEDMode GroupStateField) (d : JsonObject) :
    (patchFields E S d).mqttStateRateLimit =
      setIfPresent d "mqtt_state_rate_limit"
        (asUInt E.widths.mqttStateRateLimit) S.mqttStateRateLimit := by
  simp only [patchFields, apply_ite Settings.mqttStateRateLimit, updateDeviceIds_eq,
    updateGatewayConfigs_eq, ite_self]

theorem patchFields_packetRepeatThrottleSensitivity
    (E : Env RF24Channel RF24PowerLevel LEDMode GroupStateField)
    (S : Settings RF24Channel RF24PowerLevel LEDMode GroupStateField) (d : JsonObject) :
    (patchFields E S d).packetRepeatThrottleSensitivity =
      setIfPresent d "packet_repeat_throttle_sensitivity"
        (asUInt E.widths.packetRepeatThrottleSensitivity) S.packetRepeatThrottleSensitivity := by
  simp only [patchFields, apply_ite Settings.packetRepeatThrottleSensitivity, updateDeviceIds_eq,
    updateGatewayConfigs_eq, ite_self]

theorem patchFields_packetRepeatThrottleThreshold
    (E : Env RF24Channel RF24PowerLevel LEDMode GroupStateField)
    (S : Settings RF24Channel RF24PowerLevel LEDMode GroupStateField) (d : JsonObject) :
    (patchFields E S d).packetRepeatThrottleThreshold =
      setIfPresent d "packet_repeat_throttle_threshold"
        (asUInt E.widths.packetRepeatThrottleThreshold) S.packetRepeatThrottleThreshold := by
  simp only [patchFields, apply_ite Settings.packetRepeatThrottleThreshold, updateDeviceIds_eq,
    updateGatewayConfigs_eq, ite_self]

theorem patchFields_packetRepeatMinimum (E : Env RF24Channel RF24PowerLevel LEDMode GroupStateField)
    (S : Settings RF24Channel RF24PowerLevel LEDMode GroupStateField) (d : JsonObject) :
    (patchFields E S d).packetRepeatMinimum =
      setIfPresent d "packet_repeat_minimum"
        (asUInt E.widths.packetRepeatMinimum) S.packetRepeatMinimum := by
  simp only [patchFields, apply_ite Settings.packetRepeatMinimum, updateDeviceIds_eq,
    updateGatewayConfigs_eq, ite_self]

theorem patchFields_enableAutomaticModeSwitching
    (E : Env RF24Channel RF24PowerLevel LEDMode GroupStateField)
    (S : Settings RF24Channel RF24PowerLevel LEDMode GroupStateField) (d : JsonObject) :
    (patchFields E S d).enableAutomaticModeSwitching =
      setIfPresent d "enable_automatic_mode_switching" asBool S.enableAutomaticModeSwitching := by
  simp only [patchFields, apply_ite Settings.enableAutomaticModeSwitching, updateDeviceIds_eq,
    updateGatewayConfigs_eq, ite_self]

theorem patchFields_ledModeWifiConfig (E : Env RF24Channel RF24PowerLevel LEDMode GroupStateField)
    (S : Settings RF24Channel RF24PowerLevel LEDMode GroupStateField) (d : JsonObject) :
    (patchFields E S d).ledModeWifiConfig =
      if d.containsKey "led_mode_wifi_config" then
        E.stringToLEDMode (asString E.printTo (d.get "led_mode_wifi_config"))
      else S.ledModeWifiConfig := by
  simp only [patchFields, apply_ite Settings.ledModeWifiConfig, updateDeviceIds_eq,
    updateGatewayConfigs_eq, ite_self]

theorem patchFields_ledModeWifiFailed (E : Env RF24Channel RF24PowerLevel LEDMode GroupStateField)
    (S : Settings RF24Channel RF24PowerLevel LEDMode GroupStateField) (d : JsonObject) :
    (patchFields E S d).ledModeWifiFailed =
      if d.containsKey "led_mode_wifi_failed" then
        E.stringToLEDMode (asString E.printTo (d.get "led_mode_wifi_failed"))
      else S.ledModeWifiFailed := by
  simp only [patchFields, apply_ite Settings.ledModeWifiFailed, updateDeviceIds_eq,
    updateGatewayConfigs_eq, ite_self]

theorem patchFields_ledModeOperating (E : Env RF24Channel RF24PowerLevel LEDMode GroupStateField)
    (S : Settings RF24Channel RF24PowerLevel LEDMode GroupStateField) (d : JsonObject) :
    (patchFields E S d).ledModeOperating =
      if d.containsKey "led_mode_operating" then
        E.stringToLEDMode (asString E.printTo (d.get "led_mode_operating"))
      else S.ledModeOperating := by
  simp only [patchFields, apply_ite Settings.ledModeOperating, updateDeviceIds_eq,
    updateGatewayConfigs_eq, ite_self]

theorem patchFields_ledModePacket (E : Env RF24Channel RF24PowerLevel LEDMode GroupStateField)
    (S : Settings RF24Channel RF24PowerLevel LEDMode GroupStateField) (d : JsonObject) :
    (patchFields E S d).ledModePacket =
      if d.containsKey "led_mode_packet" then
        E.stringToLEDMode (asString E.printTo (d.get "led_mode_packet"))
      else S.ledModePacket := by
  simp only [patchFields, apply_ite Settings.ledModePacket, updateDeviceIds_eq,
    updateGatewayConfigs_eq, ite_self]

theorem patchFields_ledModePacketCount (E : Env RF24Channel RF24PowerLevel LEDMode GroupStateField)
    (S : Settings RF24Channel RF24PowerLevel LEDMode GroupStateField) (d : JsonObject) :
    (patchFields E S d).ledModePacketCount =
      setIfPresent d "led_mode_packet_count"
        (asUInt E.widths.ledModePacketCount) S.ledModePacketCount := by
  simp only [patchFields, apply_ite Settings.ledModePacketCount, updateDeviceIds_eq,
    updateGatewayConfigs_eq, ite_self]

theorem patchFields_hostname (E : Env RF24Channel RF24PowerLevel LEDMode GroupStateField)
    (S : Settings RF24Channel RF24PowerLevel LEDMode GroupStateField) (d : JsonObject) :
    (patchFields E S d).hostname =
      setIfPresent d "hostname" (asString E.printTo) S.hostname := by
  simp only [patchFields, apply_ite Settings.hostname, updateDeviceIds_eq,
    updateGatewayConfigs_eq, ite_self]

theorem patchFields_rf24PowerLevel (E : Env RF24Channel RF24PowerLevel LEDMode GroupStateField)
    (S : Settings RF24Channel RF24PowerLevel LEDMode GroupStateField) (d : JsonObject) :
    (patchFields E S d).rf24PowerLevel =
      if d.containsKey "rf24_power_level" then
        E.powerLevelValueFromName (asString E.printTo (d.get "rf24_power_level"))
      else S.rf24PowerLevel := by
  simp only [patchFields, apply_ite Settings.rf24PowerLevel, updateDeviceIds_eq,
    updateGatewayConfigs_eq, ite_self]

theorem patchFields_rf24ListenChannel (E : Env RF24Channel RF24PowerLevel LEDMode GroupStateField)
    (S : Settings RF24Channel RF24PowerLevel LEDMode GroupStateField) (d : JsonObject) :
    (patchFields E S d).rf24ListenChannel =
      if d.containsKey "rf24_listen_channel" then
        E.channelValueFromName (asString E.printTo (d.get "rf24_listen_channel"))
      else S.rf24ListenChannel := by
  simp only [patchFields, apply_ite Settings.rf24ListenChannel, updateDeviceIds_eq,
    updateGatewayConfigs_eq, ite_self]

theorem patchFields_wifiStaticIP (E : Env RF24Channel RF24PowerLevel LEDMode GroupStateField)
    (S : Settings RF24Channel RF24PowerLevel LEDMode GroupStateField) (d : JsonObject) :
    (patchFields E S d).wifiStaticIP =
      setIfPresent d "wifi_static_ip" (asString E.printTo) S.wifiStaticIP := by
  simp only [patchFields, apply_ite Settings.wifiStaticIP, updateDeviceIds_eq,
    updateGatewayConfigs_eq, ite_self]

theorem patchFields_wifiStaticIPGateway (E : Env RF24Channel RF24PowerLevel LEDMode GroupStateField)
    (S : Settings RF24Channel RF24PowerLevel LEDMode GroupStateField) (d : JsonObject) :
    (patchFields E S d).wifiStaticIPGateway =
      setIfPresent d "wifi_static_ip_gateway" (asString E.printTo) S.wifiStaticIPGateway := by
  simp only [patchFields, apply_ite Settings.wifiStaticIPGateway, updateDeviceIds_eq,
    updateGatewayConfigs_eq, ite_self]

theorem patchFields_wifiStaticIPNetmask (E : Env RF24Channel RF24PowerLevel LEDMode GroupStateField)
    (S : Settings RF24Channel RF24PowerLevel LEDMode GroupStateField) (d : JsonObject) :
    (patchFields E S d).wifiStaticIPNetmask =
      setIfPresent d "wifi_static_ip_netmask" (asString E.printTo) S.wifiStaticIPNetmask := by
  simp only [patchFields, apply_ite Settings.wifiStaticIPNetmask, updateDeviceIds_eq,
    updateGatewayConfigs_eq, ite_self]

theorem patchFields_rf24Channels (E : Env RF24Channel RF24PowerLevel LEDMode GroupStateField)
    (S : Settings RF24Channel RF24PowerLevel LEDMode GroupStateField) (d : JsonObject) :
    (patchFields E S d).rf24Channels =
      if d.containsKey "rf24_channels" then
        jsonArrToVector E.printTo (asArray (d.get "rf24_channels")) E.channelValueFromName
      else S.rf24Channels := by
  simp only [patchFields, apply_ite Settings.rf24Channels, updateDeviceIds_eq,
    updateGatewayConfigs_eq, ite_self]

theorem patchFields_deviceIds (E : Env RF24Channel RF24PowerLevel LEDMode GroupStateField)
    (S : Settings RF24Channel RF24PowerLevel LEDMode GroupStateField) (d : JsonObject) :
    (patchFields E S d).deviceIds =
      if d.containsKey "device_ids" then
        if (asArray (d.get "device_ids")).success then
          (asArray (d.get "device_ids")).elems.map (asUInt 16)
        else S.deviceIds
      else S.deviceIds := by
  simp only [patchFields, apply_ite Settings.deviceIds, updateDeviceIds_eq,
    updateGatewayConfigs_eq, ite_self]

theorem patchFields_gatewayConfigs (E : Env RF24Channel RF24PowerLevel LEDMode GroupStateField)
    (S : Settings RF24Channel RF24PowerLevel LEDMode GroupStateField) (d : JsonObject) :
    (patchFields E S d).gatewayConfigs =
      if d.containsKey "gateway_configs" then
        if (asArray (d.get "gateway_configs")).success then
          (asArray (d.get "gateway_configs")).elems.filterMap (decodeGatewayConfig E)
        else S.gatewayConfigs
      else S.gatewayConfigs := by
  simp only [patchFields, apply_ite Settings.gatewayConfigs, updateDeviceIds_eq,
    updateGatewayConfigs_eq, ite_self]

theorem patchFields_groupStateFields (E : Env RF24Channel RF24PowerLevel LEDMode GroupStateField)
    (S : Settings RF24Channel RF24PowerLevel LEDMode GroupStateField) (d : JsonObject) :
    (patchFields E S d).groupStateFields =
      if d.containsKey "group_state_fields" then
        jsonArrToVector E.printTo (asArray (d.get "group_state_fields")) E.getFieldByName
      else S.groupStateFields := by
  simp only [patchFields, apply_ite Settings.groupStateFields, updateDeviceIds_eq,
    updateGatewayConfigs_eq, ite_self]

/-! ### Reading back what `serialize` wrote -/

theorem lookup_setMember (key : String) (value : Json) (l : List (String × Json))
    (k : String) :
    (setMember key value l).lookup k = if k = key then some value else l.lookup k := by
  induction l with
  | nil =>
    by_cases h : k = key
    · simp [setMember, List.lookup_cons, h]
    · have hb : (k == key) = false := by simpa using h
      simp [setMember, List.lookup_cons, h, hb]
  | cons kv rest ih =>
    obtain ⟨k0, v0⟩ := kv
    unfold setMember
    by_cases h0 : k0 = key
    · subst h0
      by_cases h : k = k0
      · simp [List.lookup_cons, h]
      · have hb : (k == k0) = false := by simpa using h
        simp [List.lookup_cons, h, hb]
    · by_cases h : k = k0
      · subst h
        have h1 : ¬ k = key := h0
        simp [List.lookup_cons, h0, h1]
      · have hb : (k == k0) = false := by simpa using h
        simp [List.lookup_cons, h0, h, hb, ih]

theorem lookup_set (o : JsonObject) (key : String) (value : Json) (k : String) :
    (o.set key value).members.lookup k
      = if k = key then some value else o.members.lookup k :=
  lookup_setMember key value o.members k

theorem success_set (o : JsonObject) (key : String) (value : Json) :
    (o.set key value).success = o.success := rfl

theorem serializeRoot_success (E : Env RF24Channel RF24PowerLevel LEDMode GroupStateField)
    (S : Settings RF24Channel RF24PowerLevel LEDMode GroupStateField) :
    (serializeRoot E S).success = true := by
  simp only [serializeRoot, success_set]

theorem serializeRoot_lookup_adminUsername
    (E : Env RF24Channel RF24PowerLevel LEDMode GroupStateField)
    (S : Settings RF24Channel RF24PowerLevel LEDMode GroupStateField) :
    (serializeRoot E S).members.lookup "admin_username" =
      some (Json.str S.adminUsername) := by
  simp only [serializeRoot, lookup_set, String.reduceEq, ↓reduceIte]

theorem serializeRoot_lookup_adminPassword
    (E : Env RF24Channel RF24PowerLevel LEDMode GroupStateField)
    (S : Settings RF24Channel RF24PowerLevel LEDMode GroupStateField) :
    (serializeRoot E S).members.lookup "admin_password" =
      some (Json.str S.adminPassword) := by
  simp only [serializeRoot, lookup_set, String.reduceEq, ↓reduceIte]

theorem serializeRoot_lookup_cePin (E : Env RF24Channel RF24PowerLevel LEDMode GroupStateField)
    (S : Settings RF24Channel RF24PowerLevel LEDMode GroupStateField) :
    (serializeRoot E S).members.lookup "ce_pin" =
      some (Json.num S.cePin) := by
  simp only [serializeRoot, lookup_set, String.reduceEq, ↓reduceIte]

theorem serializeRoot_lookup_csnPin (E : Env RF24Channel RF24PowerLevel LEDMode GroupStateField)
    (S : Settings RF24Channel RF24PowerLevel LEDMode GroupStateField) :
    (serializeRoot E S).members.lookup "csn_pin" =
      some (Json.num S.csnPin) := by
  simp only [serializeRoot, lookup_set, String.reduceEq, ↓reduceIte]

theorem serializeRoot_lookup_resetPin (E : Env RF24Channel RF24PowerLevel LEDMode GroupStateField)
    (S : Settings RF24Channel RF24PowerLevel LEDMode GroupStateField) :
    (serializeRoot E S).members.lookup "reset_pin" =
      some (Json.num S.resetPin) := by
  simp only [serializeRoot, lookup_set, String.reduceEq, ↓reduceIte]

theorem serializeRoot_lookup_ledPin (E : Env RF24Channel RF24PowerLevel LEDMode GroupStateField)
    (S : Settings RF24Channel RF24PowerLevel LEDMode GroupStateField) :
    (serializeRoot E S).members.lookup "led_pin" =
      some (Json.num S.ledPin) := by
  simp only [serializeRoot, lookup_set, String.reduceEq, ↓reduceIte]

theorem serializeRoot_lookup_radioInterfaceType
    (E : Env RF24Channel RF24PowerLevel LEDMode GroupStateField)
    (S : Settings RF24Channel RF24PowerLevel LEDMode GroupStateField) :
    (serializeRoot E S).members.lookup "radio_interface_type" =
      some (Json.str (typeToString S.radioInterfaceType)) := by
  simp only [serializeRoot, lookup_set, String.reduceEq, ↓reduceIte]

theorem serializeRoot_lookup_packetRepeats
    (E : Env RF24Channel RF24PowerLevel LEDMode GroupStateField)
    (S : Settings RF24Channel RF24PowerLevel LEDMode GroupStateField) :
    (serializeRoot E S).members.lookup "packet_repeats" =
      some (Json.num S.packetRepeats) := by
  simp only [serializeRoot, lookup_set, String.reduceEq, ↓reduceIte]

theorem serializeRoot_lookup_httpRepeatFactor
    (E : Env RF24Channel RF24PowerLevel LEDMode GroupStateField)
    (S : Settings RF24Channel RF24PowerLevel LEDMode GroupStateField) :
    (serializeRoot E S).members.lookup "http_repeat_factor" =
      some (Json.num S.httpRepeatFactor) := by
  simp only [serializeRoot, lookup_set, String.reduceEq, ↓reduceIte]

theorem serializeRoot_lookup__autoRestartPeriod
    (E : Env RF24Channel RF24PowerLevel LEDMode GroupStateField)
    (S : Settings RF24Channel RF24PowerLevel LEDMode GroupStateField) :
    (serializeRoot E S).members.lookup "auto_restart_period" =
      some (Json.num S._autoRestartPeriod) := by
  simp only [serializeRoot, lookup_set, String.reduceEq, ↓reduceIte]

theorem serializeRoot_lookup__mqttServer
    (E : Env RF24Channel RF24PowerLevel LEDMode GroupStateField)
    (S : Settings RF24Channel RF24PowerLevel LEDMode GroupStateField) :
    (serializeRoot E S).members.lookup "mqtt_server" =
      some (Json.str S._mqttServer) := by
  simp only [serializeRoot, lookup_set, String.reduceEq, ↓reduceIte]

theorem serializeRoot_lookup_mqttUsername
    (E : Env RF24Channel RF24PowerLevel LEDMode GroupStateField)
    (S : Settings RF24Channel RF24PowerLevel LEDMode GroupStateField) :
    (serializeRoot E S).members.lookup "mqtt_username" =
      some (Json.str S.mqttUsername) := by
  simp only [serializeRoot, lookup_set, String.reduceEq, ↓reduceIte]

theorem serializeRoot_lookup_mqttPassword
    (E : Env RF24Channel RF24PowerLevel LEDMode GroupStateField)
    (S : Settings RF24Channel RF24PowerLevel LEDMode GroupStateField) :
    (serializeRoot E S).members.lookup "mqtt_password" =
      some (Json.str S.mqttPassword) := by
  simp only [serializeRoot, lookup_set, String.reduceEq, ↓reduceIte]

theorem serializeRoot_lookup_mqttTopicPattern
    (E : Env RF24Channel RF24PowerLevel LEDMode GroupStateField)
    (S : Settings RF24Channel RF24PowerLevel LEDMode GroupStateField) :
    (serializeRoot E S).members.lookup "mqtt_topic_pattern" =
      some (Json.str S.mqttTopicPattern) := by
  simp only [serializeRoot, lookup_set, String.reduceEq, ↓reduceIte]

theorem serializeRoot_lookup_mqttUpdateTopicPattern
    (E : Env RF24Channel RF24PowerLevel LEDMode GroupStateField)
    (S : Settings RF24Channel RF24PowerLevel LEDMode GroupStateField) :
    (serializeRoot E S).members.lookup "mqtt_update_topic_pattern" =
      some (Json.str S.mqttUpdateTopicPattern) := by
  simp only [serializeRoot, lookup_set, String.reduceEq, ↓reduceIte]

theorem serializeRoot_lookup_mqttStateTopicPattern
    (E : Env RF24Channel RF24PowerLevel LEDMode GroupStateField)
    (S : Settings RF24Channel RF24PowerLevel LEDMode GroupStateField) :
    (serializeRoot E S).members.lookup "mqtt_state_topic_pattern" =
      some (Json.str S.mqttStateTopicPattern) := by
  simp only [serializeRoot, lookup_set, String.reduceEq, ↓reduceIte]

theorem serializeRoot_lookup_mqttClientStatusTopic
    (E : Env RF24Channel RF24PowerLevel LEDMode GroupStateField)
    (S : Settings RF24Channel RF24PowerLevel LEDMode GroupStateField) :
    (serializeRoot E S).members.lookup "mqtt_client_status_topic" =
      some (Json.str S.mqttClientStatusTopic) := by
  simp only [serializeRoot, lookup_set, String.reduceEq, ↓reduceIte]

theorem serializeRoot_lookup_discoveryPort
    (E : Env RF24Channel RF24PowerLevel LEDMode GroupStateField)
    (S : Settings RF24Channel RF24PowerLevel LEDMode GroupStateField) :
    (serializeRoot E S).members.lookup "discovery_port" =
      some (Json.num S.discoveryPort) := by
  simp only [serializeRoot, lookup_set, String.reduceEq, ↓reduceIte]

theorem serializeRoot_lookup_listenRepeats
    (E : Env RF24Channel RF24PowerLevel LEDMode GroupStateField)
    (S : Settings RF24Channel RF24PowerLevel LEDMode GroupStateField) :
    (serializeRoot E S).members.lookup "listen_repeats" =
      some (Json.num S.listenRepeats) := by
  simp only [serializeRoot, lookup_set, String.reduceEq, ↓reduceIte]

theorem serializeRoot_lookup_stateFlushInterval
    (E : Env RF24Channel RF24PowerLevel LEDMode GroupStateField)
    (S : Settings RF24Channel RF24PowerLevel LEDMode GroupStateField) :
    (serializeRoot E S).members.lookup "state_flush_interval" =
      some (Json.num S.stateFlushInterval) := by
  simp only [serializeRoot, lookup_set, String.reduceEq, ↓reduceIte]

theorem serializeRoot_lookup_mqttStateRateLimit
    (E : Env RF24Channel RF24PowerLevel LEDMode GroupStateField)
    (S : Settings RF24Channel RF24PowerLevel LEDMode GroupStateField) :
    (serializeRoot E S).members.lookup "mqtt_state_rate_limit" =
      some (Json.num S.mqttStateRateLimit) := by
  simp only [serializeRoot, lookup_set, String.reduceEq, ↓reduceIte]

theorem serializeRoot_lookup_packetRepeatThrottleSensitivity
    (E : Env RF24Channel RF24PowerLevel LEDMode GroupStateField)
    (S : Settings RF24Channel RF24PowerLevel LEDMode GroupStateField) :
    (serializeRoot E S).members.lookup "packet_repeat_throttle_sensitivity" =
      some (Json.num S.packetRepeatThrottleSensitivity) := by
  simp only [serializeRoot, lookup_set, String.reduceEq, ↓reduceIte]

theorem serializeRoot_lookup_packetRepeatThrottleThreshold
    (E : Env RF24Channel RF24PowerLevel LEDMode GroupStateField)
    (S : Settings RF24Channel RF24PowerLevel LEDMode GroupStateField) :
    (serializeRoot E S).members.lookup "packet_repeat_throttle_threshold" =
      some (Json.num S.packetRepeatThrottleThreshold) := by
  simp only [serializeRoot, lookup_set, String.reduceEq, ↓reduceIte]

theorem serializeRoot_lookup_packetRepeatMinimum
    (E : Env RF24Channel RF24PowerLevel LEDMode GroupStateField)
    (S : Settings RF24Channel RF24PowerLevel LEDMode GroupStateField) :
    (serializeRoot E S).members.lookup "packet_repeat_minimum" =
      some (Json.num S.packetRepeatMinimum) := by
  simp only [serializeRoot, lookup_set, String.reduceEq, ↓reduceIte]

theorem serializeRoot_lookup_enableAutomaticModeSwitching
    (E : Env RF24Channel RF24PowerLevel LEDMode GroupStateField)
    (S : Settings RF24Channel RF24PowerLevel LEDMode GroupStateField) :
    (serializeRoot E S).members.lookup "enable_automatic_mode_switching" =
      some (Json.bool S.enableAutomaticModeSwitching) := by
  simp only [serializeRoot, lookup_set, String.reduceEq, ↓reduceIte]

theorem serializeRoot_lookup_ledModeWifiConfig
    (E : Env RF24Channel RF24PowerLevel LEDMode GroupStateField)
    (S : Settings RF24Channel RF24PowerLevel LEDMode GroupStateField) :
    (serializeRoot E S).members.lookup "led_mode_wifi_config" =
      some (Json.str (E.LEDModeToString S.ledModeWifiConfig)) := by
  simp only [serializeRoot, lookup_set, String.reduceEq, ↓reduceIte]

theorem serializeRoot_lookup_ledModeWifiFailed
    (E : Env RF24Channel RF24PowerLevel LEDMode GroupStateField)
    (S : Settings RF24Channel RF24PowerLevel LEDMode GroupStateField) :
    (serializeRoot E S).members.lookup "led_mode_wifi_failed" =
      some (Json.str (E.LEDModeToString S.ledModeWifiFailed)) := by
  simp only [serializeRoot, lookup_set, String.reduceEq, ↓reduceIte]

theorem serializeRoot_lookup_ledModeOperating
    (E : Env RF24Channel RF24PowerLevel LEDMode GroupStateField)
    (S : Settings RF24Channel RF24PowerLevel LEDMode GroupStateField) :
    (serializeRoot E S).members.lookup "led_mode_operating" =
      some (Json.str (E.LEDModeToString S.ledModeOperating)) := by
  simp only [serializeRoot, lookup_set, String.reduceEq, ↓reduceIte]

theorem serializeRoot_lookup_ledModePacket
    (E : Env RF24Channel RF24PowerLevel LEDMode GroupStateField)
    (S : Settings RF24Channel RF24PowerLevel LEDMode GroupStateField) :
    (serializeRoot E S).members.lookup "led_mode_packet" =
      some (Json.str (E.LEDModeToString S.ledModePacket)) := by
  simp only [serializeRoot, lookup_set, String.reduceEq, ↓reduceIte]

theorem serializeRoot_lookup_ledModePacketCount
    (E : Env RF24Channel RF24PowerLevel LEDMode GroupStateField)
    (S : Settings RF24Channel RF24PowerLevel LEDMode GroupStateField) :
    (serializeRoot E S).members.lookup "led_mode_packet_count" =
      some (Json.num S.ledModePacketCount) := by
  simp only [serializeRoot, lookup_set, String.reduceEq, ↓reduceIte]

theorem serializeRoot_lookup_hostname (E : Env RF24Channel RF24PowerLevel LEDMode GroupStateField)
    (S : Settings RF24Channel RF24PowerLevel LEDMode GroupStateField) :
    (serializeRoot E S).members.lookup "hostname" =
      some (Json.str S.hostname) := by
  simp only [serializeRoot, lookup_set, String.reduceEq, ↓reduceIte]

theorem serializeRoot_lookup_rf24PowerLevel
    (E : Env RF24Channel RF24PowerLevel LEDMode GroupStateField)
    (S : Settings RF24Channel RF24PowerLevel LEDMode GroupStateField) :
    (serializeRoot E S).members.lookup "rf24_power_level" =
      some (Json.str (E.powerLevelNameFromValue S.rf24PowerLevel)) := by
  simp only [serializeRoot, lookup_set, String.reduceEq, ↓reduceIte]

theorem serializeRoot_lookup_rf24ListenChannel
    (E : Env RF24Channel RF24PowerLevel LEDMode GroupStateField)
    (S : Settings RF24Channel RF24PowerLevel LEDMode GroupStateField) :
    (serializeRoot E S).members.lookup "rf24_listen_channel" =
      some (Json.str (E.channelNameFromValue S.rf24ListenChannel)) := by
  simp only [serializeRoot, lookup_set, String.reduceEq, ↓reduceIte]

theorem serializeRoot_lookup_wifiStaticIP
    (E : Env RF24Channel RF24PowerLevel LEDMode GroupStateField)
    (S : Settings RF24Channel RF24PowerLevel LEDMode GroupStateField) :
    (serializeRoot E S).members.lookup "wifi_static_ip" =
      some (Json.str S.wifiStaticIP) := by
  simp only [serializeRoot, lookup_set, String.reduceEq, ↓reduceIte]

theorem serializeRoot_lookup_wifiStaticIPGateway
    (E : Env RF24Channel RF24PowerLevel LEDMode GroupStateField)
    (S : Settings RF24Channel RF24PowerLevel LEDMode GroupStateField) :
    (serializeRoot E S).members.lookup "wifi_static_ip_gateway" =
      some (Json.str S.wifiStaticIPGateway) := by
  simp only [serializeRoot, lookup_set, String.reduceEq, ↓reduceIte]

theorem serializeRoot_lookup_wifiStaticIPNetmask
    (E : Env RF24Channel RF24PowerLevel LEDMode GroupStateField)
    (S : Settings RF24Channel RF24PowerLevel LEDMode GroupStateField) :
    (serializeRoot E S).members.lookup "wifi_static_ip_netmask" =
      some (Json.str S.wifiStaticIPNetmask) := by
  simp only [serializeRoot, lookup_set, String.reduceEq, ↓reduceIte]

theorem serializeRoot_lookup_rf24Channels
    (E : Env RF24Channel RF24PowerLevel LEDMode GroupStateField)
    (S : Settings RF24Channel RF24PowerLevel LEDMode GroupStateField) :
    (serializeRoot E S).members.lookup "rf24_channels" =
      some (Json.arr (vectorToJsonArr S.rf24Channels E.channelNameFromValue)) := by
  simp only [serializeRoot, lookup_set, String.reduceEq, ↓reduceIte]

theorem serializeRoot_lookup_deviceIds (E : Env RF24Channel RF24PowerLevel LEDMode GroupStateField)
    (S : Settings RF24Channel RF24PowerLevel LEDMode GroupStateField) :
    (serializeRoot E S).members.lookup "device_ids" =
      some (Json.arr (copyFrom S.deviceIds)) := by
  simp only [serializeRoot, lookup_set, String.reduceEq, ↓reduceIte]

theorem serializeRoot_lookup_gatewayConfigs
    (E : Env RF24Channel RF24PowerLevel LEDMode GroupStateField)
    (S : Settings RF24Channel RF24PowerLevel LEDMode GroupStateField) :
    (serializeRoot E S).members.lookup "gateway_configs" =
      some (Json.arr (gatewayConfigsArr S.gatewayConfigs)) := by
  simp only [serializeRoot, lookup_set, String.reduceEq, ↓reduceIte]

theorem serializeRoot_lookup_groupStateFields
    (E : Env RF24Channel RF24PowerLevel LEDMode GroupStateField)
    (S : Settings RF24Channel RF24PowerLevel LEDMode GroupStateField) :
    (serializeRoot E S).members.lookup "group_state_fields" =
      some (Json.arr (vectorToJsonArr S.groupStateFields E.getFieldName)) := by
  simp only [serializeRoot, lookup_set, String.reduceEq, ↓reduceIte]

theorem decodeGatewayConfig_of_not_isTriple
    (E : Env RF24Channel RF24PowerLevel LEDMode GroupStateField) (v : Json)
    (h : isTriple v = false) : decodeGatewayConfig E v = none := by
  unfold decodeGatewayConfig
  split
  · simp [isTriple] at h
  · rfl

theorem decodeGatewayConfig_isSome_of_isTriple
    (E : Env RF24Channel RF24PowerLevel LEDMode GroupStateField) (v : Json)
    (h : isTriple v = true) : (decodeGatewayConfig E v).isSome = true := by
  unfold isTriple at h
  split at h
  · rfl
  · exact absurd h (by simp)

theorem filterMap_filter_isTriple
    (E : Env RF24Channel RF24PowerLevel LEDMode GroupStateField) (elems : List Json) :
    (elems.filter isTriple).filterMap (decodeGatewayConfig E)
      = elems.filterMap (decodeGatewayConfig E) := by
  induction elems with
  | nil => rfl
  | cons v vs ih =>
    by_cases h : isTriple v = true
    · rw [List.filter_cons_of_pos h, List.filterMap_cons, List.filterMap_cons, ih]
    · have h' : isTriple v = false := by simpa using h
      rw [List.filter_cons_of_neg h, List.filterMap_cons,
        decodeGatewayConfig_of_not_isTriple E v h', ih]

theorem length_filterMap_isTriple
    (E : Env RF24Channel RF24PowerLevel LEDMode GroupStateField) (elems : List Json) :
    ((elems.filter isTriple).filterMap (decodeGatewayConfig E)).length
      = (elems.filter isTriple).length := by
  induction elems with
  | nil => rfl
  | cons v vs ih =>
    by_cases h : isTriple v = true
    · rw [List.filter_cons_of_pos h, List.filterMap_cons]
      have hs := decodeGatewayConfig_isSome_of_isTriple E v h
      cases hv : decodeGatewayConfig E v with
      | none => rw [hv] at hs; exact absurd hs (by simp)
      | some g => simp [ih]
    · rw [List.filter_cons_of_neg h]
      exact ih

/-- C3. Idempotence of patch: patching twice with the same document gives the same
settings, in every member, as patching once. -/
theorem patch_idempotent (E : Env RF24Channel RF24PowerLevel LEDMode GroupStateField)
    (S : Settings RF24Channel RF24PowerLevel LEDMode GroupStateField) (d : JsonObject) :
    patch E (patch E S d) d = patch E S d := by
  unfold patch
  by_cases hs : d.success = true
  · simp only [hs, if_true]
    apply Settings.ext <;>
      simp only [patchFields_adminUsername, patchFields_adminPassword, patchFields_cePin,
        patchFields_csnPin, patchFields_resetPin, patchFields_ledPin,
        patchFields_radioInterfaceType, patchFields_packetRepeats, patchFields_httpRepeatFactor,
        patchFields__autoRestartPeriod, patchFields__mqttServer, patchFields_mqttUsername,
        patchFields_mqttPassword, patchFields_mqttTopicPattern,
        patchFields_mqttUpdateTopicPattern, patchFields_mqttStateTopicPattern,
        patchFields_mqttClientStatusTopic, patchFields_discoveryPort, patchFields_listenRepeats,
        patchFields_stateFlushInterval, patchFields_mqttStateRateLimit,
        patchFields_packetRepeatThrottleSensitivity, patchFields_packetRepeatThrottleThreshold,
        patchFields_packetRepeatMinimum, patchFields_enableAutomaticModeSwitching,
        patchFields_ledModeWifiConfig, patchFields_ledModeWifiFailed,
        patchFields_ledModeOperating, patchFields_ledModePacket, patchFields_ledModePacketCount,
        patchFields_hostname, patchFields_rf24PowerLevel, patchFields_rf24ListenChannel,
        patchFields_wifiStaticIP, patchFields_wifiStaticIPGateway,
        patchFields_wifiStaticIPNetmask, patchFields_rf24Channels, patchFields_deviceIds,
        patchFields_gatewayConfigs, patchFields_groupStateFields, setIfPresent] <;>
      split_ifs <;> rfl
  · simp [hs]

/-- C2. Partial-document tolerance: under a valid object document every member whose
key is absent keeps its value, and the value a member takes depends only on what the
document holds at that member's own key (and on the member's value before), whatever other
keys the document has. -/
theorem patch_partial_document (E : Env RF24Channel RF24PowerLevel LEDMode GroupStateField)
    (S T : Settings RF24Channel RF24PowerLevel LEDMode GroupStateField)
    (d e : JsonObject) (hd : d.success = true) (he : e.success = true) (f : Field) :
    (d.containsKey f.key = false → f.agree (patch E S d) S)
    ∧ (d.members.lookup f.key = e.members.lookup f.key → f.agree S T →
        f.agree (patch E S d) (patch E T e)) := by
  unfold patch
  simp only [hd, he, if_true]
  cases f <;>
    simp only [Field.agree, Field.key, patchFields_adminUsername, patchFields_adminPassword,
      patchFields_cePin, patchFields_csnPin, patchFields_resetPin, patchFields_ledPin,
      patchFields_radioInterfaceType, patchFields_packetRepeats, patchFields_httpRepeatFactor,
      patchFields__autoRestartPeriod, patchFields__mqttServer, patchFields_mqttUsername,
      patchFields_mqttPassword, patchFields_mqttTopicPattern, patchFields_mqttUpdateTopicPattern,
      patchFields_mqttStateTopicPattern, patchFields_mqttClientStatusTopic,
      patchFields_discoveryPort, patchFields_listenRepeats, patchFields_stateFlushInterval,
      patchFields_mqttStateRateLimit, patchFields_packetRepeatThrottleSensitivity,
      patchFields_packetRepeatThrottleThreshold, patchFields_packetRepeatMinimum,
      patchFields_enableAutomaticModeSwitching, patchFields_ledModeWifiConfig,
      patchFields_ledModeWifiFailed, patchFields_ledModeOperating, patchFields_ledModePacket,
      patchFields_ledModePacketCount, patchFields_hostname, patchFields_rf24PowerLevel,
      patchFields_rf24ListenChannel, patchFields_wifiStaticIP, patchFields_wifiStaticIPGateway,
      patchFields_wifiStaticIPNetmask, patchFields_rf24Channels, patchFields_deviceIds,
      patchFields_gatewayConfigs, patchFields_groupStateFields, setIfPresent,
      JsonObject.containsKey,
      JsonObject.get] <;>
    refine ⟨fun h => ?_, fun h1 h2 => ?_⟩ <;>
    first
      | (rw [h]; rfl)
      | (rw [h1, h2])

theorem patch_partial_document_witness :
    Field.agree Field.hostname
        (patch Demo.env Demo.custom ⟨true, [("ce_pin", Json.num 7)]⟩) Demo.custom
    ∧ Field.agree Field.cePin
        (patch Demo.env Demo.custom ⟨true, [("ce_pin", Json.num 7)]⟩)
        (patch Demo.env Demo.custom
          ⟨true, [("hostname", Json.str "hub"), ("ce_pin", Json.num 7)]⟩) :=
  ⟨(patch_partial_document Demo.env Demo.custom Demo.custom
      ⟨true, [("ce_pin", Json.num 7)]⟩ ⟨true, [("ce_pin", Json.num 7)]⟩ rfl rfl
      Field.hostname).1 (by decide),
   (patch_partial_document Demo.env Demo.custom Demo.custom
      ⟨true, [("ce_pin", Json.num 7)]⟩
      ⟨true, [("hostname", Json.str "hub"), ("ce_pin", Json.num 7)]⟩ rfl rfl
      Field.cePin).2 rfl rfl⟩

/-- C4. Malformed-entry isolation: on a valid array `updateGatewayConfigs` leaves
`gatewayConfigs` equal to the entries decoded from the elements that are arrays of three
values, in document order; an element of another shape is skipped and the entries before
and after it are kept; `[[1,5987,6],[2,5988],[3,5989,5]]` yields the two entries for the
device ids read from 1 and 3. -/
theorem updateGatewayConfigs_isolates_malformed
    (E : Env RF24Channel RF24PowerLevel LEDMode GroupStateField)
    (S : Settings RF24Channel RF24PowerLevel LEDMode GroupStateField) :
    (∀ elems : List Json,
      (updateGatewayConfigs E S ⟨true, elems⟩).gatewayConfigs
        = ((elems.filter isTriple).filterMap (decodeGatewayConfig E))
      ∧ ((elems.filter isTriple).filterMap (decodeGatewayConfig E)).length
        = (elems.filter isTriple).length)
    ∧ (∀ (before after : List Json) (bad : Json), isTriple bad = false →
      (updateGatewayConfigs E S ⟨true, before ++ bad :: after⟩).gatewayConfigs
        = (updateGatewayConfigs E S ⟨true, before⟩).gatewayConfigs
          ++ (updateGatewayConfigs E S ⟨true, after⟩).gatewayConfigs)
    ∧ (updateGatewayConfigs E S
        ⟨true, [Json.arr [Json.num 1, Json.num 5987, Json.num 6],
                Json.arr [Json.num 2, Json.num 5988],
                Json.arr [Json.num 3, Json.num 5989, Json.num 5]]⟩).gatewayConfigs
        = [⟨E.parseInt "1" % 2 ^ 16, 5987, 6⟩, ⟨E.parseInt "3" % 2 ^ 16, 5989, 5⟩] := by
  refine ⟨fun elems => ⟨?_, ?_⟩, ?_, ?_⟩
  · rw [updateGatewayConfigs_eq]
    simp only [if_true]
    exact (filterMap_filter_isTriple E elems).symm
  · exact length_filterMap_isTriple E elems
  · intro before after bad hbad
    simp only [updateGatewayConfigs_eq, if_true, List.filterMap_append, List.filterMap_cons,
      decodeGatewayConfig_of_not_isTriple E bad hbad]
  · rw [updateGatewayConfigs_eq]
    simp [decodeGatewayConfig, asString, asUInt, GatewayConfig.new]
    constructor <;> rfl

theorem updateGatewayConfigs_isolates_malformed_witness :
    isTriple (Json.arr [Json.num 2, Json.num 5988]) = false
    ∧ (updateGatewayConfigs Demo.env Demo.custom
        ⟨true, [Json.arr [Json.num 1, Json.num 5987, Json.num 6]]
          ++ Json.arr [Json.num 2, Json.num 5988]
            :: [Json.arr [Json.num 3, Json.num 5989, Json.num 5]]⟩).gatewayConfigs
      = (updateGatewayConfigs Demo.env Demo.custom
          ⟨true, [Json.arr [Json.num 1, Json.num 5987, Json.num 6]]⟩).gatewayConfigs
        ++ (updateGatewayConfigs Demo.env Demo.custom
          ⟨true, [Json.arr [Json.num 3, Json.num 5989, Json.num 5]]⟩).gatewayConfigs :=
  ⟨rfl, (updateGatewayConfigs_isolates_malformed Demo.env Demo.custom).2.1
    [Json.arr [Json.num 1, Json.num 5987, Json.num 6]]
    [Json.arr [Json.num 3, Json.num 5989, Json.num 5]]
    (Json.arr [Json.num 2, Json.num 5988]) rfl⟩

/-! ### Conversions of the values `serialize` writes -/

theorem asUInt_num_cast (w n : Nat) (h : n < 2 ^ w) : asUInt w (Json.num (n : Int)) = n := by
  show ((n : Int) % (2 : Int) ^ w).toNat = n
  have h' : ((n : Int) % (2 : Int) ^ w) = (n : Int) := by
    apply Int.emod_eq_of_lt (Int.ofNat_nonneg n)
    exact_mod_cast h
  rw [h']
  exact Int.toNat_ofNat n

theorem asBool_bool (b : Bool) : asBool (Json.bool b) = b := by
  cases b <;> decide

theorem toString_natCast (n : Nat) : toString ((n : Nat) : Int) = toString n := rfl

theorem map_asUInt_copyFrom (ids : List Nat) (h : ∀ id ∈ ids, id < 2 ^ 16) :
    (copyFrom ids).map (asUInt 16) = ids := by
  rw [copyFrom, List.map_map]
  conv_rhs => rw [← List.map_id ids]
  apply List.map_congr_left
  intro a ha
  exact asUInt_num_cast 16 a (h a ha)

theorem jsonArrToVector_vectorToJsonArr {T : Type} (printTo : Json → String)
    (enc : T → String) (dec : String → T) (h : ∀ x, dec (enc x) = x) (vec : List T) :
    jsonArrToVector printTo (asArray (Json.arr (vectorToJsonArr vec enc))) dec = vec := by
  show List.map (fun v => dec (asString printTo v)) (List.map (fun x => Json.str (enc x)) vec)
    = vec
  rw [List.map_map]
  conv_rhs => rw [← List.map_id vec]
  apply List.map_congr_left
  intro a _
  exact h a

theorem filterMap_decode_gatewayConfigsArr
    (E : Env RF24Channel RF24PowerLevel LEDMode GroupStateField) (gs : List GatewayConfig)
    (hr : ∀ g ∈ gs, g.deviceId < 2 ^ 16 ∧ g.port < 2 ^ 16 ∧ g.protocolVersion < 2 ^ 8)
    (hp : ∀ g ∈ gs, E.parseInt (toString g.deviceId) = g.deviceId) :
    (gatewayConfigsArr gs).filterMap (decodeGatewayConfig E) = gs := by
  induction gs with
  | nil => rfl
  | cons g rest ih =>
    have hg := hr g (List.mem_cons_self _ _)
    have hpg := hp g (List.mem_cons_self _ _)
    have ih' := ih (fun x m => hr x (List.mem_cons_of_mem _ m))
      (fun x m => hp x (List.mem_cons_of_mem _ m))
    unfold gatewayConfigsArr at ih' ⊢
    have hdec : decodeGatewayConfig E
        (Json.arr [Json.num g.deviceId, Json.num g.port, Json.num g.protocolVersion])
          = some g := by
      unfold decodeGatewayConfig GatewayConfig.new
      simp only [asString, toString_natCast, hpg, asUInt_num_cast 16 g.port hg.2.1,
        asUInt_num_cast 8 g.protocolVersion hg.2.2, Nat.mod_eq_of_lt hg.1,
        Nat.mod_eq_of_lt hg.2.1, Nat.mod_eq_of_lt hg.2.2]
    rw [List.map_cons, List.filterMap_cons, hdec, ih']

/-- C1. Round trip: patching a default-constructed `Settings` with the document that
`serialize` builds for `S` gives `S` back in every member, when the members of `S` hold
values of their declared widths, the enumeration codecs decode the names they produce,
and `parseInt` reads back the decimal text of the gateway device ids of `S`. -/
theorem patch_serialize_roundtrip (E : Env RF24Channel RF24PowerLevel LEDMode GroupStateField)
    (S : Settings RF24Channel RF24PowerLevel LEDMode GroupStateField)
    (hr : S.inRange E.widths) (hc : E.codecsInverse)
    (hp : ∀ g ∈ S.gatewayConfigs, E.parseInt (toString g.deviceId) = g.deviceId) :
    patch E E.defaults (serializeRoot E S) = S := by
  obtain ⟨r0, r1, r2, r3, r4, r5, r6, r7, r8, r9, r10, r11, r12, r13, r14, rd, rg⟩ := hr
  obtain ⟨c1, c2, c3, c4⟩ := hc
  unfold patch
  simp only [serializeRoot_success, if_true]
  apply Settings.ext <;>
    simp only [patchFields_adminUsername, patchFields_adminPassword, patchFields_cePin,
      patchFields_csnPin, patchFields_resetPin, patchFields_ledPin,
      patchFields_radioInterfaceType, patchFields_packetRepeats, patchFields_httpRepeatFactor,
      patchFields__autoRestartPeriod, patchFields__mqttServer, patchFields_mqttUsername,
      patchFields_mqttPassword, patchFields_mqttTopicPattern, patchFields_mqttUpdateTopicPattern,
      patchFields_mqttStateTopicPattern, patchFields_mqttClientStatusTopic,
      patchFields_discoveryPort, patchFields_listenRepeats, patchFields_stateFlushInterval,
      patchFields_mqttStateRateLimit, patchFields_packetRepeatThrottleSensitivity,
      patchFields_packetRepeatThrottleThreshold, patchFields_packetRepeatMinimum,
      patchFields_enableAutomaticModeSwitching, patchFields_ledModeWifiConfig,
      patchFields_ledModeWifiFailed, patchFields_ledModeOperating, patchFields_ledModePacket,
      patchFields_ledModePacketCount, patchFields_hostname, patchFields_rf24PowerLevel,
      patchFields_rf24ListenChannel, patchFields_wifiStaticIP, patchFields_wifiStaticIPGateway,
      patchFields_wifiStaticIPNetmask, patchFields_rf24Channels, patchFields_deviceIds,
      patchFields_gatewayConfigs, patchFields_groupStateFields] <;>
    simp only [setIfPresent, JsonObject.containsKey, JsonObject.get,
      serializeRoot_lookup_adminUsername, serializeRoot_lookup_adminPassword,
        serializeRoot_lookup_cePin, serializeRoot_lookup_csnPin, serializeRoot_lookup_resetPin,
        serializeRoot_lookup_ledPin, serializeRoot_lookup_radioInterfaceType,
        serializeRoot_lookup_packetRepeats, serializeRoot_lookup_httpRepeatFactor,
        serializeRoot_lookup__autoRestartPeriod, serializeRoot_lookup__mqttServer,
        serializeRoot_lookup_mqttUsername, serializeRoot_lookup_mqttPassword,
        serializeRoot_lookup_mqttTopicPattern, serializeRoot_lookup_mqttUpdateTopicPattern,
        serializeRoot_lookup_mqttStateTopicPattern, serializeRoot_lookup_mqttClientStatusTopic,
        serializeRoot_lookup_discoveryPort, serializeRoot_lookup_listenRepeats,
        serializeRoot_lookup_stateFlushInterval, serializeRoot_lookup_mqttStateRateLimit,
        serializeRoot_lookup_packetRepeatThrottleSensitivity,
        serializeRoot_lookup_packetRepeatThrottleThreshold,
        serializeRoot_lookup_packetRepeatMinimum,
        serializeRoot_lookup_enableAutomaticModeSwitching, serializeRoot_lookup_ledModeWifiConfig,
        serializeRoot_lookup_ledModeWifiFailed, serializeRoot_lookup_ledModeOperating,
        serializeRoot_lookup_ledModePacket, serializeRoot_lookup_ledModePacketCount,
        serializeRoot_lookup_hostname, serializeRoot_lookup_rf24PowerLevel,
        serializeRoot_lookup_rf24ListenChannel, serializeRoot_lookup_wifiStaticIP,
        serializeRoot_lookup_wifiStaticIPGateway, serializeRoot_lookup_wifiStaticIPNetmask,
        serializeRoot_lookup_rf24Channels, serializeRoot_lookup_deviceIds,
        serializeRoot_lookup_gatewayConfigs, serializeRoot_lookup_groupStateFields] <;>
    simp only [Option.isSome_some, Option.getD_some, if_true]
  all_goals first
    | rfl
    | (apply asUInt_num_cast; assumption)
    | exact asBool_bool _
    | exact c1 _
    | exact c2 _
    | exact c3 _
    | exact typeToString_decodes _
    | exact jsonArrToVector_vectorToJsonArr E.printTo _ _ c1 _
    | exact jsonArrToVector_vectorToJsonArr E.printTo _ _ c4 _
    | exact map_asUInt_copyFrom _ rd
    | exact filterMap_decode_gatewayConfigsArr E _ rg hp

theorem patch_serialize_roundtrip_witness :
    patch Demo.env Demo.env.defaults (serializeRoot Demo.env Demo.custom) = Demo.custom :=
  patch_serialize_roundtrip Demo.env Demo.custom
    (by simp [Settings.inRange, Demo.custom, Demo.defaults, Demo.env, Demo.widths])
    ⟨fun c => by cases c <;> rfl, fun p => by cases p <;> rfl,
      fun m => by cases m <;> rfl, fun f => by cases f <;> rfl⟩
    (by decide)

/-- C5 (as stated, refuted). With no settings file, `load` on a target that differs from
the default settings leaves that target in memory, not the defaults: the sample target
has `cePin = 4` after `load`, the default is 16. -/
theorem load_keeps_custom_target :
    (load Demo.env Demo.custom ⟨none, true⟩).1 = Demo.custom
    ∧ (load Demo.env Demo.custom ⟨none, true⟩).1.cePin = 4
    ∧ Demo.env.defaults.cePin = 16
    ∧ ¬ ((load Demo.env Demo.custom ⟨none, true⟩).1 = Demo.env.defaults
        ∧ (load Demo.env Demo.custom ⟨none, true⟩).2.file
            = some (serialize Demo.env Demo.env.defaults)) := by
  refine ⟨rfl, rfl, rfl, ?_⟩
  intro h
  have h2 : (load Demo.env Demo.custom ⟨none, true⟩).1.cePin = Demo.env.defaults.cePin := by
    rw [h.1]
  exact absurd h2 (by decide)

/-- C5 (amended). With no settings file and a location that can be opened for writing,
`load` leaves the target as it was and stores the serialization of that target; when the
target is the default-constructed settings, the defaults are both in memory and in
storage. -/
theorem load_missing_file (E : Env RF24Channel RF24PowerLevel LEDMode GroupStateField)
    (target : Settings RF24Channel RF24PowerLevel LEDMode GroupStateField) (fs : SPIFFS)
    (hmissing : fs.exists = false) (hwritable : fs.writable = true) :
    (load E target fs).1 = target
    ∧ (load E target fs).2.file = some (serialize E target)
    ∧ (target = E.defaults →
        (load E target fs).1 = E.defaults
        ∧ (load E target fs).2.file = some (serialize E E.defaults)) := by
  have h1 : (load E target fs).1 = target := by
    unfold load
    simp [hmissing]
  have h2 : (load E target fs).2.file = some (serialize E target) := by
    unfold load save
    simp [hmissing, hwritable]
  refine ⟨h1, h2, ?_⟩
  intro ht
  rw [ht] at h1 h2
  rw [ht]
  exact ⟨h1, h2⟩

theorem load_missing_file_witness :
    (load Demo.env Demo.defaults ⟨none, true⟩).1 = Demo.defaults
    ∧ (load Demo.env Demo.defaults ⟨none, true⟩).2.file
        = some (serialize Demo.env Demo.defaults) :=
  (load_missing_file Demo.env Demo.defaults ⟨none, true⟩ rfl rfl).2.2 rfl

/-- C6. Load from an existing file discards prior state: the target becomes the
default settings patched with the parsed file contents, so two loads of the same file
from different prior targets end in equal settings; the file system is left as it was. -/
theorem load_existing_file (E : Env RF24Channel RF24PowerLevel LEDMode GroupStateField)
    (target other : Settings RF24Channel RF24PowerLevel LEDMode GroupStateField)
    (fs : SPIFFS) (contents : String) (hfile : fs.file = some contents) :
    (load E target fs).1 = patch E E.defaults (E.parseObject contents)
    ∧ (load E target fs).1 = (load E other fs).1
    ∧ (load E target fs).2 = fs := by
  unfold load SPIFFS.exists
  simp [hfile]

theorem load_existing_file_witness :
    (load Demo.env Demo.custom ⟨some "ce_pin=4", true⟩).1
      = patch Demo.env Demo.defaults ⟨true, [("ce_pin", Json.num 4)]⟩
    ∧ (load Demo.env Demo.custom ⟨some "ce_pin=4", true⟩).1
      = (load Demo.env Demo.defaults ⟨some "ce_pin=4", true⟩).1
    ∧ (load Demo.env Demo.custom ⟨some "ce_pin=4", true⟩).2 = ⟨some "ce_pin=4", true⟩ :=
  load_existing_file Demo.env Demo.custom Demo.defaults ⟨some "ce_pin=4", true⟩ "ce_pin=4" rfl

/-- C14. A document that is not a valid object is a no-op for `patch`: when the success
flag is false every member is unchanged, whatever members the document holds. -/
theorem patch_invalid_document (E : Env RF24Channel RF24PowerLevel LEDMode GroupStateField)
    (S : Settings RF24Channel RF24PowerLevel LEDMode GroupStateField)
    (members : List (String × Json)) :
    patch E S ⟨false, members⟩ = S
    ∧ ∀ f : Field, f.agree (patch E S ⟨false, members⟩) S := by
  have h : patch E S ⟨false, members⟩ = S := by
    unfold patch
    simp
  refine ⟨h, fun f => ?_⟩
  rw [h]
  cases f <;> rfl

/-- C19. The function `hasAuthSettings` is true exactly when the admin user name and the
admin password are both non-empty; with only one of the two set, or neither, it is
false. -/
theorem hasAuthSettings_iff
    (S : Settings RF24Channel RF24PowerLevel LEDMode GroupStateField) :
    (hasAuthSettings S = true ↔ S.adminUsername ≠ "" ∧ S.adminPassword ≠ "")
    ∧ (S.adminUsername = "" → hasAuthSettings S = false)
    ∧ (S.adminPassword = "" → hasAuthSettings S = false) := by
  have key : ∀ s : String, 0 < s.data.length ↔ s ≠ "" := by
    intro s
    constructor
    · intro h e
      rw [e] at h
      exact absurd h (by decide)
    · intro h
      apply Nat.pos_of_ne_zero
      intro h0
      apply h
      have : s.data = [] := List.length_eq_zero.mp h0
      exact String.ext this
  have main : hasAuthSettings S = true ↔ S.adminUsername ≠ "" ∧ S.adminPassword ≠ "" := by
    unfold hasAuthSettings
    rw [Bool.and_eq_true, decide_eq_true_iff, decide_eq_true_iff]
    exact and_congr (key _) (key _)
  refine ⟨main, ?_, ?_⟩
  · intro h
    cases hb : hasAuthSettings S with
    | false => rfl
    | true => exact absurd h (main.mp hb).1
  · intro h
    cases hb : hasAuthSettings S with
    | false => rfl
    | true => exact absurd h (main.mp hb).2

theorem hasAuthSettings_iff_witness :
    hasAuthSettings Demo.custom = true
    ∧ hasAuthSettings Demo.defaults = false
    ∧ hasAuthSettings { Demo.custom with adminPassword := "" } = false :=
  ⟨(hasAuthSettings_iff Demo.custom).1.mpr ⟨by decide, by decide⟩,
   (hasAuthSettings_iff Demo.defaults).2.1 rfl,
   (hasAuthSettings_iff { Demo.custom with adminPassword := "" }).2.2 rfl⟩

/-- C17. With no settings file `load` does not reset the target: the target in memory
after `load` is the target passed in, in every member, and the file system after `load`
is what `save` of that target leaves, so what is written is the serialization of the
target itself; nothing is written when the file cannot be opened for writing. -/
theorem load_without_file_saves_target
    (E : Env RF24Channel RF24PowerLevel LEDMode GroupStateField)
    (target : Settings RF24Channel RF24PowerLevel LEDMode GroupStateField) (fs : SPIFFS)
    (hmissing : fs.exists = false) :
    (load E target fs).1 = target
    ∧ (∀ f : Field, f.agree (load E target fs).1 target)
    ∧ (load E target fs).2 = save E target fs
    ∧ (fs.writable = true → (load E target fs).2.file = some (serialize E target))
    ∧ (fs.writable = false → (load E target fs).2 = fs) := by
  have h1 : (load E target fs).1 = target := by
    unfold load
    simp [hmissing]
  have h2 : (load E target fs).2 = save E target fs := by
    unfold load
    simp [hmissing]
  refine ⟨h1, fun f => ?_, h2, fun hw => ?_, fun hw => ?_⟩
  · rw [h1]
    cases f <;> rfl
  · rw [h2]
    unfold save
    simp [hw]
  · rw [h2]
    unfold save
    simp [hw]

theorem load_without_file_saves_target_witness :
    (load Demo.env Demo.custom ⟨none, true⟩).1 = Demo.custom
    ∧ (load Demo.env Demo.custom ⟨none, true⟩).2.file
        = some (serialize Demo.env Demo.custom)
    ∧ serialize Demo.env Demo.custom ≠ serialize Demo.env Demo.defaults :=
  ⟨(load_without_file_saves_target Demo.env Demo.custom ⟨none, true⟩ rfl).1,
   (load_without_file_saves_target Demo.env Demo.custom ⟨none, true⟩ rfl).2.2.2.1 rfl,
   by decide⟩

/-! ### The port text -/

theorem indexOfFrom_of_mem (c : Char) (l : List Char) (i : Nat) (h : c ∈ l) :
    ∃ n : Nat, indexOfFrom c l i = ((i + n : Nat) : Int)
      ∧ l.drop (n + 1) = (l.dropWhile (fun x => x != c)).tail := by
  induction l generalizing i with
  | nil => exact absurd h (List.not_mem_nil c)
  | cons x xs ih =>
    by_cases hx : x = c
    · refine ⟨0, ?_, ?_⟩
      · simp [indexOfFrom, hx]
      · simp [List.dropWhile_cons, hx]
    · have hxs : c ∈ xs := by
        rcases List.mem_cons.mp h with e | m
        · exact absurd e.symm hx
        · exact m
      obtain ⟨n, hn, hd⟩ := ih (i + 1) hxs
      refine ⟨n + 1, ?_, ?_⟩
      · simp only [indexOfFrom, hx, if_false, hn]
        congr 1
        omega
      · have hb : (x != c) = true := by simpa using hx
        simp only [List.drop_succ_cons, List.dropWhile_cons, hb, if_true]
        exact hd

theorem textAfterColon_append (host rest : String) (h : ':' ∉ host.data) :
    textAfterColon (host ++ ":" ++ rest) = rest.data := by
  have hdata : (host ++ ":" ++ rest).data = host.data ++ ':' :: rest.data := by
    simp [String.data_append]
  unfold textAfterColon
  rw [hdata]
  generalize host.data = l at h
  induction l with
  | nil => simp [List.dropWhile_cons]
  | cons x xs ih =>
    have hx : ¬ x = ':' := fun e => h (by rw [e]; exact List.mem_cons_self _ _)
    have hxs : ':' ∉ xs := fun m => h (List.mem_cons_of_mem _ m)
    have hb : (x != ':') = true := by simpa using hx
    rw [List.cons_append, List.dropWhile_cons, if_pos hb]
    exact ih hxs

/-- C18. With a `:` in `_mqttServer` the port never falls back to `DEFAULT_MQTT_PORT`:
it is the `atoi` value of the text after the first `:`, reduced modulo `2 ^ 16`, whatever
the default is; so `broker.local:` and `broker.local:abc` give 0 and
`broker.local:70000` gives 4464.  For the decimal text of a number `n` after the `:` the
`atoi` value is `n` up to `LONG_MAX` and `LONG_MAX` beyond it, so the port is
`n % 65536` up to 2147483647 and 65535 beyond. -/
theorem mqttPort_with_colon (E : Env RF24Channel RF24PowerLevel LEDMode GroupStateField)
    (S : Settings RF24Channel RF24PowerLevel LEDMode GroupStateField) :
    (':' ∈ S._mqttServer.data →
      mqttPort E S = (atoi (textAfterColon S._mqttServer) % (2 : Int) ^ 16).toNat)
    ∧ (S._mqttServer = "broker.local:" → mqttPort E S = 0)
    ∧ (S._mqttServer = "broker.local:abc" → mqttPort E S = 0)
    ∧ (S._mqttServer = "broker.local:70000" → mqttPort E S = 4464)
    ∧ (∀ (host : String) (n : Nat), S._mqttServer = host ++ ":" ++ toString n →
        ':' ∉ host.data →
        (n ≤ 2147483647 → mqttPort E S = n % 65536)
        ∧ (2147483647 < n → mqttPort E S = 65535))
    ∧ (S._mqttServer = "h:2147483647" → mqttPort E S = 65535)
    ∧ (S._mqttServer = "h:2147483648" → mqttPort E S = 65535)
    ∧ (S._mqttServer = "h:20000000000000000000" → mqttPort E S = 65535)
    ∧ (S._mqttServer = "h:-1" → mqttPort E S = 65535)
    ∧ (S._mqttServer = "h:-20000000000000000000" → mqttPort E S = 0) := by
  have main : ':' ∈ S._mqttServer.data →
      mqttPort E S = (atoi (textAfterColon S._mqttServer) % (2 : Int) ^ 16).toNat := by
    intro h
    obtain ⟨n, hn, hd⟩ := indexOfFrom_of_mem ':' S._mqttServer.data 0 h
    have hpos : PORT_POSITION S._mqttServer = ((n : Nat) : Int) := by
      unfold PORT_POSITION indexOf
      rw [hn]
      simp
    have hne : ¬ ((n : Nat) : Int) = -1 := by omega
    have hnat : (((n : Nat) : Int) + 1).toNat = n + 1 := by omega
    unfold mqttPort textAfterColon
    simp only [hpos, hne, if_false, hnat, hd]
  have dec : ∀ (host : String) (n : Nat), S._mqttServer = host ++ ":" ++ toString n →
      ':' ∉ host.data →
      (n ≤ 2147483647 → mqttPort E S = n % 65536)
      ∧ (2147483647 < n → mqttPort E S = 65535) := by
    intro host n hs hh
    have hmem : ':' ∈ S._mqttServer.data := by
      rw [hs]
      simp [String.data_append]
    have hval : mqttPort E S = (strtolClamp (n : Int) % (2 : Int) ^ 16).toNat := by
      rw [main hmem, hs, textAfterColon_append host (toString n) hh, atoi_repr_clamp]
    constructor
    · intro hle
      rw [hval, strtolClamp_of_le n hle]
      omega
    · intro hgt
      rw [hval, strtolClamp_of_gt n hgt]
      rfl
  refine ⟨main, ?_, ?_, ?_, dec, ?_, ?_, ?_, ?_, ?_⟩
  all_goals
    intro h
    rw [main (by rw [h]; decide), h]
    decide

theorem mqttPort_with_colon_witness :
    mqttPort Demo.env { Demo.custom with _mqttServer := "broker.local:70000" } = 4464
    ∧ mqttPort Demo.env { Demo.custom with _mqttServer := "broker.local:" } = 0
    ∧ mqttPort Demo.env { Demo.custom with _mqttServer := "broker.local:abc" } = 0
    ∧ mqttPort Demo.env Demo.custom
        = (atoi (textAfterColon Demo.custom._mqttServer) % (2 : Int) ^ 16).toNat
    ∧ mqttPort Demo.env { Demo.custom with _mqttServer := "h:20000000000000000000" } = 65535
    ∧ mqttPort Demo.env { Demo.custom with _mqttServer := "h" ++ ":" ++ toString 2147483648 }
        = 65535
    ∧ mqttPort Demo.env { Demo.custom with _mqttServer := "h" ++ ":" ++ toString 70000 }
        = 70000 % 65536 :=
  ⟨(mqttPort_with_colon Demo.env
      { Demo.custom with _mqttServer := "broker.local:70000" }).2.2.2.1 rfl,
   (mqttPort_with_colon Demo.env
      { Demo.custom with _mqttServer := "broker.local:" }).2.1 rfl,
   (mqttPort_with_colon Demo.env
      { Demo.custom with _mqttServer := "broker.local:abc" }).2.2.1 rfl,
   (mqttPort_with_colon Demo.env Demo.custom).1 (by decide),
   (mqttPort_with_colon Demo.env
      { Demo.custom with _mqttServer := "h:20000000000000000000" }).2.2.2.2.2.2.2.1 rfl,
   ((mqttPort_with_colon Demo.env
      { Demo.custom with _mqttServer := "h" ++ ":" ++ toString 2147483648 }).2.2.2.2.1
      "h" 2147483648 rfl (by decide)).2 (by decide),
   ((mqttPort_with_colon Demo.env
      { Demo.custom with _mqttServer := "h" ++ ":" ++ toString 70000 }).2.2.2.2.1
      "h" 70000 rfl (by decide)).1 (by decide)⟩

/-! ### Members, keys and documents -/

theorem Field.agree_refl (f : Field)
    (S : Settings RF24Channel RF24PowerLevel LEDMode GroupStateField) : f.agree S S := by
  cases f <;> rfl

theorem Settings.eq_of_agree
    (S T : Settings RF24Channel RF24PowerLevel LEDMode GroupStateField)
    (h : ∀ f : Field, f.agree S T) : S = T := by
  apply Settings.ext
  · exact h Field.adminUsername
  · exact h Field.adminPassword
  · exact h Field.cePin
  · exact h Field.csnPin
  · exact h Field.resetPin
  · exact h Field.ledPin
  · exact h Field.radioInterfaceType
  · exact h Field.packetRepeats
  · exact h Field.httpRepeatFactor
  · exact h Field._autoRestartPeriod
  · exact h Field._mqttServer
  · exact h Field.mqttUsername
  · exact h Field.mqttPassword
  · exact h Field.mqttTopicPattern
  · exact h Field.mqttUpdateTopicPattern
  · exact h Field.mqttStateTopicPattern
  · exact h Field.mqttClientStatusTopic
  · exact h Field.discoveryPort
  · exact h Field.listenRepeats
  · exact h Field.stateFlushInterval
  · exact h Field.mqttStateRateLimit
  · exact h Field.packetRepeatThrottleSensitivity
  · exact h Field.packetRepeatThrottleThreshold
  · exact h Field.packetRepeatMinimum
  · exact h Field.enableAutomaticModeSwitching
  · exact h Field.ledModeWifiConfig
  · exact h Field.ledModeWifiFailed
  · exact h Field.ledModeOperating
  · exact h Field.ledModePacket
  · exact h Field.ledModePacketCount
  · exact h Field.hostname
  · exact h Field.rf24PowerLevel
  · exact h Field.rf24ListenChannel
  · exact h Field.wifiStaticIP
  · exact h Field.wifiStaticIPGateway
  · exact h Field.wifiStaticIPNetmask
  · exact h Field.rf24Channels
  · exact h Field.deviceIds
  · exact h Field.gatewayConfigs
  · exact h Field.groupStateFields

theorem Field.key_mem_recognizedKeys (f : Field) : f.key ∈ recognizedKeys := by
  cases f <;> decide

theorem exists_field_of_mem_recognizedKeys (k : String) (h : k ∈ recognizedKeys) :
    ∃ f : Field, f.key = k := by
  simp only [recognizedKeys, List.mem_cons, List.mem_nil_iff, or_false] at h
  rcases h with rfl | rfl | rfl | rfl | rfl | rfl | rfl | rfl | rfl | rfl | rfl | rfl | rfl |
    rfl | rfl | rfl | rfl | rfl | rfl | rfl | rfl | rfl | rfl | rfl | rfl | rfl | rfl | rfl |
    rfl | rfl | rfl | rfl | rfl | rfl | rfl | rfl | rfl | rfl | rfl | rfl
  exacts [⟨Field.adminUsername, rfl⟩, ⟨Field.adminPassword, rfl⟩, ⟨Field.cePin, rfl⟩,
    ⟨Field.csnPin, rfl⟩, ⟨Field.resetPin, rfl⟩, ⟨Field.ledPin, rfl⟩, ⟨Field.radioInterfaceType,
    rfl⟩, ⟨Field.packetRepeats, rfl⟩, ⟨Field.httpRepeatFactor, rfl⟩, ⟨Field._autoRestartPeriod,
    rfl⟩, ⟨Field._mqttServer, rfl⟩, ⟨Field.mqttUsername, rfl⟩, ⟨Field.mqttPassword, rfl⟩,
    ⟨Field.mqttTopicPattern, rfl⟩, ⟨Field.mqttUpdateTopicPattern, rfl⟩,
    ⟨Field.mqttStateTopicPattern, rfl⟩, ⟨Field.mqttClientStatusTopic, rfl⟩, ⟨Field.discoveryPort,
    rfl⟩, ⟨Field.listenRepeats, rfl⟩, ⟨Field.stateFlushInterval, rfl⟩, ⟨Field.mqttStateRateLimit,
    rfl⟩, ⟨Field.packetRepeatThrottleSensitivity, rfl⟩, ⟨Field.packetRepeatThrottleThreshold,
    rfl⟩, ⟨Field.packetRepeatMinimum, rfl⟩, ⟨Field.enableAutomaticModeSwitching, rfl⟩,
    ⟨Field.ledModeWifiConfig, rfl⟩, ⟨Field.ledModeWifiFailed, rfl⟩, ⟨Field.ledModeOperating, rfl⟩,
    ⟨Field.ledModePacket, rfl⟩, ⟨Field.ledModePacketCount, rfl⟩, ⟨Field.hostname, rfl⟩,
    ⟨Field.rf24PowerLevel, rfl⟩, ⟨Field.rf24ListenChannel, rfl⟩, ⟨Field.wifiStaticIP, rfl⟩,
    ⟨Field.wifiStaticIPGateway, rfl⟩, ⟨Field.wifiStaticIPNetmask, rfl⟩, ⟨Field.rf24Channels, rfl⟩,
    ⟨Field.deviceIds, rfl⟩, ⟨Field.gatewayConfigs, rfl⟩, ⟨Field.groupStateFields, rfl⟩]

/-- Under valid documents, a member after `patch` is the same for two runs whose
documents hold the same thing at the member's key and whose settings agree in the
member. -/
theorem patch_agree_of_lookup (E : Env RF24Channel RF24PowerLevel LEDMode GroupStateField)
    (S T : Settings RF24Channel RF24PowerLevel LEDMode GroupStateField)
    (d e : JsonObject) (hd : d.success = true) (he : e.success = true) (f : Field)
    (h1 : d.members.lookup f.key = e.members.lookup f.key) (h2 : f.agree S T) :
    f.agree (patch E S d) (patch E T e) := by
  unfold patch
  simp only [hd, he, if_true]
  revert h1 h2
  cases f <;>
    simp only [Field.agree, Field.key, patchFields_adminUsername, patchFields_adminPassword,
      patchFields_cePin, patchFields_csnPin,
      patchFields_resetPin, patchFields_ledPin, patchFields_radioInterfaceType,
      patchFields_packetRepeats, patchFields_httpRepeatFactor, patchFields__autoRestartPeriod,
      patchFields__mqttServer, patchFields_mqttUsername, patchFields_mqttPassword,
      patchFields_mqttTopicPattern, patchFields_mqttUpdateTopicPattern,
      patchFields_mqttStateTopicPattern, patchFields_mqttClientStatusTopic,
      patchFields_discoveryPort, patchFields_listenRepeats, patchFields_stateFlushInterval,
      patchFields_mqttStateRateLimit, patchFields_packetRepeatThrottleSensitivity,
      patchFields_packetRepeatThrottleThreshold, patchFields_packetRepeatMinimum,
      patchFields_enableAutomaticModeSwitching, patchFields_ledModeWifiConfig,
      patchFields_ledModeWifiFailed, patchFields_ledModeOperating, patchFields_ledModePacket,
      patchFields_ledModePacketCount, patchFields_hostname, patchFields_rf24PowerLevel,
      patchFields_rf24ListenChannel, patchFields_wifiStaticIP, patchFields_wifiStaticIPGateway,
      patchFields_wifiStaticIPNetmask, patchFields_rf24Channels, patchFields_deviceIds,
      patchFields_gatewayConfigs, patchFields_groupStateFields,
      setIfPresent, JsonObject.containsKey, JsonObject.get] <;>
    intro h1 h2 <;>
    rw [h1, h2]

theorem patch_empty_document (E : Env RF24Channel RF24PowerLevel LEDMode GroupStateField)
    (S : Settings RF24Channel RF24PowerLevel LEDMode GroupStateField) :
    patch E S ⟨true, []⟩ = S := by
  unfold patch
  simp only [if_true]
  apply Settings.ext <;>
    simp only [patchFields_adminUsername, patchFields_adminPassword, patchFields_cePin,
      patchFields_csnPin,
      patchFields_resetPin, patchFields_ledPin, patchFields_radioInterfaceType,
      patchFields_packetRepeats, patchFields_httpRepeatFactor, patchFields__autoRestartPeriod,
      patchFields__mqttServer, patchFields_mqttUsername, patchFields_mqttPassword,
      patchFields_mqttTopicPattern, patchFields_mqttUpdateTopicPattern,
      patchFields_mqttStateTopicPattern, patchFields_mqttClientStatusTopic,
      patchFields_discoveryPort, patchFields_listenRepeats, patchFields_stateFlushInterval,
      patchFields_mqttStateRateLimit, patchFields_packetRepeatThrottleSensitivity,
      patchFields_packetRepeatThrottleThreshold, patchFields_packetRepeatMinimum,
      patchFields_enableAutomaticModeSwitching, patchFields_ledModeWifiConfig,
      patchFields_ledModeWifiFailed, patchFields_ledModeOperating, patchFields_ledModePacket,
      patchFields_ledModePacketCount, patchFields_hostname, patchFields_rf24PowerLevel,
      patchFields_rf24ListenChannel, patchFields_wifiStaticIP, patchFields_wifiStaticIPGateway,
      patchFields_wifiStaticIPNetmask, patchFields_rf24Channels, patchFields_deviceIds,
      patchFields_gatewayConfigs, patchFields_groupStateFields,
      setIfPresent, JsonObject.containsKey, JsonObject.get, List.lookup_nil,
      Option.isSome_none, Bool.false_eq_true, if_false]

theorem patch_set_of_not_recognized
    (E : Env RF24Channel RF24PowerLevel LEDMode GroupStateField)
    (S : Settings RF24Channel RF24PowerLevel LEDMode GroupStateField) (d : JsonObject)
    (hd : d.success = true) (k : String) (v : Json) (hk : k ∉ recognizedKeys) :
    patch E S (d.set k v) = patch E S d := by
  apply Settings.eq_of_agree
  intro f
  apply patch_agree_of_lookup E S S (d.set k v) d hd hd f _ (Field.agree_refl f S)
  rw [lookup_set]
  have hne : ¬ f.key = k := fun e => hk (e ▸ Field.key_mem_recognizedKeys f)
  rw [if_neg hne]

theorem containsKey_set (o : JsonObject) (key : String) (value : Json) (k : String) :
    (o.set key value).containsKey k = (decide (k = key) || o.containsKey k) := by
  unfold JsonObject.containsKey
  rw [lookup_set]
  by_cases h : k = key
  · simp [h]
  · simp [h]

theorem containsKey_empty (k : String) :
    (⟨true, []⟩ : JsonObject).containsKey k = false := rfl

theorem serializeWrites_eq (E : Env RF24Channel RF24PowerLevel LEDMode GroupStateField)
    (S : Settings RF24Channel RF24PowerLevel LEDMode GroupStateField) (k : String) :
    serializeWrites E S k = true ↔ k ∈ recognizedKeys.reverse := by
  unfold serializeWrites
  simp only [serializeRoot, containsKey_set, containsKey_empty]
  have hrev : recognizedKeys.reverse = 
      ["group_state_fields", "gateway_configs", "device_ids", "rf24_channels",
       "wifi_static_ip_netmask", "wifi_static_ip_gateway", "wifi_static_ip",
       "rf24_listen_channel", "rf24_power_level", "hostname", "led_mode_packet_count",
       "led_mode_packet", "led_mode_operating", "led_mode_wifi_failed", "led_mode_wifi_config",
       "enable_automatic_mode_switching", "packet_repeat_minimum",
       "packet_repeat_throttle_threshold", "packet_repeat_throttle_sensitivity",
       "mqtt_state_rate_limit", "state_flush_interval", "listen_repeats", "discovery_port",
       "mqtt_client_status_topic", "mqtt_state_topic_pattern", "mqtt_update_topic_pattern",
       "mqtt_topic_pattern", "mqtt_password", "mqtt_username", "mqtt_server",
       "auto_restart_period", "http_repeat_factor", "packet_repeats", "radio_interface_type",
       "led_pin", "reset_pin", "csn_pin", "ce_pin", "admin_password", "admin_username"] := by decide
  rw [hrev]
  simp only [List.mem_cons, List.mem_nil_iff, Bool.or_eq_true, decide_eq_true_eq,
    Bool.or_false, or_false]

theorem serializeWrites_iff (E : Env RF24Channel RF24PowerLevel LEDMode GroupStateField)
    (S : Settings RF24Channel RF24PowerLevel LEDMode GroupStateField) (k : String) :
    serializeWrites E S k = true ↔ k ∈ recognizedKeys := by
  rw [serializeWrites_eq, List.mem_reverse]


theorem set_success_true (k : String) (v : Json) :
    ((⟨true, []⟩ : JsonObject).set k v).success = true := rfl

theorem set_containsKey_self (o : JsonObject) (k : String) (v : Json) :
    (o.set k v).containsKey k = true := by
  unfold JsonObject.containsKey
  rw [lookup_set, if_pos rfl]
  rfl

theorem set_get_self (o : JsonObject) (k : String) (v : Json) : (o.set k v).get k = v := by
  unfold JsonObject.get
  rw [lookup_set, if_pos rfl]
  rfl

theorem asString_str (printTo : Json → String) (s : String) :
    asString printTo (Json.str s) = s := rfl

theorem asUInt_num_zero (w : Nat) : asUInt w (Json.num 0) = 0 := by
  show ((0 : Int) % (2 : Int) ^ w).toNat = 0
  simp

theorem exists_ne_of_two {α : Type} (h : ∃ a b : α, a ≠ b) (x : α) : ∃ y : α, y ≠ x := by
  obtain ⟨a, b, hab⟩ := h
  by_cases hx : a = x
  · exact ⟨b, fun e => hab (hx.trans e.symm)⟩
  · exact ⟨a, hx⟩

/-- Every member's key is read by `patch`, when each enumeration has two variants. -/
theorem patchReads_key (E : Env RF24Channel RF24PowerLevel LEDMode GroupStateField)
    (hCh : ∃ a b : RF24Channel, a ≠ b) (hPw : ∃ a b : RF24PowerLevel, a ≠ b)
    (hLed : ∃ a b : LEDMode, a ≠ b) (f : Field) : patchReads E f.key := by
  unfold patchReads
  cases f <;> simp only [Field.key]
  · refine ⟨{ E.defaults with adminUsername := "x" }, ⟨true, []⟩, Json.str "", rfl, fun h => ?_⟩
    have h2 := congrArg Settings.adminUsername h
    rw [patch_empty_document] at h2
    simp only [patch, set_success_true, if_true, patchFields_adminUsername, setIfPresent,
      set_containsKey_self, set_get_self, asString_str] at h2
    exact absurd h2 (by decide)
  · refine ⟨{ E.defaults with adminPassword := "x" }, ⟨true, []⟩, Json.str "", rfl, fun h => ?_⟩
    have h2 := congrArg Settings.adminPassword h
    rw [patch_empty_document] at h2
    simp only [patch, set_success_true, if_true, patchFields_adminPassword, setIfPresent,
      set_containsKey_self, set_get_self, asString_str] at h2
    exact absurd h2 (by decide)
  · refine ⟨{ E.defaults with cePin := 1 }, ⟨true, []⟩, Json.num 0, rfl, fun h => ?_⟩
    have h2 := congrArg Settings.cePin h
    rw [patch_empty_document] at h2
    simp only [patch, set_success_true, if_true, patchFields_cePin, setIfPresent,
      set_containsKey_self, set_get_self, asString_str] at h2
    rw [asUInt_num_zero] at h2
    exact absurd h2 (by decide)
  · refine ⟨{ E.defaults with csnPin := 1 }, ⟨true, []⟩, Json.num 0, rfl, fun h => ?_⟩
    have h2 := congrArg Settings.csnPin h
    rw [patch_empty_document] at h2
    simp only [patch, set_success_true, if_true, patchFields_csnPin, setIfPresent,
      set_containsKey_self, set_get_self, asString_str] at h2
    rw [asUInt_num_zero] at h2
    exact absurd h2 (by decide)
  · refine ⟨{ E.defaults with resetPin := 1 }, ⟨true, []⟩, Json.num 0, rfl, fun h => ?_⟩
    have h2 := congrArg Settings.resetPin h
    rw [patch_empty_document] at h2
    simp only [patch, set_success_true, if_true, patchFields_resetPin, setIfPresent,
      set_containsKey_self, set_get_self, asString_str] at h2
    rw [asUInt_num_zero] at h2
    exact absurd h2 (by decide)
  · refine ⟨{ E.defaults with ledPin := 1 }, ⟨true, []⟩, Json.num 0, rfl, fun h => ?_⟩
    have h2 := congrArg Settings.ledPin h
    rw [patch_empty_document] at h2
    simp only [patch, set_success_true, if_true, patchFields_ledPin, setIfPresent,
      set_containsKey_self, set_get_self, asString_str] at h2
    rw [asUInt_num_zero] at h2
    exact absurd h2 (by decide)
  · refine ⟨{ E.defaults with radioInterfaceType := RadioInterfaceType.LT8900 }, ⟨true, []⟩,
      Json.str "", rfl, fun h => ?_⟩
    have h2 := congrArg Settings.radioInterfaceType h
    rw [patch_empty_document] at h2
    simp only [patch, set_success_true, if_true, patchFields_radioInterfaceType, setIfPresent,
      set_containsKey_self, set_get_self, asString_str] at h2
    exact absurd h2 (by decide)
  · refine ⟨{ E.defaults with packetRepeats := 1 }, ⟨true, []⟩, Json.num 0, rfl, fun h => ?_⟩
    have h2 := congrArg Settings.packetRepeats h
    rw [patch_empty_document] at h2
    simp only [patch, set_success_true, if_true, patchFields_packetRepeats, setIfPresent,
      set_containsKey_self, set_get_self, asString_str] at h2
    rw [asUInt_num_zero] at h2
    exact absurd h2 (by decide)
  · refine ⟨{ E.defaults with httpRepeatFactor := 1 }, ⟨true, []⟩, Json.num 0, rfl, fun h => ?_⟩
    have h2 := congrArg Settings.httpRepeatFactor h
    rw [patch_empty_document] at h2
    simp only [patch, set_success_true, if_true, patchFields_httpRepeatFactor, setIfPresent,
      set_containsKey_self, set_get_self, asString_str] at h2
    rw [asUInt_num_zero] at h2
    exact absurd h2 (by decide)
  · refine ⟨{ E.defaults with _autoRestartPeriod := 1 }, ⟨true, []⟩, Json.num 0, rfl, fun h => ?_⟩
    have h2 := congrArg Settings._autoRestartPeriod h
    rw [patch_empty_document] at h2
    simp only [patch, set_success_true, if_true, patchFields__autoRestartPeriod, setIfPresent,
      set_containsKey_self, set_get_self, asString_str] at h2
    rw [asUInt_num_zero] at h2
    exact absurd h2 (by decide)
  · refine ⟨{ E.defaults with _mqttServer := "x" }, ⟨true, []⟩, Json.str "", rfl, fun h => ?_⟩
    have h2 := congrArg Settings._mqttServer h
    rw [patch_empty_document] at h2
    simp only [patch, set_success_true, if_true, patchFields__mqttServer, setIfPresent,
      set_containsKey_self, set_get_self, asString_str] at h2
    exact absurd h2 (by decide)
  · refine ⟨{ E.defaults with mqttUsername := "x" }, ⟨true, []⟩, Json.str "", rfl, fun h => ?_⟩
    have h2 := congrArg Settings.mqttUsername h
    rw [patch_empty_document] at h2
    simp only [patch, set_success_true, if_true, patchFields_mqttUsername, setIfPresent,
      set_containsKey_self, set_get_self, asString_str] at h2
    exact absurd h2 (by decide)
  · refine ⟨{ E.defaults with mqttPassword := "x" }, ⟨true, []⟩, Json.str "", rfl, fun h => ?_⟩
    have h2 := congrArg Settings.mqttPassword h
    rw [patch_empty_document] at h2
    simp only [patch, set_success_true, if_true, patchFields_mqttPassword, setIfPresent,
      set_containsKey_self, set_get_self, asString_str] at h2
    exact absurd h2 (by decide)
  · refine ⟨{ E.defaults with mqttTopicPattern := "x" }, ⟨true, []⟩, Json.str "", rfl, fun h => ?_⟩
    have h2 := congrArg Settings.mqttTopicPattern h
    rw [patch_empty_document] at h2
    simp only [patch, set_success_true, if_true, patchFields_mqttTopicPattern, setIfPresent,
      set_containsKey_self, set_get_self, asString_str] at h2
    exact absurd h2 (by decide)
  · refine ⟨{ E.defaults with mqttUpdateTopicPattern := "x" },
      ⟨true, []⟩, Json.str "", rfl, fun h => ?_⟩
    have h2 := congrArg Settings.mqttUpdateTopicPattern h
    rw [patch_empty_document] at h2
    simp only [patch, set_success_true, if_true, patchFields_mqttUpdateTopicPattern, setIfPresent,
      set_containsKey_self, set_get_self, asString_str] at h2
    exact absurd h2 (by decide)
  · refine ⟨{ E.defaults with mqttStateTopicPattern := "x" },
      ⟨true, []⟩, Json.str "", rfl, fun h => ?_⟩
    have h2 := congrArg Settings.mqttStateTopicPattern h
    rw [patch_empty_document] at h2
    simp only [patch, set_success_true, if_true, patchFields_mqttStateTopicPattern, setIfPresent,
      set_containsKey_self, set_get_self, asString_str] at h2
    exact absurd h2 (by decide)
  · refine ⟨{ E.defaults with mqttClientStatusTopic := "x" },
      ⟨true, []⟩, Json.str "", rfl, fun h => ?_⟩
    have h2 := congrArg Settings.mqttClientStatusTopic h
    rw [patch_empty_document] at h2
    simp only [patch, set_success_true, if_true, patchFields_mqttClientStatusTopic, setIfPresent,
      set_containsKey_self, set_get_self, asString_str] at h2
    exact absurd h2 (by decide)
  · refine ⟨{ E.defaults with discoveryPort := 1 }, ⟨true, []⟩, Json.num 0, rfl, fun h => ?_⟩
    have h2 := congrArg Settings.discoveryPort h
    rw [patch_empty_document] at h2
    simp only [patch, set_success_true, if_true, patchFields_discoveryPort, setIfPresent,
      set_containsKey_self, set_get_self, asString_str] at h2
    rw [asUInt_num_zero] at h2
    exact absurd h2 (by decide)
  · refine ⟨{ E.defaults with listenRepeats := 1 }, ⟨true, []⟩, Json.num 0, rfl, fun h => ?_⟩
    have h2 := congrArg Settings.listenRepeats h
    rw [patch_empty_document] at h2
    simp only [patch, set_success_true, if_true, patchFields_listenRepeats, setIfPresent,
      set_containsKey_self, set_get_self, asString_str] at h2
    rw [asUInt_num_zero] at h2
    exact absurd h2 (by decide)
  · refine ⟨{ E.defaults with stateFlushInterval := 1 }, ⟨true, []⟩, Json.num 0, rfl, fun h => ?_⟩
    have h2 := congrArg Settings.stateFlushInterval h
    rw [patch_empty_document] at h2
    simp only [patch, set_success_true, if_true, patchFields_stateFlushInterval, setIfPresent,
      set_containsKey_self, set_get_self, asString_str] at h2
    rw [asUInt_num_zero] at h2
    exact absurd h2 (by decide)
  · refine ⟨{ E.defaults with mqttStateRateLimit := 1 }, ⟨true, []⟩, Json.num 0, rfl, fun h => ?_⟩
    have h2 := congrArg Settings.mqttStateRateLimit h
    rw [patch_empty_document] at h2
    simp only [patch, set_success_true, if_true, patchFields_mqttStateRateLimit, setIfPresent,
      set_containsKey_self, set_get_self, asString_str] at h2
    rw [asUInt_num_zero] at h2
    exact absurd h2 (by decide)
  · refine ⟨{ E.defaults with packetRepeatThrottleSensitivity := 1 },
      ⟨true, []⟩, Json.num 0, rfl, fun h => ?_⟩
    have h2 := congrArg Settings.packetRepeatThrottleSensitivity h
    rw [patch_empty_document] at h2
    simp only [patch, set_success_true, if_true, patchFields_packetRepeatThrottleSensitivity,
      setIfPresent,
      set_containsKey_self, set_get_self, asString_str] at h2
    rw [asUInt_num_zero] at h2
    exact absurd h2 (by decide)
  · refine ⟨{ E.defaults with packetRepeatThrottleThreshold := 1 },
      ⟨true, []⟩, Json.num 0, rfl, fun h => ?_⟩
    have h2 := congrArg Settings.packetRepeatThrottleThreshold h
    rw [patch_empty_document] at h2
    simp only [patch, set_success_true, if_true, patchFields_packetRepeatThrottleThreshold,
      setIfPresent,
      set_containsKey_self, set_get_self, asString_str] at h2
    rw [asUInt_num_zero] at h2
    exact absurd h2 (by decide)
  · refine ⟨{ E.defaults with packetRepeatMinimum := 1 }, ⟨true, []⟩, Json.num 0, rfl, fun h => ?_⟩
    have h2 := congrArg Settings.packetRepeatMinimum h
    rw [patch_empty_document] at h2
    simp only [patch, set_success_true, if_true, patchFields_packetRepeatMinimum, setIfPresent,
      set_containsKey_self, set_get_self, asString_str] at h2
    rw [asUInt_num_zero] at h2
    exact absurd h2 (by decide)
  · refine ⟨{ E.defaults with enableAutomaticModeSwitching := true },
      ⟨true, []⟩, Json.bool false, rfl,
      fun h => ?_⟩
    have h2 := congrArg Settings.enableAutomaticModeSwitching h
    rw [patch_empty_document] at h2
    simp only [patch, set_success_true, if_true, patchFields_enableAutomaticModeSwitching,
      setIfPresent,
      set_containsKey_self, set_get_self, asString_str] at h2
    exact absurd h2 (by decide)
  · obtain ⟨y, hy⟩ := exists_ne_of_two hLed (E.stringToLEDMode (asString E.printTo (Json.str "")))
    refine ⟨{ E.defaults with ledModeWifiConfig := y }, ⟨true, []⟩, Json.str "", rfl, fun h => ?_⟩
    have h2 := congrArg Settings.ledModeWifiConfig h
    rw [patch_empty_document] at h2
    simp only [patch, set_success_true, if_true, patchFields_ledModeWifiConfig, setIfPresent,
      set_containsKey_self, set_get_self, asString_str] at h2
    exact hy h2.symm
  · obtain ⟨y, hy⟩ := exists_ne_of_two hLed (E.stringToLEDMode (asString E.printTo (Json.str "")))
    refine ⟨{ E.defaults with ledModeWifiFailed := y }, ⟨true, []⟩, Json.str "", rfl, fun h => ?_⟩
    have h2 := congrArg Settings.ledModeWifiFailed h
    rw [patch_empty_document] at h2
    simp only [patch, set_success_true, if_true, patchFields_ledModeWifiFailed, setIfPresent,
      set_containsKey_self, set_get_self, asString_str] at h2
    exact hy h2.symm
  · obtain ⟨y, hy⟩ := exists_ne_of_two hLed (E.stringToLEDMode (asString E.printTo (Json.str "")))
    refine ⟨{ E.defaults with ledModeOperating := y }, ⟨true, []⟩, Json.str "", rfl, fun h => ?_⟩
    have h2 := congrArg Settings.ledModeOperating h
    rw [patch_empty_document] at h2
    simp only [patch, set_success_true, if_true, patchFields_ledModeOperating, setIfPresent,
      set_containsKey_self, set_get_self, asString_str] at h2
    exact hy h2.symm
  · obtain ⟨y, hy⟩ := exists_ne_of_two hLed (E.stringToLEDMode (asString E.printTo (Json.str "")))
    refine ⟨{ E.defaults with ledModePacket := y }, ⟨true, []⟩, Json.str "", rfl, fun h => ?_⟩
    have h2 := congrArg Settings.ledModePacket h
    rw [patch_empty_document] at h2
    simp only [patch, set_success_true, if_true, patchFields_ledModePacket, setIfPresent,
      set_containsKey_self, set_get_self, asString_str] at h2
    exact hy h2.symm
  · refine ⟨{ E.defaults with ledModePacketCount := 1 }, ⟨true, []⟩, Json.num 0, rfl, fun h => ?_⟩
    have h2 := congrArg Settings.ledModePacketCount h
    rw [patch_empty_document] at h2
    simp only [patch, set_success_true, if_true, patchFields_ledModePacketCount, setIfPresent,
      set_containsKey_self, set_get_self, asString_str] at h2
    rw [asUInt_num_zero] at h2
    exact absurd h2 (by decide)
  · refine ⟨{ E.defaults with hostname := "x" }, ⟨true, []⟩, Json.str "", rfl, fun h => ?_⟩
    have h2 := congrArg Settings.hostname h
    rw [patch_empty_document] at h2
    simp only [patch, set_success_true, if_true, patchFields_hostname, setIfPresent,
      set_containsKey_self, set_get_self, asString_str] at h2
    exact absurd h2 (by decide)
  · obtain ⟨y, hy⟩ := exists_ne_of_two hPw
      (E.powerLevelValueFromName (asString E.printTo (Json.str "")))
    refine ⟨{ E.defaults with rf24PowerLevel := y }, ⟨true, []⟩, Json.str "", rfl, fun h => ?_⟩
    have h2 := congrArg Settings.rf24PowerLevel h
    rw [patch_empty_document] at h2
    simp only [patch, set_success_true, if_true, patchFields_rf24PowerLevel, setIfPresent,
      set_containsKey_self, set_get_self, asString_str] at h2
    exact hy h2.symm
  · obtain ⟨y, hy⟩ := exists_ne_of_two hCh
      (E.channelValueFromName (asString E.printTo (Json.str "")))
    refine ⟨{ E.defaults with rf24ListenChannel := y }, ⟨true, []⟩, Json.str "", rfl, fun h => ?_⟩
    have h2 := congrArg Settings.rf24ListenChannel h
    rw [patch_empty_document] at h2
    simp only [patch, set_success_true, if_true, patchFields_rf24ListenChannel, setIfPresent,
      set_containsKey_self, set_get_self, asString_str] at h2
    exact hy h2.symm
  · refine ⟨{ E.defaults with wifiStaticIP := "x" }, ⟨true, []⟩, Json.str "", rfl, fun h => ?_⟩
    have h2 := congrArg Settings.wifiStaticIP h
    rw [patch_empty_document] at h2
    simp only [patch, set_success_true, if_true, patchFields_wifiStaticIP, setIfPresent,
      set_containsKey_self, set_get_self, asString_str] at h2
    exact absurd h2 (by decide)
  · refine ⟨{ E.defaults with wifiStaticIPGateway := "x" },
      ⟨true, []⟩, Json.str "", rfl, fun h => ?_⟩
    have h2 := congrArg Settings.wifiStaticIPGateway h
    rw [patch_empty_document] at h2
    simp only [patch, set_success_true, if_true, patchFields_wifiStaticIPGateway, setIfPresent,
      set_containsKey_self, set_get_self, asString_str] at h2
    exact absurd h2 (by decide)
  · refine ⟨{ E.defaults with wifiStaticIPNetmask := "x" },
      ⟨true, []⟩, Json.str "", rfl, fun h => ?_⟩
    have h2 := congrArg Settings.wifiStaticIPNetmask h
    rw [patch_empty_document] at h2
    simp only [patch, set_success_true, if_true, patchFields_wifiStaticIPNetmask, setIfPresent,
      set_containsKey_self, set_get_self, asString_str] at h2
    exact absurd h2 (by decide)
  · refine ⟨{ E.defaults with rf24Channels := [E.defaults.rf24ListenChannel] }, ⟨true, []⟩,
      Json.arr [], rfl, fun h => ?_⟩
    have h2 := congrArg Settings.rf24Channels h
    rw [patch_empty_document] at h2
    simp only [patch, set_success_true, if_true, patchFields_rf24Channels, setIfPresent,
      set_containsKey_self, set_get_self, asString_str] at h2
    exact absurd h2 (by simp [jsonArrToVector, asArray])
  · refine ⟨{ E.defaults with deviceIds := [0] }, ⟨true, []⟩, Json.arr [], rfl, fun h => ?_⟩
    have h2 := congrArg Settings.deviceIds h
    rw [patch_empty_document] at h2
    simp only [patch, set_success_true, if_true, patchFields_deviceIds, setIfPresent,
      set_containsKey_self, set_get_self, asString_str] at h2
    exact absurd h2 (by simp [asArray])
  · refine ⟨{ E.defaults with gatewayConfigs := [⟨0, 0, 0⟩] }, ⟨true, []⟩, Json.arr [], rfl,
      fun h => ?_⟩
    have h2 := congrArg Settings.gatewayConfigs h
    rw [patch_empty_document] at h2
    simp only [patch, set_success_true, if_true, patchFields_gatewayConfigs, setIfPresent,
      set_containsKey_self, set_get_self, asString_str] at h2
    exact absurd h2 (by simp [asArray])
  · refine ⟨{ E.defaults with groupStateFields := [E.getFieldByName ""] }, ⟨true, []⟩,
      Json.arr [], rfl, fun h => ?_⟩
    have h2 := congrArg Settings.groupStateFields h
    rw [patch_empty_document] at h2
    simp only [patch, set_success_true, if_true, patchFields_groupStateFields, setIfPresent,
      set_containsKey_self, set_get_self, asString_str] at h2
    exact absurd h2 (by simp [jsonArrToVector, asArray])

/-- C16. Unrecognized keys are ignored: under a valid object document, assigning any
value at a key outside the recognized key set leaves the result of `patch` the same. -/
theorem patch_ignores_unrecognized_key
    (E : Env RF24Channel RF24PowerLevel LEDMode GroupStateField)
    (S : Settings RF24Channel RF24PowerLevel LEDMode GroupStateField) (d : JsonObject)
    (k : String) (v : Json) (hd : d.success = true) (hk : k ∉ recognizedKeys) :
    patch E S (d.set k v) = patch E S d :=
  patch_set_of_not_recognized E S d hd k v hk

theorem patch_ignores_unrecognized_key_witness :
    patch Demo.env Demo.custom
        ((⟨true, [("ce_pin", Json.num 7)]⟩ : JsonObject).set "firmware" (Json.str "x"))
      = patch Demo.env Demo.custom ⟨true, [("ce_pin", Json.num 7)]⟩ :=
  patch_ignores_unrecognized_key Demo.env Demo.custom ⟨true, [("ce_pin", Json.num 7)]⟩
    "firmware" (Json.str "x") rfl (by decide)

/-- C13. The device id and gateway lists are replaced wholesale: under a valid document
whose `device_ids` (respectively `gateway_configs`) value is an array, the patched list is
a function of that array alone, in document order, the same whatever the settings held
before; it is no longer than the array, and an empty array empties it. -/
theorem patch_replaces_sequences (E : Env RF24Channel RF24PowerLevel LEDMode GroupStateField)
    (S T : Settings RF24Channel RF24PowerLevel LEDMode GroupStateField) (d : JsonObject)
    (hd : d.success = true) (elems : List Json) :
    (d.members.lookup "device_ids" = some (Json.arr elems) →
      (patch E S d).deviceIds = elems.map (asUInt 16)
      ∧ (patch E S d).deviceIds = (patch E T d).deviceIds
      ∧ (patch E S d).deviceIds.length ≤ elems.length
      ∧ (elems = [] → (patch E S d).deviceIds = []))
    ∧ (d.members.lookup "gateway_configs" = some (Json.arr elems) →
      (patch E S d).gatewayConfigs = elems.filterMap (decodeGatewayConfig E)
      ∧ (patch E S d).gatewayConfigs = (patch E T d).gatewayConfigs
      ∧ (patch E S d).gatewayConfigs.length ≤ elems.length
      ∧ (elems = [] → (patch E S d).gatewayConfigs = [])) := by
  have hdev : ∀ U : Settings RF24Channel RF24PowerLevel LEDMode GroupStateField,
      d.members.lookup "device_ids" = some (Json.arr elems) →
      (patch E U d).deviceIds = elems.map (asUInt 16) := by
    intro U h
    unfold patch
    simp only [hd, if_true, patchFields_deviceIds, JsonObject.containsKey, JsonObject.get,
      h, Option.isSome_some, Option.getD_some, asArray]
  have hgw : ∀ U : Settings RF24Channel RF24PowerLevel LEDMode GroupStateField,
      d.members.lookup "gateway_configs" = some (Json.arr elems) →
      (patch E U d).gatewayConfigs = elems.filterMap (decodeGatewayConfig E) := by
    intro U h
    unfold patch
    simp only [hd, if_true, patchFields_gatewayConfigs, JsonObject.containsKey,
      JsonObject.get, h, Option.isSome_some, Option.getD_some, asArray]
  constructor
  · intro h
    refine ⟨hdev S h, by rw [hdev S h, hdev T h], ?_, ?_⟩
    · rw [hdev S h, List.length_map]
    · intro he
      rw [hdev S h, he]
      rfl
  · intro h
    refine ⟨hgw S h, by rw [hgw S h, hgw T h], ?_, ?_⟩
    · rw [hgw S h]
      exact List.length_filterMap_le _ _
    · intro he
      rw [hgw S h, he]
      rfl

theorem patch_replaces_sequences_witness :
    (patch Demo.env Demo.custom
        ⟨true, [("device_ids", Json.arr [Json.num 7, Json.num 8, Json.num 9])]⟩).deviceIds
      = [7, 8, 9]
    ∧ (patch Demo.env Demo.custom ⟨true, [("device_ids", Json.arr [])]⟩).deviceIds = []
    ∧ (patch Demo.env Demo.custom ⟨true, [("gateway_configs", Json.arr [])]⟩).gatewayConfigs
      = [] :=
  ⟨(patch_replaces_sequences Demo.env Demo.custom Demo.defaults
      ⟨true, [("device_ids", Json.arr [Json.num 7, Json.num 8, Json.num 9])]⟩ rfl
      [Json.num 7, Json.num 8, Json.num 9]).1 rfl |>.1,
   ((patch_replaces_sequences Demo.env Demo.custom Demo.defaults
      ⟨true, [("device_ids", Json.arr [])]⟩ rfl []).1 rfl).2.2.2 rfl,
   ((patch_replaces_sequences Demo.env Demo.custom Demo.defaults
      ⟨true, [("gateway_configs", Json.arr [])]⟩ rfl []).2 rfl).2.2.2 rfl⟩

/-- C15. Serializer and patch agree on the key set: a key is written by `serialize`
exactly when it is read by `patch`, and both sets are the 40 distinct keys of the
canonical schema, from `admin_username` to `group_state_fields`.  That `patch` reads a
key of an enumerated member needs the enumeration to have two variants. -/
theorem serialize_patch_same_keys
    (E : Env RF24Channel RF24PowerLevel LEDMode GroupStateField)
    (S : Settings RF24Channel RF24PowerLevel LEDMode GroupStateField)
    (hCh : ∃ a b : RF24Channel, a ≠ b) (hPw : ∃ a b : RF24PowerLevel, a ≠ b)
    (hLed : ∃ a b : LEDMode, a ≠ b) :
    (∀ k : String, serializeWrites E S k = true ↔ patchReads E k)
    ∧ (∀ k : String, serializeWrites E S k = true ↔ k ∈ recognizedKeys)
    ∧ (∀ k : String, patchReads E k ↔ k ∈ recognizedKeys)
    ∧ recognizedKeys.length = 40
    ∧ recognizedKeys.Nodup
    ∧ recognizedKeys.head? = some "admin_username"
    ∧ recognizedKeys.getLast? = some "group_state_fields" := by
  have hreads : ∀ k : String, patchReads E k ↔ k ∈ recognizedKeys := by
    intro k
    constructor
    · intro h
      obtain ⟨U, d, v, hd, hne⟩ := h
      by_contra hk
      exact hne (patch_set_of_not_recognized E U d hd k v hk)
    · intro h
      obtain ⟨f, hf⟩ := exists_field_of_mem_recognizedKeys k h
      rw [← hf]
      exact patchReads_key E hCh hPw hLed f
  refine ⟨fun k => ?_, fun k => serializeWrites_iff E S k, hreads, by decide, by decide,
    by decide, by decide⟩
  rw [serializeWrites_iff, hreads]

theorem serialize_patch_same_keys_witness :
    (serializeWrites Demo.env Demo.custom "hostname" = true ↔ patchReads Demo.env "hostname")
    ∧ (patchReads Demo.env "hostname" ↔ "hostname" ∈ recognizedKeys)
    ∧ ¬ patchReads Demo.env "firmware" :=
  ⟨(serialize_patch_same_keys Demo.env Demo.custom
      ⟨Demo.Channel.LOW, Demo.Channel.MID, by decide⟩
      ⟨Demo.PowerLevel.MIN, Demo.PowerLevel.MAX, by decide⟩
      ⟨Demo.Mode.Off, Demo.Mode.On, by decide⟩).1 "hostname",
   (serialize_patch_same_keys Demo.env Demo.custom
      ⟨Demo.Channel.LOW, Demo.Channel.MID, by decide⟩
      ⟨Demo.PowerLevel.MIN, Demo.PowerLevel.MAX, by decide⟩
      ⟨Demo.Mode.Off, Demo.Mode.On, by decide⟩).2.2.1 "hostname",
   fun h => absurd ((serialize_patch_same_keys Demo.env Demo.custom
      ⟨Demo.Channel.LOW, Demo.Channel.MID, by decide⟩
      ⟨Demo.PowerLevel.MIN, Demo.PowerLevel.MAX, by decide⟩
      ⟨Demo.Mode.Off, Demo.Mode.On, by decide⟩).2.2.1 "firmware" |>.mp h) (by decide)⟩

/-! ### Values of the wrong shape -/

/-- Under a valid document whose value at a sequence key is not an array, the device id
and gateway lists are kept, and the channel and state field lists are replaced by what
`jsonArrToVector` makes of the invalid array. -/
theorem patch_nonarray_sequence (E : Env RF24Channel RF24PowerLevel LEDMode GroupStateField)
    (S : Settings RF24Channel RF24PowerLevel LEDMode GroupStateField) (d : JsonObject)
    (hd : d.success = true) (v : Json) (hv : (asArray v).success = false) :
    (d.members.lookup "device_ids" = some v → (patch E S d).deviceIds = S.deviceIds)
    ∧ (d.members.lookup "gateway_configs" = some v →
        (patch E S d).gatewayConfigs = S.gatewayConfigs)
    ∧ (d.members.lookup "rf24_channels" = some v →
        (patch E S d).rf24Channels
          = jsonArrToVector E.printTo JsonArray.invalid E.channelValueFromName)
    ∧ (d.members.lookup "group_state_fields" = some v →
        (patch E S d).groupStateFields
          = jsonArrToVector E.printTo JsonArray.invalid E.getFieldByName) := by
  have hinv : asArray v = JsonArray.invalid := by
    cases v <;> first | rfl | exact absurd hv (by simp [asArray])
  unfold patch
  simp only [hd, if_true]
  refine ⟨fun h => ?_, fun h => ?_, fun h => ?_, fun h => ?_⟩
  · simp only [patchFields_deviceIds, JsonObject.containsKey, JsonObject.get, h,
      Option.isSome_some, Option.getD_some, hv, if_true, Bool.false_eq_true, if_false]
  · simp only [patchFields_gatewayConfigs, JsonObject.containsKey, JsonObject.get, h,
      Option.isSome_some, Option.getD_some, hv, if_true, Bool.false_eq_true, if_false]
  · simp only [patchFields_rf24Channels, JsonObject.containsKey, JsonObject.get, h,
      Option.isSome_some, Option.getD_some, hinv, if_true]
  · simp only [patchFields_groupStateFields, JsonObject.containsKey, JsonObject.get, h,
      Option.isSome_some, Option.getD_some, hinv, if_true]

/-- C11 (the code at the failing input). A string under `rf24_channels` empties the
channel list `[MID, HIGH]` of the sample settings, and a number under
`group_state_fields` empties their state field list, while a string under `device_ids`
or `gateway_configs` leaves those lists as they were. -/
theorem patch_nonarray_sequence_at_sample :
    Demo.custom.rf24Channels = [Demo.Channel.MID, Demo.Channel.HIGH]
    ∧ (patch Demo.env Demo.custom ⟨true, [("rf24_channels", Json.str "LOW")]⟩).rf24Channels
      = []
    ∧ Demo.custom.groupStateFields = [Demo.StateField.LEVEL, Demo.StateField.UNKNOWN]
    ∧ (patch Demo.env Demo.custom
        ⟨true, [("group_state_fields", Json.num 5)]⟩).groupStateFields = []
    ∧ (patch Demo.env Demo.custom ⟨true, [("device_ids", Json.str "1")]⟩).deviceIds
      = Demo.custom.deviceIds
    ∧ (patch Demo.env Demo.custom
        ⟨true, [("gateway_configs", Json.str "1")]⟩).gatewayConfigs
      = Demo.custom.gatewayConfigs :=
  ⟨rfl,
   (patch_nonarray_sequence Demo.env Demo.custom ⟨true, [("rf24_channels", Json.str "LOW")]⟩
      rfl (Json.str "LOW") rfl).2.2.1 rfl,
   rfl,
   (patch_nonarray_sequence Demo.env Demo.custom ⟨true, [("group_state_fields", Json.num 5)]⟩
      rfl (Json.num 5) rfl).2.2.2 rfl,
   (patch_nonarray_sequence Demo.env Demo.custom ⟨true, [("device_ids", Json.str "1")]⟩
      rfl (Json.str "1") rfl).1 rfl,
   (patch_nonarray_sequence Demo.env Demo.custom ⟨true, [("gateway_configs", Json.str "1")]⟩
      rfl (Json.str "1") rfl).2.1 rfl⟩

theorem typeFromString_of_head (s : String) (c : Char) (cs : List Char)
    (hs : s.data = c :: cs) (hc : tolower c.toNat ≠ 108) :
    typeFromString s = RadioInterfaceType.nRF24 := by
  have he : equalsIgnoreCase s "lt8900" = false := by
    unfold equalsIgnoreCase
    rw [hs]
    by_cases hl : ((c :: cs).length != "lt8900".data.length) = true
    · rw [if_pos hl]
    · rw [if_neg hl]
      have h0 : ¬ (((c :: cs).length == 0) = true) := by simp
      rw [if_neg h0]
      have hb : (tolower c.toNat != tolower 'l'.toNat) = true := by
        have e : tolower 'l'.toNat = 108 := by decide
        rw [e]
        exact bne_iff_ne.mpr hc
      show equalsIgnoreCaseLoop (c :: cs) ('l' :: "t8900".data) = false
      simp only [equalsIgnoreCaseLoop, hb, if_true]
  unfold typeFromString
  rw [he]
  rfl

theorem typeFromString_toString_int (n : Int) :
    typeFromString (toString n) = RadioInterfaceType.nRF24 := by
  cases n with
  | ofNat m =>
    obtain ⟨c, cs, e, hc⟩ := headDigit_toDigitsCore (m + 1) m [] (Or.inl (Nat.succ_pos m))
    have hs : (toString (Int.ofNat m)).data = c :: cs := e
    have hr : 48 ≤ c.toNat ∧ c.toNat ≤ 57 := by simpa [isdigit] using hc
    apply typeFromString_of_head _ c cs hs
    unfold tolower
    split <;> omega
  | negSucc m =>
    have hs : (toString (Int.negSucc m)).data = '-' :: (toString (Nat.succ m)).data := by
      show ("-" ++ toString (Nat.succ m)).data = _
      rw [String.data_append]
      rfl
    exact typeFromString_of_head _ '-' _ hs (by decide)

/-- C12 (as stated, refuted). A number under `radio_interface_type` turns the sample
settings' `LT8900` into `nRF24`, and the string `abc` under `ce_pin` turns their pin 4
into 0: the prior values are not kept. -/
theorem patch_wrong_type_overwrites_sample :
    Demo.custom.radioInterfaceType = RadioInterfaceType.LT8900
    ∧ (patch Demo.env Demo.custom
        ⟨true, [("radio_interface_type", Json.num 5)]⟩).radioInterfaceType
      = RadioInterfaceType.nRF24
    ∧ Demo.custom.cePin = 4
    ∧ (patch Demo.env Demo.custom ⟨true, [("ce_pin", Json.str "abc")]⟩).cePin = 0
    ∧ ¬ ((patch Demo.env Demo.custom
          ⟨true, [("radio_interface_type", Json.num 5)]⟩).radioInterfaceType
        = Demo.custom.radioInterfaceType)
    ∧ ¬ ((patch Demo.env Demo.custom ⟨true, [("ce_pin", Json.str "abc")]⟩).cePin
        = Demo.custom.cePin) := by
  decide

/-- C12 (amended). A scalar or enumerated key that is present is always applied: under
a valid document the patched member is the conversion of the document value and does not
depend on the member's prior value.  A number under `radio_interface_type` gives the
fallback `nRF24`; a string under `ce_pin` gives the integer the library parses from it,
which is 0 for `abc`. -/
theorem patch_present_scalar_overwrites
    (E : Env RF24Channel RF24PowerLevel LEDMode GroupStateField)
    (S T : Settings RF24Channel RF24PowerLevel LEDMode GroupStateField) (d : JsonObject)
    (hd : d.success = true) :
    (∀ f : Field, f.isSequence = false → d.containsKey f.key = true →
      f.agree (patch E S d) (patch E T d))
    ∧ (∀ n : Int, d.members.lookup "radio_interface_type" = some (Json.num n) →
      (patch E S d).radioInterfaceType = RadioInterfaceType.nRF24)
    ∧ (∀ s : String, d.members.lookup "ce_pin" = some (Json.str s) →
      (patch E S d).cePin = parseInteger E.widths.cePin s.data)
    ∧ (d.members.lookup "ce_pin" = some (Json.str "abc") → (patch E S d).cePin = 0) := by
  have hpin : ∀ s : String, d.members.lookup "ce_pin" = some (Json.str s) →
      (patch E S d).cePin = parseInteger E.widths.cePin s.data := by
    intro s h
    unfold patch
    simp only [hd, if_true, patchFields_cePin, setIfPresent, JsonObject.containsKey,
      JsonObject.get, h, Option.isSome_some, Option.getD_some, asUInt]
  refine ⟨?_, ?_, hpin, ?_⟩
  · intro f hseq hc
    unfold patch
    simp only [hd, if_true]
    revert hseq hc
    cases f <;>
      simp only [Field.isSequence, Field.agree, Field.key, patchFields_adminUsername,
        patchFields_adminPassword, patchFields_cePin, patchFields_csnPin,
      patchFields_resetPin, patchFields_ledPin, patchFields_radioInterfaceType,
      patchFields_packetRepeats, patchFields_httpRepeatFactor, patchFields__autoRestartPeriod,
      patchFields__mqttServer, patchFields_mqttUsername, patchFields_mqttPassword,
      patchFields_mqttTopicPattern, patchFields_mqttUpdateTopicPattern,
      patchFields_mqttStateTopicPattern, patchFields_mqttClientStatusTopic,
      patchFields_discoveryPort, patchFields_listenRepeats, patchFields_stateFlushInterval,
      patchFields_mqttStateRateLimit, patchFields_packetRepeatThrottleSensitivity,
      patchFields_packetRepeatThrottleThreshold, patchFields_packetRepeatMinimum,
      patchFields_enableAutomaticModeSwitching, patchFields_ledModeWifiConfig,
      patchFields_ledModeWifiFailed, patchFields_ledModeOperating, patchFields_ledModePacket,
      patchFields_ledModePacketCount, patchFields_hostname, patchFields_rf24PowerLevel,
      patchFields_rf24ListenChannel, patchFields_wifiStaticIP, patchFields_wifiStaticIPGateway,
      patchFields_wifiStaticIPNetmask, patchFields_rf24Channels, patchFields_deviceIds,
      patchFields_gatewayConfigs, patchFields_groupStateFields,
        setIfPresent] <;>
      intro hseq hc <;>
      first
        | exact absurd hseq (by decide)
        | simp only [hc, if_true]
  · intro n h
    unfold patch
    simp only [hd, if_true, patchFields_radioInterfaceType, JsonObject.containsKey,
      JsonObject.get, h, Option.isSome_some, Option.getD_some, asString]
    exact typeFromString_toString_int n
  · intro h
    rw [hpin "abc" h]
    simp [parseInteger, atoiDigits, isdigit]

theorem patch_present_scalar_overwrites_witness :
    Field.agree Field.cePin
        (patch Demo.env Demo.custom ⟨true, [("ce_pin", Json.str "abc")]⟩)
        (patch Demo.env Demo.defaults ⟨true, [("ce_pin", Json.str "abc")]⟩)
    ∧ (patch Demo.env Demo.custom
        ⟨true, [("radio_interface_type", Json.num 5)]⟩).radioInterfaceType
      = RadioInterfaceType.nRF24
    ∧ (patch Demo.env Demo.custom ⟨true, [("ce_pin", Json.str "abc")]⟩).cePin = 0 :=
  ⟨(patch_present_scalar_overwrites Demo.env Demo.custom Demo.defaults
      ⟨true, [("ce_pin", Json.str "abc")]⟩ rfl).1 Field.cePin rfl rfl,
   (patch_present_scalar_overwrites Demo.env Demo.custom Demo.defaults
      ⟨true, [("radio_interface_type", Json.num 5)]⟩ rfl).2.1 5 rfl,
   (patch_present_scalar_overwrites Demo.env Demo.custom Demo.defaults
      ⟨true, [("ce_pin", Json.str "abc")]⟩ rfl).2.2.2 rfl⟩

end Proofs

end Milight
